import Mathlib

/-!
# Bounce game: simulation tick, collision resolution and game state

A shallow embedding of the simulation core of `src/game.js`
(`update`, `updateParticles`, `createParticle`, `triggerSupernova`,
`drawSupernova`, `checkHighScore`, `startGame`, `showCharacterSelectScreen`)
together with theorems about it.

Modelling conventions.

* JavaScript numbers are modelled by an arbitrary linearly ordered field `α`
  with a floor function (exact arithmetic, for instance `ℚ` or `ℝ`); decimal
  literals of the source are kept as written.
* `score` and `highScore` are integer counters that only ever hold
  natural numbers, they are modelled by `Nat`.
* The functions of the host library that are not field operations
  (`Math.sqrt`, `Math.atan2`, `Math.cos`, `Math.sin`) are the fields of
  `JSMath`; the values a call reads from the host (`Date.now()`,
  `Math.random()`, the state of the media recorder) are the fields of `Host`.
* Canvas drawing, audio, DOM updates, chat messages and timers are not part of
  the state; they do not write any of the variables modelled here.
-/

namespace Game

/-! ## Constants (game.js 1-15, 123-135) -/

section Constants
variable {α : Type} [LinearOrderedField α]

def GRAVITY : α := 0.15
def BOUNCE_FACTOR : α := 0.8
def PLAYER_SPEED : α := 5
def BALL_VELOCITY_X : α := 1.5
def BALL_VELOCITY_Y : α := -8
def BOUNCE_POWER_INCREASE : α := 1.02
def CANVAS_WIDTH : α := 640
def CANVAS_HEIGHT : α := 480
def PLAYER_WIDTH : α := 50
def PLAYER_HEIGHT : α := 60
def BALL_RADIUS : α := 18
def GROUND_HEIGHT : α := 24
def GAME_OVER_ANIMATION_DURATION : α := 3000
def PARTICLE_SIZE_MIN : α := 2
def PARTICLE_SIZE_MAX : α := 5
def PARTICLE_SPEED_MIN : α := 1
def PARTICLE_SPEED_MAX : α := 3
def PARTICLE_LIFETIME_MIN : α := 15
def PARTICLE_LIFETIME_MAX : α := 30

end Constants

def PARTICLE_COLORS : List String := ["#ffaa00", "#ff8800", "#ff7700", "#ffcc00", "#ff5500"]
def PARTICLE_COUNT : Nat := 100

/-! ## Data model (game.js 52-138) -/

/-- The `velocity` object of the ball. -/
structure Vec (α : Type) where
  x : α
  y : α

/-- The `player` object (the `character` image is an asset and is left out). -/
structure Player (α : Type) where
  x : α
  y : α
  width : α
  height : α
  speed : α
  isMovingLeft : Bool
  isMovingRight : Bool
  color : String
  hoverOffset : α
  hoverHeight : α
  hoverSpeed : α

/-- The `ball` object (the image and its load flag are assets and are left out). -/
structure Ball (α : Type) where
  x : α
  y : α
  radius : α
  velocity : Vec α
  color : String
  rotation : α

/-- The `supernovaEffect` object. -/
structure Supernova (α : Type) where
  active : Bool
  x : α
  y : α
  radius : α
  maxRadius : α
  alpha : α
  color : String

/-- One element of `particles`; `color` is `none` when the colour lookup is out of range. -/
structure Particle (α : Type) where
  x : α
  y : α
  vx : α
  vy : α
  size : α
  color : Option String
  lifetime : α
  maxLifetime : α
  alpha : α

/-- The module-level variables of the simulation core. `selectedCharacter` records
whether the variable of that name is non-null and `characterImageComplete` is
`characterImage.complete`. -/
structure World (α : Type) where
  player : Player α
  ball : Ball α
  score : Nat
  highScore : Nat
  gameRunning : Bool
  gameOver : Bool
  gameOverEffectsActive : Bool
  gameOverRecordingStopped : Bool
  gameLoopRunning : Bool
  gameOverAnimationStart : α
  supernovaEffect : Supernova α
  particles : List (Particle α)
  isRecording : Bool
  selectedCharacter : Bool
  characterImageComplete : Bool

/-- The transcendental functions of the host numeric library. -/
structure JSMath (α : Type) where
  sqrt : α → α
  atan2 : α → α → α
  cos : α → α
  sin : α → α

/-- The values one call reads from the host: the clock at each `Date.now()` site,
the `Math.random()` draws of `createParticle` and `triggerSupernova`, and whether
the media recorder exists and is not inactive (`stopRecording`). -/
structure Host (α : Type) where
  nowHover : α
  nowParticles : α
  nowGameOver : α
  rSize : α
  rSpeed : α
  rLifetime : α
  rColor : α
  rVx : α
  rNova : α
  recorderActive : Bool

section Model
variable {α : Type} [LinearOrderedField α] [FloorRing α]

/-- The expression `v || d` on an optional numeric argument: the default is taken when
the argument is omitted or is zero. -/
def jsOr (v : Option α) (d : α) : α :=
  match v with
  | some x => if x = 0 then d else x
  | none => d

/-- The function `triggerSupernova(x, y, customMaxRadius, customAlpha)` (game.js 1394-1404);
`rNova` is the `Math.random()` draw of the default maximal radius. -/
def triggerSupernova (rNova : α) (x y : α) (customMaxRadius customAlpha : Option α) :
    Supernova α :=
  { active := true
    x := jsOr (some x) (CANVAS_WIDTH / 2)
    y := jsOr (some y) (CANVAS_HEIGHT / 2)
    radius := 10
    maxRadius := jsOr customMaxRadius (300 + rNova * 200)
    alpha := jsOr customAlpha 0.8
    color := "#ffaa00" }

/-- The state update at the end of `drawSupernova` (game.js 1381-1388). -/
def drawSupernova (e : Supernova α) : Supernova α :=
  let radius := e.radius + 2
  let alpha := e.alpha - 0.01
  { e with
    radius := radius
    alpha := alpha
    active := if alpha ≤ 0 ∨ radius ≥ e.maxRadius then false else e.active }

/-- The function `createParticle` (game.js 1881-1909). -/
def createParticle (h : Host α) (player : Player α) : Particle α :=
  let size := h.rSize * (PARTICLE_SIZE_MAX - PARTICLE_SIZE_MIN) + PARTICLE_SIZE_MIN
  let speed := h.rSpeed * (PARTICLE_SPEED_MAX - PARTICLE_SPEED_MIN) + PARTICLE_SPEED_MIN
  let lifetime : α :=
    ((⌊h.rLifetime * (PARTICLE_LIFETIME_MAX - PARTICLE_LIFETIME_MIN)⌋ : Int) : α)
      + PARTICLE_LIFETIME_MIN
  let color := PARTICLE_COLORS.get? (⌊h.rColor * (PARTICLE_COLORS.length : α)⌋ : Int).toNat
  let hoveredY := player.y + player.hoverOffset
  let x := player.x + player.width / 2
  let y := hoveredY + player.height
  let vx := (h.rVx - 0.5) * 2
  let vy := speed * 0.8
  { x := x, y := y, vx := vx, vy := vy, size := size, color := color
    lifetime := lifetime, maxLifetime := lifetime, alpha := 1 }

/-- The body of the loop of `updateParticles` for one particle (game.js 1920-1933). -/
def particleStep (p : Particle α) : Particle α :=
  let x := p.x + p.vx
  let y := p.y + p.vy
  let vy := p.vy + 0.05
  let lifetime := p.lifetime - 1
  { p with x := x, y := y, vy := vy, lifetime := lifetime, alpha := lifetime / p.maxLifetime }

/-- The loop `for (let i = particles.length - 1; i >= 0; i--)` of `updateParticles`
(game.js 1919-1939): `particleLoop n ps` runs the iterations `i = n - 1, ..., 0`,
updating the particle at index `i` in place and splicing it out when its lifetime
is not positive. -/
def particleLoop : Nat → List (Particle α) → List (Particle α)
  | 0, ps => ps
  | i + 1, ps =>
    match ps.get? i with
    | none => particleLoop i ps
    | some p =>
      let q := particleStep p
      if q.lifetime ≤ 0 then particleLoop i ((ps.set i q).eraseIdx i)
      else particleLoop i (ps.set i q)

/-- The function `updateParticles` (game.js 1912-1943). -/
def updateParticles (m : JSMath α) (h : Host α) (w : World α) : World α :=
  let ps :=
    if w.particles.length < PARTICLE_COUNT ∧ w.gameRunning = true then
      w.particles ++ [createParticle h w.player]
    else w.particles
  let ps := particleLoop ps.length ps
  { w with
    particles := ps
    player := { w.player with
      hoverOffset := m.sin (h.nowParticles * w.player.hoverSpeed) * w.player.hoverHeight } }

/-- The function `checkHighScore` (game.js 1178-1189). -/
def checkHighScore (w : World α) : World α :=
  if w.score > w.highScore then { w with highScore := w.score } else w

/-- The effect of `stopRecording` on the modelled state (game.js 2242-2252): the flag
is cleared when the recorder exists and is not inactive. -/
def stopRecording (h : Host α) (w : World α) : World α :=
  if h.recorderActive then { w with isRecording := false } else w

/-! ## The tick: `update` (game.js 766-919) -/

/-- Player movement and clamping (game.js 791-805). -/
def movePlayer (p : Player α) : Player α :=
  let x := if p.isMovingLeft then p.x - p.speed else p.x
  let x := if p.isMovingRight then x + p.speed else x
  let x := if x < 0 then 0 else x
  let x := if x + p.width > CANVAS_WIDTH then CANVAS_WIDTH - p.width else x
  { p with x := x }

/-- Ball integration and rotation (game.js 807-818). -/
def integrateBall (b : Ball α) : Ball α :=
  let prevX := b.x
  let vy := b.velocity.y + GRAVITY
  let x := b.x + b.velocity.x
  let y := b.y + vy
  let distanceTraveled := x - prevX
  { b with
    x := x
    y := y
    velocity := { b.velocity with y := vy }
    rotation := b.rotation - distanceTraveled / b.radius }

/-- Ball collision with the walls (game.js 820-829). -/
def wallCollision (b : Ball α) : Ball α :=
  if b.x - b.radius < 0 then
    { b with x := b.radius, velocity := { b.velocity with x := -b.velocity.x * BOUNCE_FACTOR } }
  else if b.x + b.radius > CANVAS_WIDTH then
    { b with
      x := CANVAS_WIDTH - b.radius
      velocity := { b.velocity with x := -b.velocity.x * BOUNCE_FACTOR } }
  else b

/-- The distance computed for the player check (game.js 832-838): from the ball centre to
the centre of the player's body. -/
def hitDistance (m : JSMath α) (p : Player α) (b : Ball α) : α :=
  let playerHeadX := p.x + p.width / 2
  let playerHeadY := p.y + p.height / 2
  let dx := b.x - playerHeadX
  let dy := b.y - playerHeadY
  m.sqrt (dx * dx + dy * dy)

/-- The condition of the player check (game.js 840). -/
def playerHit (m : JSMath α) (p : Player α) (b : Ball α) : Bool :=
  let playerCollisionRadius := min p.width p.height / 2
  decide (hitDistance m p b < b.radius + playerCollisionRadius) && decide (b.velocity.y > 0)

/-- The velocity given to the ball by a player hit (game.js 842-846). -/
def hitVelocity (m : JSMath α) (p : Player α) (b : Ball α) : Vec α :=
  let playerHeadX := p.x + p.width / 2
  let playerHeadY := p.y + p.height / 2
  let dx := b.x - playerHeadX
  let dy := b.y - playerHeadY
  let hitAngle := m.atan2 dy dx
  let hitPower := m.sqrt (b.velocity.x * b.velocity.x + b.velocity.y * b.velocity.y)
  { x := m.cos hitAngle * hitPower * 0.8
    y := -|b.velocity.y| * BOUNCE_POWER_INCREASE }

/-- Ball collision with the player (game.js 831-875). -/
def playerCollision (m : JSMath α) (h : Host α) (w : World α) : World α :=
  if playerHit m w.player w.ball then
    let ball := { w.ball with velocity := hitVelocity m w.player w.ball }
    let score := w.score + 1
    let nova :=
      if score % 10 = 0 then triggerSupernova h.rNova ball.x ball.y none none
      else w.supernovaEffect
    { w with ball := ball, score := score, supernovaEffect := nova }
  else w

/-- Ball collision with the ground (game.js 877-918). -/
def groundCollision (h : Host α) (w : World α) : World α :=
  if w.ball.y + w.ball.radius > CANVAS_HEIGHT - GROUND_HEIGHT then
    if w.gameRunning then
      let w := { w with
        gameOver := true
        gameRunning := false
        gameOverAnimationStart := h.nowGameOver
        gameOverEffectsActive := true }
      let w := checkHighScore w
      { w with
        supernovaEffect :=
          triggerSupernova h.rNova (CANVAS_WIDTH / 2) (CANVAS_HEIGHT / 2) (some 500) (some 0.9) }
    else
      { w with ball := { w.ball with
          y := CANVAS_HEIGHT - GROUND_HEIGHT - w.ball.radius
          velocity := { x := w.ball.velocity.x * BOUNCE_FACTOR
                        y := -w.ball.velocity.y * BOUNCE_FACTOR } } }
  else w

/-- The part of `update` that is executed when the game is running (game.js 791-918). -/
def runningTick (m : JSMath α) (h : Host α) (w : World α) : World α :=
  let w := { w with player := movePlayer w.player }
  let w := { w with ball := integrateBall w.ball }
  let w := { w with ball := wallCollision w.ball }
  let w := playerCollision m h w
  groundCollision h w

/-- The function `update` (game.js 766-919). -/
def update (m : JSMath α) (h : Host α) (w : World α) : World α :=
  let w := { w with player := { w.player with
    hoverOffset := m.sin (h.nowHover * w.player.hoverSpeed) * w.player.hoverHeight } }
  let w := updateParticles m h w
  if !w.gameRunning then
    if w.gameOver && w.gameOverEffectsActive then
      if w.isRecording && !w.gameOverRecordingStopped then
        { stopRecording h w with gameOverRecordingStopped := true }
      else w
    else w
  else runningTick m h w

/-! ## Starting, leaving and drawing (game.js 722-763, 922-960, 1102-1175) -/

/-- The function `startGame` (game.js 1102-1175). -/
def startGame (h : Host α) (w : World α) : World α :=
  if !w.selectedCharacter || !w.characterImageComplete then w
  else
    let player : Player α :=
      { w.player with
        x := CANVAS_WIDTH / 2 - PLAYER_WIDTH / 2
        y := CANVAS_HEIGHT - PLAYER_HEIGHT - GROUND_HEIGHT
        width := PLAYER_WIDTH
        height := PLAYER_HEIGHT
        speed := PLAYER_SPEED
        isMovingLeft := false
        isMovingRight := false
        color := "#ff9900"
        hoverOffset := 0
        hoverHeight := 10
        hoverSpeed := 0.003 }
    let ball : Ball α :=
      { w.ball with
        x := CANVAS_WIDTH / 2
        y := CANVAS_HEIGHT / 2
        radius := BALL_RADIUS
        velocity := { x := BALL_VELOCITY_X, y := BALL_VELOCITY_Y }
        color := "#0099ff"
        rotation := 0 }
    let w := { w with
      player := player
      ball := ball
      score := 0
      gameRunning := true
      gameOver := false
      gameOverEffectsActive := false
      gameOverRecordingStopped := false
      supernovaEffect :=
        triggerSupernova h.rNova (CANVAS_WIDTH / 2) (CANVAS_HEIGHT / 2) (some 500) (some 0.3)
      gameLoopRunning := true }
    if w.isRecording then stopRecording h w else w

/-- The function `showCharacterSelectScreen` (game.js 722-733). -/
def showCharacterSelectScreen (w : World α) : World α :=
  if w.gameRunning then { w with gameRunning := false } else w

/-- The state changes of one `drawGame` call (game.js 922-960): `drawBackground` runs the
supernova step when the effect is active (game.js 1355-1358) and `drawGame` then calls
`drawSupernova` itself (game.js 943). -/
def drawGame (w : World α) : World α :=
  let e := if w.supernovaEffect.active then drawSupernova w.supernovaEffect
           else w.supernovaEffect
  { w with supernovaEffect := drawSupernova e }

/-- The function `gameLoop` (game.js 748-763). -/
def gameLoop (m : JSMath α) (h : Host α) (w : World α) : World α :=
  let w := if w.gameRunning then update m h w
           else if w.gameOver then update m h w
           else w
  drawGame w

/-- The module-level initial values (game.js 52-138); the image created by `new Image()`
has no source yet and counts as complete. -/
def initialWorld : World α :=
  { player :=
      { x := CANVAS_WIDTH / 2 - PLAYER_WIDTH / 2
        y := CANVAS_HEIGHT - PLAYER_HEIGHT - GROUND_HEIGHT
        width := PLAYER_WIDTH
        height := PLAYER_HEIGHT
        speed := PLAYER_SPEED
        isMovingLeft := false
        isMovingRight := false
        color := "#ff9900"
        hoverOffset := 0
        hoverHeight := 10
        hoverSpeed := 0.003 }
    ball :=
      { x := CANVAS_WIDTH / 2
        y := CANVAS_HEIGHT / 2
        radius := BALL_RADIUS
        velocity := { x := BALL_VELOCITY_X, y := BALL_VELOCITY_Y }
        color := "#ffffff"
        rotation := 0 }
    score := 0
    highScore := 0
    gameRunning := false
    gameOver := false
    gameOverEffectsActive := false
    gameOverRecordingStopped := false
    gameLoopRunning := false
    gameOverAnimationStart := 0
    supernovaEffect :=
      { active := false, x := 0, y := 0, radius := 0, maxRadius := 200, alpha := 1
        color := "#ffaa00" }
    particles := []
    isRecording := false
    selectedCharacter := false
    characterImageComplete := true }

/-! ## Host events and reachable states -/

/-- The effect of `selectCharacter` with `preloadCharacterImage` (game.js 594-653): a
character is selected and `characterImage` is replaced by a new image whose `complete`
flag is the host's. -/
def selectCharacter (complete : Bool) (w : World α) : World α :=
  { w with selectedCharacter := true, characterImageComplete := complete }

/-- The `onload` handler of the character image (game.js 657-671): the image is complete
and the player's width follows the aspect ratio of an image with non-zero sizes. -/
def characterImageOnload (imageWidth imageHeight : α) (w : World α) : World α :=
  let w := { w with characterImageComplete := true }
  if imageWidth ≠ 0 ∧ imageHeight ≠ 0 then
    let aspectRatio := imageWidth / imageHeight
    { w with player := { w.player with width := w.player.height * aspectRatio } }
  else w

/-- The key and touch handlers (game.js 1063-1099, 2445-2520) write the two movement flags. -/
def setMovement (left right : Bool) (w : World α) : World α :=
  { w with player := { w.player with isMovingLeft := left, isMovingRight := right } }

/-- The supernova of a subscription chat message (game.js 1548-1554). -/
def subscriptionSupernova (rx ry rNova : α) (w : World α) : World α :=
  if w.gameRunning then
    { w with supernovaEffect :=
        triggerSupernova rNova (rx * CANVAS_WIDTH) (ry * (CANVAS_HEIGHT / 2)) none none }
  else w

/-- The recording collaborator switches `isRecording` (game.js 2169, 2179, 2252). -/
def setRecording (recording : Bool) (w : World α) : World α :=
  { w with isRecording := recording }

/-- The calls that change the modelled state. -/
inductive Event (α : Type) where
  | startGame (h : Host α)
  | update (h : Host α)
  | showCharacterSelectScreen
  | drawGame
  | selectCharacter (complete : Bool)
  | characterImageOnload (imageWidth imageHeight : α)
  | setMovement (left right : Bool)
  | subscriptionSupernova (rx ry rNova : α)
  | setRecording (recording : Bool)

/-- The state after one event. -/
def step (m : JSMath α) (e : Event α) (w : World α) : World α :=
  match e with
  | .startGame h => startGame h w
  | .update h => update m h w
  | .showCharacterSelectScreen => showCharacterSelectScreen w
  | .drawGame => drawGame w
  | .selectCharacter c => selectCharacter c w
  | .characterImageOnload iw ih => characterImageOnload iw ih w
  | .setMovement l r => setMovement l r w
  | .subscriptionSupernova rx ry rn => subscriptionSupernova rx ry rn w
  | .setRecording b => setRecording b w

/-- The state after a sequence of events, the first of the list first. -/
def run (m : JSMath α) (es : List (Event α)) (w : World α) : World α :=
  es.foldl (fun w e => step m e w) w

/-- The state after a sequence of `update` calls, one per element of the list. -/
def updates (m : JSMath α) (hs : List (Host α)) (w : World α) : World α :=
  hs.foldl (fun w h => update m h w) w

/-- The game state Idle. -/
def isIdle (w : World α) : Prop := w.gameRunning = false ∧ w.gameOver = false

/-- The game state Running. -/
def isRunning (w : World α) : Prop := w.gameRunning = true ∧ w.gameOver = false

/-- The game state GameOver. -/
def isGameOver (w : World α) : Prop := w.gameRunning = false ∧ w.gameOver = true

/-- The flags `gameRunning` and `gameOver` are not both set. -/
def flagsExclusive (w : World α) : Prop := ¬ (w.gameRunning = true ∧ w.gameOver = true)

instance (w : World α) : Decidable (isIdle w) := by unfold isIdle; infer_instance
instance (w : World α) : Decidable (isRunning w) := by unfold isRunning; infer_instance
instance (w : World α) : Decidable (isGameOver w) := by unfold isGameOver; infer_instance

/-! ## Intermediate states of a tick -/

/-- The world on which the running part of `update` works: hover offset refreshed and
particles updated (game.js 768-771). -/
def tickStart (m : JSMath α) (h : Host α) (w : World α) : World α :=
  updateParticles m h { w with player := { w.player with
    hoverOffset := m.sin (h.nowHover * w.player.hoverSpeed) * w.player.hoverHeight } }

/-- The world at the player check of a running tick: player moved, ball integrated and
walls resolved (game.js 791-829). -/
def afterWalls (w : World α) : World α :=
  { w with player := movePlayer w.player, ball := wallCollision (integrateBall w.ball) }

/-! ## Sample inputs -/

/-- A host whose clock and random draws are all zero and whose recorder is inactive. -/
def zeroHost : Host α :=
  { nowHover := 0, nowParticles := 0, nowGameOver := 0, rSize := 0, rSpeed := 0
    rLifetime := 0, rColor := 0, rVx := 0, rNova := 0, recorderActive := false }

/-- The state right after the first `startGame` of a session. -/
def roundStart : World α :=
  startGame zeroHost (selectCharacter true initialWorld)

/-- A running state with the given ball position and velocity, everything else as
`startGame` leaves it. -/
def withBall (x y vx vy : α) : World α :=
  { (roundStart : World α) with
    ball := { (roundStart : World α).ball with x := x, y := y, velocity := { x := vx, y := vy } } }

/-- The given state with the score and the high score replaced. -/
def withScore (score highScore : Nat) (w : World α) : World α :=
  { w with score := score, highScore := highScore }

/-! ## Further definitions: player bounds, particle runs, animation progress -/

/-- Whether the event is the `onload` handler of the character image, the only writer of
`player.width` besides `startGame`. -/
def Event.isImageOnload : Event α → Bool
  | .characterImageOnload _ _ => true
  | _ => false

/-- The player keeps the start width and stands inside the field. -/
def playerInField (w : World α) : Prop :=
  w.player.width = PLAYER_WIDTH ∧ 0 ≤ w.player.x ∧ w.player.x ≤ CANVAS_WIDTH - PLAYER_WIDTH

/-- The particle list after `k` runs of the loop of `updateParticles` without new
particles in between. -/
def particlesAfter (k : Nat) (ps : List (Particle α)) : List (Particle α) :=
  (fun l => particleLoop l.length l)^[k] ps

/-- The new particle that `updateParticles` pushes before its loop, if any
(game.js 1914-1916). -/
def spawned (h : Host α) (w : World α) : List (Particle α) :=
  if w.particles.length < PARTICLE_COUNT ∧ w.gameRunning = true then
    [createParticle h w.player]
  else []

/-- The first statement of `update` (game.js 768): the hover offset is recomputed. -/
def hoverUpdate (m : JSMath α) (h : Host α) (w : World α) : World α :=
  { w with player := { w.player with
    hoverOffset := m.sin (h.nowHover * w.player.hoverSpeed) * w.player.hoverHeight } }

/-- The value `animationProgress` computed by `drawGameOverScreen` (game.js 1742-1743) from
the current time and `gameOverAnimationStart`. -/
def animationProgress (currentTime gameOverAnimationStart : α) : α :=
  min 1 ((currentTime - gameOverAnimationStart) / GAME_OVER_ANIMATION_DURATION)

/-- A state as the transition to GameOver leaves it: the round is over and the ball is
below the ground line, still moving down. -/
def gameOverSample : World α :=
  { (withBall 100 440 1.5 2 : World α) with
    gameRunning := false, gameOver := true, gameOverEffectsActive := true }

/-! ## Further definitions: orders of the steps, particle ages, a first hit -/

/-- The simple description of the particle update that the loop of `updateParticles` is
compared with: every particle takes one step, then the particles whose lifetime is not
positive are filtered out. -/
def simpleParticleUpdate (ps : List (Particle α)) : List (Particle α) :=
  (ps.map particleStep).filter (fun q => !decide (q.lifetime ≤ 0))

/-- The values of the variables after one tick of a round that is then left through
`showCharacterSelectScreen`: the game is Idle and a particle is alive. The browser runs no
frame in this state, since `showCharacterSelectScreen` cancels the pending one (game.js
729-731); the state serves as an argument of `gameLoop` taken as a function. -/
def idleWithParticle (m : JSMath α) : World α :=
  showCharacterSelectScreen (update m zeroHost roundStart)

/-- The running tick with its steps in the order of the specification, for comparison with
`update`: player movement, ball integration, collision resolution (walls, player,
ground), and the particle update last. -/
def runningTickParticlesLast (m : JSMath α) (h : Host α) (w : World α) : World α :=
  updateParticles m h (groundCollision h (playerCollision m h (afterWalls (hoverUpdate m h w))))

/-- A host like `zeroHost` whose draw for the horizontal particle velocity is 0.5, so
that a new particle has no horizontal velocity. -/
def stillHost : Host α :=
  { (zeroHost : Host α) with rVx := 0.5 }

/-- The number of loop runs a particle has been through: maximal lifetime minus lifetime. -/
def particleAge (p : Particle α) : Nat :=
  ⌊p.maxLifetime - p.lifetime⌋₊

/-- The particle list as the calls of `updateParticles` leave it when lifetimes are drawn
from 15..29: from the oldest particle to the youngest the ages strictly fall, and every
particle has a whole lifetime of at least 1 below a whole maximal lifetime of at most 29. -/
def agedParticles (ps : List (Particle α)) : Prop :=
  ps.Pairwise (fun p q => particleAge q < particleAge p)
  ∧ ∀ p ∈ ps, ∃ L l : Nat, p.maxLifetime = L ∧ p.lifetime = l ∧ 1 ≤ l ∧ l < L ∧ L ≤ 29

/-- The `Math.random()` draw for the lifetime lies in `[0, 1)` in every `update` event. -/
def Event.drawsInRange : Event α → Prop
  | .update h => 0 ≤ h.rLifetime ∧ h.rLifetime < 1
  | _ => True

/-- The high score records the round that is over: the two state flags exclude each
other, and in GameOver the score is at most the high score. -/
def scoreRecorded (w : World α) : Prop :=
  flagsExclusive w ∧ (w.gameOver = true → w.score ≤ w.highScore)

/-- The state `n` ticks after `startGame` while nothing has been hit: the round runs, no
point is scored, the ball is on its first arc, the player stands at `px` with the
right-movement flag `r`. -/
def inFlight (n : Nat) (px : α) (r : Bool) (w : World α) : Prop :=
  w.gameRunning = true ∧ w.score = 0 ∧ w.highScore = 0
  ∧ w.player.x = px ∧ w.player.y = 396 ∧ w.player.width = 50 ∧ w.player.height = 60
  ∧ w.player.speed = 5 ∧ w.player.isMovingLeft = false ∧ w.player.isMovingRight = r
  ∧ w.ball.radius = 18 ∧ w.ball.x = 320 + 1.5 * (n : α)
  ∧ w.ball.y = 240 - 8 * (n : α) + 0.075 * ((n : α) * ((n : α) + 1))
  ∧ w.ball.velocity.x = 1.5 ∧ w.ball.velocity.y = -8 + 0.15 * (n : α)

/-- A session in which the player catches the first ball: the character is chosen, the
round starts, the ball flies for 85 ticks, the right key goes down, and 37 ticks later
the ball comes down on the player. -/
def firstHitTrace : List (Event α) :=
  [Event.selectCharacter true, Event.startGame zeroHost]
    ++ List.replicate 85 (Event.update zeroHost)
    ++ [Event.setMovement false true]
    ++ List.replicate 37 (Event.update zeroHost)

/-! ## Basic facts about one tick -/

theorem update_of_running (m : JSMath α) (h : Host α) (w : World α)
    (hrun : w.gameRunning = true) :
    update m h w = runningTick m h (updateParticles m h { w with player := { w.player with
      hoverOffset := m.sin (h.nowHover * w.player.hoverSpeed) * w.player.hoverHeight } }) := by
  simp [update, updateParticles, hrun]

omit [FloorRing α] in
theorem playerHit_congr (m : JSMath α) (p q : Player α) (b c : Ball α)
    (hx : p.x = q.x) (hy : p.y = q.y) (hw : p.width = q.width) (hh : p.height = q.height)
    (bx : b.x = c.x) (by1 : b.y = c.y) (br : b.radius = c.radius)
    (bv : b.velocity.y = c.velocity.y) :
    playerHit m p b = playerHit m q c := by
  simp [playerHit, hitDistance, hx, hy, hw, hh, bx, by1, br, bv]

omit [FloorRing α] in
theorem runningTick_eq (m : JSMath α) (h : Host α) (w : World α) :
    runningTick m h w = groundCollision h (playerCollision m h (afterWalls w)) := rfl

theorem update_running_eq (m : JSMath α) (h : Host α) (w : World α)
    (hrun : w.gameRunning = true) :
    update m h w = groundCollision h (playerCollision m h (afterWalls (tickStart m h w))) := by
  rw [update_of_running m h w hrun, runningTick_eq]; rfl

theorem update_idle_eq (m : JSMath α) (h : Host α) (w : World α)
    (hrun : w.gameRunning = false) :
    update m h w =
      if (tickStart m h w).gameOver && (tickStart m h w).gameOverEffectsActive then
        if (tickStart m h w).isRecording && !(tickStart m h w).gameOverRecordingStopped then
          { stopRecording h (tickStart m h w) with gameOverRecordingStopped := true }
        else tickStart m h w
      else tickStart m h w := by
  simp [update, tickStart, updateParticles, hrun]

/-! ### What `tickStart` keeps -/

theorem tickStart_ball (m : JSMath α) (h : Host α) (w : World α) :
    (tickStart m h w).ball = w.ball := rfl
theorem tickStart_score (m : JSMath α) (h : Host α) (w : World α) :
    (tickStart m h w).score = w.score := rfl
theorem tickStart_highScore (m : JSMath α) (h : Host α) (w : World α) :
    (tickStart m h w).highScore = w.highScore := rfl
theorem tickStart_gameRunning (m : JSMath α) (h : Host α) (w : World α) :
    (tickStart m h w).gameRunning = w.gameRunning := rfl
theorem tickStart_gameOver (m : JSMath α) (h : Host α) (w : World α) :
    (tickStart m h w).gameOver = w.gameOver := rfl
theorem tickStart_supernova (m : JSMath α) (h : Host α) (w : World α) :
    (tickStart m h w).supernovaEffect = w.supernovaEffect := rfl
theorem tickStart_animationStart (m : JSMath α) (h : Host α) (w : World α) :
    (tickStart m h w).gameOverAnimationStart = w.gameOverAnimationStart := rfl
theorem tickStart_player_x (m : JSMath α) (h : Host α) (w : World α) :
    (tickStart m h w).player.x = w.player.x := rfl
theorem tickStart_player_y (m : JSMath α) (h : Host α) (w : World α) :
    (tickStart m h w).player.y = w.player.y := rfl
theorem tickStart_player_width (m : JSMath α) (h : Host α) (w : World α) :
    (tickStart m h w).player.width = w.player.width := rfl
theorem tickStart_player_height (m : JSMath α) (h : Host α) (w : World α) :
    (tickStart m h w).player.height = w.player.height := rfl

/-! ### Phase lemmas -/

omit [FloorRing α] in
theorem movePlayer_y (p : Player α) : (movePlayer p).y = p.y := rfl
omit [FloorRing α] in
theorem movePlayer_width (p : Player α) : (movePlayer p).width = p.width := rfl
omit [FloorRing α] in
theorem movePlayer_height (p : Player α) : (movePlayer p).height = p.height := rfl

omit [FloorRing α] in
theorem wallCollision_y (b : Ball α) : (wallCollision b).y = b.y := by
  unfold wallCollision; split_ifs <;> rfl
omit [FloorRing α] in
theorem wallCollision_radius (b : Ball α) : (wallCollision b).radius = b.radius := by
  unfold wallCollision; split_ifs <;> rfl
omit [FloorRing α] in
theorem wallCollision_vy (b : Ball α) : (wallCollision b).velocity.y = b.velocity.y := by
  unfold wallCollision; split_ifs <;> rfl

omit [FloorRing α] in
theorem playerCollision_gameRunning (m : JSMath α) (h : Host α) (w : World α) :
    (playerCollision m h w).gameRunning = w.gameRunning := by
  unfold playerCollision; split_ifs <;> rfl
omit [FloorRing α] in
theorem playerCollision_gameOver (m : JSMath α) (h : Host α) (w : World α) :
    (playerCollision m h w).gameOver = w.gameOver := by
  unfold playerCollision; split_ifs <;> rfl
omit [FloorRing α] in
theorem playerCollision_highScore (m : JSMath α) (h : Host α) (w : World α) :
    (playerCollision m h w).highScore = w.highScore := by
  unfold playerCollision; split_ifs <;> rfl
omit [FloorRing α] in
theorem playerCollision_player (m : JSMath α) (h : Host α) (w : World α) :
    (playerCollision m h w).player = w.player := by
  unfold playerCollision; split_ifs <;> rfl
omit [FloorRing α] in
theorem playerCollision_score (m : JSMath α) (h : Host α) (w : World α) :
    (playerCollision m h w).score = if playerHit m w.player w.ball then w.score + 1 else w.score := by
  unfold playerCollision; split_ifs <;> rfl
omit [FloorRing α] in
theorem playerCollision_ball (m : JSMath α) (h : Host α) (w : World α) :
    (playerCollision m h w).ball =
      if playerHit m w.player w.ball then { w.ball with velocity := hitVelocity m w.player w.ball }
      else w.ball := by
  unfold playerCollision; split_ifs <;> rfl

omit [FloorRing α] in
theorem groundCollision_ball (h : Host α) (w : World α) (hrun : w.gameRunning = true) :
    (groundCollision h w).ball = w.ball := by
  simp only [groundCollision, checkHighScore, hrun]; split_ifs <;> rfl
omit [FloorRing α] in
theorem groundCollision_score (h : Host α) (w : World α) :
    (groundCollision h w).score = w.score := by
  simp only [groundCollision, checkHighScore]; split_ifs <;> rfl
omit [FloorRing α] in
theorem groundCollision_player (h : Host α) (w : World α) :
    (groundCollision h w).player = w.player := by
  simp only [groundCollision, checkHighScore]; split_ifs <;> rfl

/-- The ball at the end of a running tick. -/
theorem update_running_ball (m : JSMath α) (h : Host α) (w : World α)
    (hrun : w.gameRunning = true) :
    (update m h w).ball =
      if playerHit m (movePlayer w.player) (wallCollision (integrateBall w.ball)) then
        { wallCollision (integrateBall w.ball) with
          velocity := hitVelocity m (movePlayer w.player) (wallCollision (integrateBall w.ball)) }
      else wallCollision (integrateBall w.ball) := by
  rw [update_running_eq m h w hrun, groundCollision_ball, playerCollision_ball]
  · rfl
  · rw [playerCollision_gameRunning]; exact hrun

/-- The score at the end of a running tick. -/
theorem update_running_score (m : JSMath α) (h : Host α) (w : World α)
    (hrun : w.gameRunning = true) :
    (update m h w).score =
      if playerHit m (movePlayer w.player) (wallCollision (integrateBall w.ball)) then w.score + 1
      else w.score := by
  rw [update_running_eq m h w hrun, groundCollision_score, playerCollision_score]
  rfl

/-- The fields that an `update` call leaves alone when the game is not running. -/
theorem update_idle_fields (m : JSMath α) (h : Host α) (w : World α)
    (hrun : w.gameRunning = false) :
    (update m h w).score = w.score ∧ (update m h w).highScore = w.highScore
      ∧ (update m h w).gameRunning = w.gameRunning ∧ (update m h w).gameOver = w.gameOver
      ∧ (update m h w).gameOverAnimationStart = w.gameOverAnimationStart
      ∧ (update m h w).supernovaEffect = w.supernovaEffect
      ∧ (update m h w).ball = w.ball
      ∧ (update m h w).player.x = w.player.x ∧ (update m h w).player.y = w.player.y := by
  rw [update_idle_eq m h w hrun]
  split_ifs
  · unfold stopRecording
    split_ifs <;> exact ⟨rfl, rfl, rfl, rfl, rfl, rfl, rfl, rfl, rfl⟩
  · exact ⟨rfl, rfl, rfl, rfl, rfl, rfl, rfl, rfl, rfl⟩
  · exact ⟨rfl, rfl, rfl, rfl, rfl, rfl, rfl, rfl, rfl⟩

/-- The horizontal position of the ball at the end of a running tick. -/
theorem update_running_ball_x (m : JSMath α) (h : Host α) (w : World α)
    (hrun : w.gameRunning = true) :
    (update m h w).ball.x = (wallCollision (integrateBall w.ball)).x := by
  rw [update_running_ball m h w hrun]; split_ifs <;> rfl

omit [FloorRing α] in
theorem playerCollision_ball_y (m : JSMath α) (h : Host α) (w : World α) :
    (playerCollision m h w).ball.y = w.ball.y := by
  rw [playerCollision_ball]; split_ifs <;> rfl
omit [FloorRing α] in
theorem playerCollision_ball_radius (m : JSMath α) (h : Host α) (w : World α) :
    (playerCollision m h w).ball.radius = w.ball.radius := by
  rw [playerCollision_ball]; split_ifs <;> rfl

omit [FloorRing α] in
theorem groundCollision_crossing (h : Host α) (w : World α) (hrun : w.gameRunning = true)
    (hc : w.ball.y + w.ball.radius > CANVAS_HEIGHT - GROUND_HEIGHT) :
    (groundCollision h w).gameRunning = false ∧ (groundCollision h w).gameOver = true
      ∧ (groundCollision h w).highScore = max w.highScore w.score
      ∧ (groundCollision h w).gameOverAnimationStart = h.nowGameOver
      ∧ (groundCollision h w).supernovaEffect =
          triggerSupernova h.rNova (CANVAS_WIDTH / 2) (CANVAS_HEIGHT / 2) (some 500) (some 0.9) := by
  by_cases hs : w.score > w.highScore
  · simp [groundCollision, checkHighScore, hrun, hc, hs, max_eq_right (le_of_lt hs)]
  · simp [groundCollision, checkHighScore, hrun, hc, hs, max_eq_left (not_lt.mp hs)]

omit [FloorRing α] in
theorem groundCollision_clear (h : Host α) (w : World α)
    (hc : ¬ (w.ball.y + w.ball.radius > CANVAS_HEIGHT - GROUND_HEIGHT)) :
    groundCollision h w = w := by
  simp only [groundCollision, hc, if_false]

/-- The ground check of a running tick reads the integrated height of the ball. -/
theorem update_running_crossing (m : JSMath α) (h : Host α) (w : World α)
    (hrun : w.gameRunning = true)
    (hc : w.ball.y + (w.ball.velocity.y + GRAVITY) + w.ball.radius
      > CANVAS_HEIGHT - GROUND_HEIGHT) :
    (update m h w).gameRunning = false ∧ (update m h w).gameOver = true
      ∧ (update m h w).highScore = max w.highScore (update m h w).score
      ∧ (update m h w).gameOverAnimationStart = h.nowGameOver
      ∧ (update m h w).supernovaEffect =
          triggerSupernova h.rNova (CANVAS_WIDTH / 2) (CANVAS_HEIGHT / 2) (some 500) (some 0.9) := by
  have hs : (update m h w).score = (playerCollision m h (afterWalls (tickStart m h w))).score := by
    rw [update_running_eq m h w hrun, groundCollision_score]
  rw [hs, update_running_eq m h w hrun]
  have hr : (playerCollision m h (afterWalls (tickStart m h w))).gameRunning = true := by
    rw [playerCollision_gameRunning]; exact hrun
  have hy : (playerCollision m h (afterWalls (tickStart m h w))).ball.y
      + (playerCollision m h (afterWalls (tickStart m h w))).ball.radius
      > CANVAS_HEIGHT - GROUND_HEIGHT := by
    rw [playerCollision_ball_y, playerCollision_ball_radius]
    show (wallCollision (integrateBall w.ball)).y + (wallCollision (integrateBall w.ball)).radius
      > CANVAS_HEIGHT - GROUND_HEIGHT
    rw [wallCollision_y, wallCollision_radius]
    exact hc
  have hg := groundCollision_crossing h _ hr hy
  rw [playerCollision_highScore] at hg
  exact hg

theorem update_running_clear (m : JSMath α) (h : Host α) (w : World α)
    (hrun : w.gameRunning = true)
    (hc : ¬ (w.ball.y + (w.ball.velocity.y + GRAVITY) + w.ball.radius
      > CANVAS_HEIGHT - GROUND_HEIGHT)) :
    (update m h w).gameRunning = true ∧ (update m h w).gameOver = w.gameOver
      ∧ (update m h w).highScore = w.highScore := by
  rw [update_running_eq m h w hrun]
  have hy : ¬ ((playerCollision m h (afterWalls (tickStart m h w))).ball.y
      + (playerCollision m h (afterWalls (tickStart m h w))).ball.radius
      > CANVAS_HEIGHT - GROUND_HEIGHT) := by
    rw [playerCollision_ball_y, playerCollision_ball_radius]
    show ¬ ((wallCollision (integrateBall w.ball)).y + (wallCollision (integrateBall w.ball)).radius
      > CANVAS_HEIGHT - GROUND_HEIGHT)
    rw [wallCollision_y, wallCollision_radius]
    exact hc
  rw [groundCollision_clear h _ hy, playerCollision_gameRunning, playerCollision_gameOver,
    playerCollision_highScore]
  exact ⟨hrun, rfl, rfl⟩

/-- Any number of `update` calls on a game that is not running leaves the core fields alone. -/
theorem updates_idle_fields (m : JSMath α) (hs : List (Host α)) (w : World α)
    (hrun : w.gameRunning = false) :
    (updates m hs w).score = w.score ∧ (updates m hs w).highScore = w.highScore
      ∧ (updates m hs w).gameRunning = w.gameRunning ∧ (updates m hs w).gameOver = w.gameOver
      ∧ (updates m hs w).gameOverAnimationStart = w.gameOverAnimationStart
      ∧ (updates m hs w).supernovaEffect = w.supernovaEffect
      ∧ (updates m hs w).ball = w.ball
      ∧ (updates m hs w).player.x = w.player.x ∧ (updates m hs w).player.y = w.player.y := by
  induction hs generalizing w with
  | nil => exact ⟨rfl, rfl, rfl, rfl, rfl, rfl, rfl, rfl, rfl⟩
  | cons h t ih =>
    have h1 := update_idle_fields m h w hrun
    have h2 := ih (update m h w) (h1.2.2.1.trans hrun)
    show (updates m t (update m h w)).score = w.score ∧ _
    exact ⟨h2.1.trans h1.1, h2.2.1.trans h1.2.1, h2.2.2.1.trans h1.2.2.1,
      h2.2.2.2.1.trans h1.2.2.2.1, h2.2.2.2.2.1.trans h1.2.2.2.2.1,
      h2.2.2.2.2.2.1.trans h1.2.2.2.2.2.1, h2.2.2.2.2.2.2.1.trans h1.2.2.2.2.2.2.1,
      h2.2.2.2.2.2.2.2.1.trans h1.2.2.2.2.2.2.2.1, h2.2.2.2.2.2.2.2.2.trans h1.2.2.2.2.2.2.2.2⟩

/-- No `update` call lowers the high score. -/
theorem update_highScore_mono (m : JSMath α) (h : Host α) (w : World α) :
    w.highScore ≤ (update m h w).highScore := by
  cases hrun : w.gameRunning with
  | false => rw [(update_idle_fields m h w hrun).2.1]
  | true =>
    by_cases hc : w.ball.y + (w.ball.velocity.y + GRAVITY) + w.ball.radius
        > CANVAS_HEIGHT - GROUND_HEIGHT
    · rw [(update_running_crossing m h w hrun hc).2.2.1]; exact le_max_left _ _
    · rw [(update_running_clear m h w hrun hc).2.2]

/-! ### What `startGame` establishes -/

omit [FloorRing α] in
theorem startGame_ball (h : Host α) (w : World α)
    (hsel : w.selectedCharacter = true) (himg : w.characterImageComplete = true) :
    (startGame h w).ball =
      { x := CANVAS_WIDTH / 2, y := CANVAS_HEIGHT / 2, radius := BALL_RADIUS
        velocity := { x := BALL_VELOCITY_X, y := BALL_VELOCITY_Y }
        color := "#0099ff", rotation := 0 } := by
  simp only [startGame, stopRecording, hsel, himg]; split_ifs <;> simp_all

omit [FloorRing α] in
theorem startGame_player (h : Host α) (w : World α)
    (hsel : w.selectedCharacter = true) (himg : w.characterImageComplete = true) :
    (startGame h w).player =
      { x := CANVAS_WIDTH / 2 - PLAYER_WIDTH / 2
        y := CANVAS_HEIGHT - PLAYER_HEIGHT - GROUND_HEIGHT
        width := PLAYER_WIDTH, height := PLAYER_HEIGHT, speed := PLAYER_SPEED
        isMovingLeft := false, isMovingRight := false, color := "#ff9900"
        hoverOffset := 0, hoverHeight := 10, hoverSpeed := 0.003 } := by
  simp only [startGame, stopRecording, hsel, himg]; split_ifs <;> simp_all

omit [FloorRing α] in
theorem startGame_flags (h : Host α) (w : World α)
    (hsel : w.selectedCharacter = true) (himg : w.characterImageComplete = true) :
    (startGame h w).gameRunning = true ∧ (startGame h w).gameOver = false
      ∧ (startGame h w).score = 0 := by
  simp only [startGame, stopRecording, hsel, himg]; split_ifs <;> simp_all

omit [FloorRing α] in
theorem startGame_supernova (h : Host α) (w : World α)
    (hsel : w.selectedCharacter = true) (himg : w.characterImageComplete = true) :
    (startGame h w).supernovaEffect =
      triggerSupernova h.rNova (CANVAS_WIDTH / 2) (CANVAS_HEIGHT / 2) (some 500) (some 0.3) := by
  simp only [startGame, stopRecording, hsel, himg]; split_ifs <;> simp_all

omit [FloorRing α] in
theorem startGame_blocked (h : Host α) (w : World α)
    (hg : ¬ (w.selectedCharacter = true ∧ w.characterImageComplete = true)) :
    startGame h w = w := by
  have hb : (!w.selectedCharacter || !w.characterImageComplete) = true := by
    cases hs : w.selectedCharacter <;> cases hi : w.characterImageComplete <;> simp_all
  unfold startGame
  rw [if_pos hb]

/-! ### The two state flags -/

theorem step_flagsExclusive (m : JSMath α) (e : Event α) (w : World α)
    (hw : flagsExclusive w) : flagsExclusive (step m e w) := by
  cases e with
  | startGame h =>
    show flagsExclusive (startGame h w)
    by_cases hg : w.selectedCharacter = true ∧ w.characterImageComplete = true
    · have hf := startGame_flags h w hg.1 hg.2
      intro hc
      rw [hf.2.1] at hc
      exact Bool.false_ne_true hc.2
    · rw [startGame_blocked h w hg]; exact hw
  | update h =>
    show flagsExclusive (update m h w)
    cases hrun : w.gameRunning with
    | false =>
      have hf := update_idle_fields m h w hrun
      intro hc
      rw [hf.2.2.1, hrun] at hc
      exact Bool.false_ne_true hc.1
    | true =>
      by_cases hc : w.ball.y + (w.ball.velocity.y + GRAVITY) + w.ball.radius
          > CANVAS_HEIGHT - GROUND_HEIGHT
      · have hg := update_running_crossing m h w hrun hc
        intro hb
        rw [hg.1] at hb
        exact Bool.false_ne_true hb.1
      · have hg := update_running_clear m h w hrun hc
        intro hb
        exact hw ⟨hrun, hg.2.1 ▸ hb.2⟩
  | showCharacterSelectScreen =>
    show flagsExclusive (showCharacterSelectScreen w)
    unfold showCharacterSelectScreen
    split_ifs
    · intro hc; exact Bool.false_ne_true hc.1
    · exact hw
  | drawGame => exact hw
  | selectCharacter c => exact hw
  | characterImageOnload iw ih =>
    show flagsExclusive (characterImageOnload iw ih w)
    unfold characterImageOnload
    split_ifs <;> exact hw
  | setMovement l r => exact hw
  | subscriptionSupernova rx ry rn =>
    show flagsExclusive (subscriptionSupernova rx ry rn w)
    unfold subscriptionSupernova
    split_ifs <;> exact hw
  | setRecording b => exact hw

theorem run_flagsExclusive (m : JSMath α) (es : List (Event α)) (w : World α)
    (hw : flagsExclusive w) : flagsExclusive (run m es w) := by
  induction es generalizing w with
  | nil => exact hw
  | cons e t ih => exact ih (step m e w) (step_flagsExclusive m e w hw)

/-! ### The player in a tick -/

theorem update_running_player (m : JSMath α) (h : Host α) (w : World α)
    (hrun : w.gameRunning = true) :
    (update m h w).player = movePlayer (tickStart m h w).player := by
  rw [update_running_eq m h w hrun, groundCollision_player, playerCollision_player]
  rfl

theorem update_running_player_x (m : JSMath α) (h : Host α) (w : World α)
    (hrun : w.gameRunning = true) :
    (update m h w).player.x = (movePlayer w.player).x := by
  rw [update_running_player m h w hrun]; rfl

theorem update_player_width (m : JSMath α) (h : Host α) (w : World α) :
    (update m h w).player.width = w.player.width := by
  cases hrun : w.gameRunning with
  | true => rw [update_running_player m h w hrun]; rfl
  | false =>
    rw [update_idle_eq m h w hrun]
    split_ifs
    · unfold stopRecording; split_ifs <;> rfl
    · rfl
    · rfl

omit [FloorRing α] in
theorem movePlayer_x_bounds (p : Player α) (hw : p.width ≤ CANVAS_WIDTH) :
    0 ≤ (movePlayer p).x ∧ (movePlayer p).x ≤ CANVAS_WIDTH - p.width := by
  simp only [movePlayer]
  split_ifs <;> constructor <;> linarith

theorem update_playerInField (m : JSMath α) (h : Host α) (w : World α)
    (hw : playerInField w) : playerInField (update m h w) := by
  obtain ⟨h1, h2, h3⟩ := hw
  refine ⟨(update_player_width m h w).trans h1, ?_⟩
  cases hrun : w.gameRunning with
  | true =>
    rw [update_running_player_x m h w hrun]
    have hb := movePlayer_x_bounds w.player (by rw [h1]; simp only [PLAYER_WIDTH, CANVAS_WIDTH]; norm_num)
    rw [h1] at hb
    exact hb
  | false =>
    rw [(update_idle_fields m h w hrun).2.2.2.2.2.2.2.1]
    exact ⟨h2, h3⟩

theorem step_playerInField (m : JSMath α) (e : Event α) (w : World α)
    (he : e.isImageOnload = false) (hw : playerInField w) : playerInField (step m e w) := by
  cases e with
  | startGame h =>
    show playerInField (startGame h w)
    by_cases hg : w.selectedCharacter = true ∧ w.characterImageComplete = true
    · unfold playerInField
      rw [startGame_player h w hg.1 hg.2]
      simp only [PLAYER_WIDTH, CANVAS_WIDTH]
      norm_num
    · rw [startGame_blocked h w hg]; exact hw
  | update h => exact update_playerInField m h w hw
  | showCharacterSelectScreen =>
    show playerInField (showCharacterSelectScreen w)
    unfold showCharacterSelectScreen
    split_ifs <;> exact hw
  | drawGame => exact hw
  | selectCharacter c => exact hw
  | characterImageOnload iw ih => exact absurd he (by simp [Event.isImageOnload])
  | setMovement l r => exact hw
  | subscriptionSupernova rx ry rn =>
    show playerInField (subscriptionSupernova rx ry rn w)
    unfold subscriptionSupernova
    split_ifs <;> exact hw
  | setRecording b => exact hw

theorem run_playerInField (m : JSMath α) (es : List (Event α)) (w : World α)
    (hes : ∀ e ∈ es, e.isImageOnload = false) (hw : playerInField w) :
    playerInField (run m es w) := by
  induction es generalizing w with
  | nil => exact hw
  | cons e t ih =>
    exact ih (step m e w) (fun e2 h2 => hes e2 (List.mem_cons_of_mem _ h2))
      (step_playerInField m e w (hes e (List.mem_cons_self _ _)) hw)

/-! ### The particle loop -/

theorem get?_append_length {β : Type} (l r : List β) (p : β) :
    (l ++ p :: r).get? l.length = some p := by
  induction l with
  | nil => rfl
  | cons a t ih => simpa using ih

theorem set_append_length {β : Type} (l r : List β) (p q : β) :
    (l ++ p :: r).set l.length q = l ++ q :: r := by
  induction l with
  | nil => rfl
  | cons a t ih => simp

theorem eraseIdx_append_length {β : Type} (l r : List β) (p : β) :
    (l ++ p :: r).eraseIdx l.length = l ++ r := by
  induction l with
  | nil => rfl
  | cons a t ih => simpa using ih

omit [FloorRing α] in
/-- The loop run over an initial part of the list updates every particle of that part once and
drops those whose lifetime is used up; the rest of the list is not touched. -/
theorem particleLoop_append (l r : List (Particle α)) :
    particleLoop l.length (l ++ r) =
      (l.map particleStep).filter (fun q => decide (0 < q.lifetime)) ++ r := by
  induction l using List.reverseRecOn generalizing r with
  | nil => rfl
  | append_singleton l p ih =>
    have hlen : (l ++ [p]).length = l.length + 1 := by simp
    have happ : l ++ [p] ++ r = l ++ p :: r := by simp
    rw [hlen, happ]
    unfold particleLoop
    rw [get?_append_length]
    simp only [set_append_length, eraseIdx_append_length]
    by_cases hd : (particleStep p).lifetime ≤ 0
    · rw [if_pos hd, ih r]
      have : ¬ (0 < (particleStep p).lifetime) := not_lt.mpr hd
      simp [List.filter_cons, this]
    · rw [if_neg hd, ih (particleStep p :: r)]
      have : 0 < (particleStep p).lifetime := not_le.mp hd
      simp [List.filter_cons, this]

omit [FloorRing α] in
theorem particleLoop_eq_filter_map (ps : List (Particle α)) :
    particleLoop ps.length ps =
      (ps.map particleStep).filter (fun q => decide (0 < q.lifetime)) := by
  have := particleLoop_append ps []
  simpa using this

omit [FloorRing α] in
theorem particleLoop_length_le (ps : List (Particle α)) :
    (particleLoop ps.length ps).length ≤ ps.length := by
  rw [particleLoop_eq_filter_map]
  exact (List.length_filter_le _ _).trans (by simp)

theorem updateParticles_particles (m : JSMath α) (h : Host α) (w : World α) :
    (updateParticles m h w).particles =
      particleLoop (w.particles ++ spawned h w).length (w.particles ++ spawned h w) := by
  unfold updateParticles spawned
  split_ifs <;> simp


omit [FloorRing α] in
theorem playerCollision_particles (m : JSMath α) (h : Host α) (w : World α) :
    (playerCollision m h w).particles = w.particles := by
  unfold playerCollision; split_ifs <;> rfl

omit [FloorRing α] in
theorem groundCollision_particles (h : Host α) (w : World α) :
    (groundCollision h w).particles = w.particles := by
  simp only [groundCollision, checkHighScore]; split_ifs <;> rfl

/-- The particle list after an `update` call is the one `updateParticles` leaves. -/
theorem update_particles (m : JSMath α) (h : Host α) (w : World α) :
    (update m h w).particles =
      particleLoop (w.particles ++ spawned h (hoverUpdate m h w)).length
        (w.particles ++ spawned h (hoverUpdate m h w)) := by
  have ht : (tickStart m h w).particles =
      particleLoop (w.particles ++ spawned h (hoverUpdate m h w)).length
        (w.particles ++ spawned h (hoverUpdate m h w)) := by
    have : tickStart m h w = updateParticles m h (hoverUpdate m h w) := rfl
    rw [this, updateParticles_particles]
    rfl
  rw [← ht]
  cases hrun : w.gameRunning with
  | true =>
    rw [update_running_eq m h w hrun, groundCollision_particles, playerCollision_particles]
    rfl
  | false =>
    rw [update_idle_eq m h w hrun]
    split_ifs
    · unfold stopRecording; split_ifs <;> rfl
    · rfl
    · rfl

theorem spawned_length_le (h : Host α) (w : World α) : (spawned h w).length ≤ 1 := by
  unfold spawned; split_ifs <;> simp

omit [FloorRing α] in
theorem startGame_particles (h : Host α) (w : World α) :
    (startGame h w).particles = w.particles := by
  simp only [startGame, stopRecording]; split_ifs <;> rfl

/-- One `update` call keeps the particle count within the cap. -/
theorem update_particles_le (m : JSMath α) (h : Host α) (w : World α)
    (hw : w.particles.length ≤ PARTICLE_COUNT) :
    (update m h w).particles.length ≤ PARTICLE_COUNT := by
  rw [update_particles]
  refine (particleLoop_length_le _).trans ?_
  unfold spawned
  split_ifs with hc
  · simp only [List.length_append, List.length_singleton]
    exact hc.1
  · simpa using hw

theorem step_particles_le (m : JSMath α) (e : Event α) (w : World α)
    (hw : w.particles.length ≤ PARTICLE_COUNT) :
    (step m e w).particles.length ≤ PARTICLE_COUNT := by
  cases e with
  | startGame h =>
    show (startGame h w).particles.length ≤ PARTICLE_COUNT
    rw [startGame_particles]; exact hw
  | update h => exact update_particles_le m h w hw
  | showCharacterSelectScreen =>
    show (showCharacterSelectScreen w).particles.length ≤ PARTICLE_COUNT
    unfold showCharacterSelectScreen
    split_ifs <;> exact hw
  | drawGame => exact hw
  | selectCharacter c => exact hw
  | characterImageOnload iw ih =>
    show (characterImageOnload iw ih w).particles.length ≤ PARTICLE_COUNT
    unfold characterImageOnload
    split_ifs <;> exact hw
  | setMovement l r => exact hw
  | subscriptionSupernova rx ry rn =>
    show (subscriptionSupernova rx ry rn w).particles.length ≤ PARTICLE_COUNT
    unfold subscriptionSupernova
    split_ifs <;> exact hw
  | setRecording b => exact hw

theorem run_particles_le (m : JSMath α) (es : List (Event α)) (w : World α)
    (hw : w.particles.length ≤ PARTICLE_COUNT) :
    (run m es w).particles.length ≤ PARTICLE_COUNT := by
  induction es generalizing w with
  | nil => exact hw
  | cons e t ih => exact ih (step m e w) (step_particles_le m e w hw)

/-! ### The life of one particle -/

omit [FloorRing α] in
theorem particleLoop_nil : particleLoop (α := α) 0 [] = [] := rfl

omit [FloorRing α] in
theorem particlesAfter_succ (k : Nat) (ps : List (Particle α)) :
    particlesAfter (k + 1) ps = particlesAfter k (particleLoop ps.length ps) := rfl

omit [FloorRing α] in
theorem particlesAfter_nil (k : Nat) : particlesAfter k ([] : List (Particle α)) = [] := by
  induction k with
  | zero => rfl
  | succ k ih => rw [particlesAfter_succ]; exact ih

omit [FloorRing α] in
theorem particlesAfter_append (k : Nat) (a b : List (Particle α)) :
    particlesAfter k (a ++ b) = particlesAfter k a ++ particlesAfter k b := by
  induction k generalizing a b with
  | zero => rfl
  | succ k ih =>
    rw [particlesAfter_succ, particlesAfter_succ, particlesAfter_succ,
      particleLoop_eq_filter_map, particleLoop_eq_filter_map, particleLoop_eq_filter_map,
      List.map_append, List.filter_append, ih]

omit [FloorRing α] in
theorem iterate_particleStep (p : Particle α) (k : Nat) :
    (particleStep^[k] p).lifetime = p.lifetime - k
      ∧ (particleStep^[k] p).maxLifetime = p.maxLifetime := by
  induction k with
  | zero => simp
  | succ k ih =>
    rw [Function.iterate_succ_apply']
    constructor
    · show (particleStep^[k] p).lifetime - 1 = p.lifetime - ((k + 1 : Nat) : α)
      rw [ih.1]; push_cast; ring
    · show (particleStep^[k] p).maxLifetime = p.maxLifetime
      exact ih.2

omit [FloorRing α] in
theorem iterate_particleStep_alpha (p : Particle α) (k : Nat) :
    (particleStep^[k + 1] p).alpha
      = (particleStep^[k + 1] p).lifetime / (particleStep^[k + 1] p).maxLifetime := by
  rw [Function.iterate_succ_apply']
  rfl

omit [FloorRing α] in
/-- A particle with the whole number `L` of ticks to live is in the list after `k` runs of
the loop exactly when `k < L`. -/
theorem particlesAfter_single (k L : Nat) (p : Particle α) (hL : 1 ≤ L)
    (hlife : p.lifetime = L) :
    particlesAfter k [p] = if k < L then [particleStep^[k] p] else [] := by
  induction k generalizing p L with
  | zero => rw [if_pos (by omega)]; rfl
  | succ k ih =>
    have hstep : (particleStep p).lifetime = (L : α) - 1 := by
      show p.lifetime - 1 = (L : α) - 1
      rw [hlife]
    rw [particlesAfter_succ, particleLoop_eq_filter_map]
    by_cases h1 : L = 1
    · have hdead : ¬ (0 < (particleStep p).lifetime) := by
        rw [hstep, h1]; simp
      have hk : ¬ (k + 1 < L) := by omega
      simp only [List.map_cons, List.map_nil, List.filter_cons, hdead, decide_False,
        Bool.false_eq_true, if_false, List.filter_nil]
      rw [particlesAfter_nil, if_neg hk]
    · have h2 : 2 ≤ L := by omega
      have hcast : (L : α) - 1 = ((L - 1 : Nat) : α) := by
        rw [Nat.cast_sub hL]; simp
      have halive : 0 < (particleStep p).lifetime := by
        rw [hstep, hcast]
        exact_mod_cast (by omega : 0 < L - 1)
      simp only [List.map_cons, List.map_nil, List.filter_cons, halive, decide_True, if_true,
        List.filter_nil]
      rw [ih (L - 1) (particleStep p) (by omega) (hstep.trans hcast)]
      by_cases hk : k + 1 < L
      · rw [if_pos hk, if_pos (by omega), Function.iterate_succ_apply]
      · rw [if_neg hk, if_neg (by omega)]

/-! ### The supernova effect -/

omit [FloorRing α] in
theorem jsOr_some_of_ne_zero (x d : α) (hx : x ≠ 0) : jsOr (some x) d = x := by
  simp [jsOr, hx]

omit [FloorRing α] in
theorem wallCollision_x_bounds (b : Ball α) (hr : b.radius = BALL_RADIUS) :
    BALL_RADIUS ≤ (wallCollision b).x ∧ (wallCollision b).x ≤ CANVAS_WIDTH - BALL_RADIUS := by
  unfold wallCollision
  split_ifs with h1 h2
  · simp only [hr, BALL_RADIUS, CANVAS_WIDTH]; norm_num
  · simp only [hr, BALL_RADIUS, CANVAS_WIDTH]; norm_num
  · rw [hr] at h1 h2
    constructor <;> linarith

omit [FloorRing α] in
theorem playerCollision_supernova (m : JSMath α) (h : Host α) (w : World α) :
    (playerCollision m h w).supernovaEffect =
      if playerHit m w.player w.ball then
        if (w.score + 1) % 10 = 0 then triggerSupernova h.rNova w.ball.x w.ball.y none none
        else w.supernovaEffect
      else w.supernovaEffect := by
  unfold playerCollision
  by_cases hh : playerHit m w.player w.ball = true
  · rw [if_pos hh, if_pos hh]
  · rw [if_neg hh, if_neg hh]

/-- The supernova effect after a running tick that does not end the round. -/
theorem update_running_supernova (m : JSMath α) (h : Host α) (w : World α)
    (hrun : w.gameRunning = true)
    (hc : ¬ (w.ball.y + (w.ball.velocity.y + GRAVITY) + w.ball.radius
      > CANVAS_HEIGHT - GROUND_HEIGHT)) :
    (update m h w).supernovaEffect =
      if playerHit m (movePlayer w.player) (wallCollision (integrateBall w.ball)) then
        if (w.score + 1) % 10 = 0 then
          triggerSupernova h.rNova (wallCollision (integrateBall w.ball)).x
            (wallCollision (integrateBall w.ball)).y none none
        else w.supernovaEffect
      else w.supernovaEffect := by
  rw [update_running_eq m h w hrun]
  have hy : ¬ ((playerCollision m h (afterWalls (tickStart m h w))).ball.y
      + (playerCollision m h (afterWalls (tickStart m h w))).ball.radius
      > CANVAS_HEIGHT - GROUND_HEIGHT) := by
    rw [playerCollision_ball_y, playerCollision_ball_radius]
    show ¬ ((wallCollision (integrateBall w.ball)).y + (wallCollision (integrateBall w.ball)).radius
      > CANVAS_HEIGHT - GROUND_HEIGHT)
    rw [wallCollision_y, wallCollision_radius]
    exact hc
  rw [groundCollision_clear h _ hy, playerCollision_supernova]
  rfl

omit [FloorRing α] in
/-- A ball that hits a player standing at the start height is not at height 0: the hit
needs a distance below 48 while the centre of the player's body is at height 426. -/
theorem playerHit_ball_y_ne_zero (m : JSMath α) (p : Player α) (b : Ball α)
    (hsqrt : ∀ a : α, 0 ≤ a → 0 ≤ m.sqrt a ∧ m.sqrt a * m.sqrt a = a)
    (hy : p.y = CANVAS_HEIGHT - PLAYER_HEIGHT - GROUND_HEIGHT) (hh : p.height = PLAYER_HEIGHT)
    (hr : b.radius = BALL_RADIUS) (hhit : playerHit m p b = true) : b.y ≠ 0 := by
  intro h0
  simp only [playerHit, hitDistance, Bool.and_eq_true, decide_eq_true_eq, hy, hh, hr, h0,
    CANVAS_HEIGHT, PLAYER_HEIGHT, GROUND_HEIGHT, BALL_RADIUS] at hhit
  have hlt := hhit.1
  set dx := b.x - (p.x + p.width / 2) with hdx
  have hnn : 0 ≤ dx * dx + (0 - (480 - 60 - 24 + 60 / 2)) * (0 - (480 - 60 - 24 + 60 / 2)) := by
    nlinarith [mul_self_nonneg dx]
  obtain ⟨hs0, hs2⟩ := hsqrt _ hnn
  set s := m.sqrt (dx * dx + (0 - (480 - 60 - 24 + 60 / 2)) * (0 - (480 - 60 - 24 + 60 / 2)))
    with hs
  have hmin : min p.width (60 : α) ≤ 60 := min_le_right _ _
  have hs48 : s < 48 := by linarith
  nlinarith [mul_self_nonneg dx]

/-! ## Further facts: walls, supernova steps, hits, particle counts, the high score -/

/-! ### Wall hits -/

omit [FloorRing α] in
/-- Wall resolution on a ball that starts inside the field. -/
theorem wallCollision_turns_back (b : Ball α)
    (hx0 : b.radius ≤ b.x) (hx1 : b.x ≤ CANVAS_WIDTH - b.radius) :
    (b.x + b.velocity.x - b.radius < 0 →
      b.velocity.x < 0 ∧ 0 < (wallCollision (integrateBall b)).velocity.x
      ∧ (wallCollision (integrateBall b)).x = b.radius)
    ∧ (b.x + b.velocity.x + b.radius > CANVAS_WIDTH →
      0 < b.velocity.x ∧ (wallCollision (integrateBall b)).velocity.x < 0
      ∧ (wallCollision (integrateBall b)).x = CANVAS_WIDTH - b.radius) := by
  have hpos : (0 : α) < BOUNCE_FACTOR := by simp only [BOUNCE_FACTOR]; norm_num
  refine ⟨?_, ?_⟩
  · intro hl
    have hv : b.velocity.x < 0 := by linarith
    have hl1 : (integrateBall b).x - (integrateBall b).radius < 0 := hl
    have e : wallCollision (integrateBall b) =
        { integrateBall b with
          x := (integrateBall b).radius
          velocity := { (integrateBall b).velocity with
            x := -(integrateBall b).velocity.x * BOUNCE_FACTOR } } := by
      simp only [wallCollision, hl1, if_true]
    rw [e]
    refine ⟨hv, ?_, rfl⟩
    show 0 < -b.velocity.x * BOUNCE_FACTOR
    exact mul_pos (by linarith) hpos
  · intro hg
    have hv : 0 < b.velocity.x := by linarith
    have hg1 : (integrateBall b).x + (integrateBall b).radius > CANVAS_WIDTH := hg
    have hl1 : ¬ ((integrateBall b).x - (integrateBall b).radius < 0) := by
      show ¬ (b.x + b.velocity.x - b.radius < 0)
      linarith
    have e : wallCollision (integrateBall b) =
        { integrateBall b with
          x := CANVAS_WIDTH - (integrateBall b).radius
          velocity := { (integrateBall b).velocity with
            x := -(integrateBall b).velocity.x * BOUNCE_FACTOR } } := by
      simp only [wallCollision, hl1, hg1, if_true, if_false]
    rw [e]
    refine ⟨hv, ?_, rfl⟩
    show -b.velocity.x * BOUNCE_FACTOR < 0
    have := mul_pos hv hpos
    linarith

/-! ### The supernova effect over several steps -/

omit [FloorRing α] in
theorem iterate_drawSupernova (e : Supernova α) (n : Nat) :
    (drawSupernova^[n] e).radius = e.radius + 2 * n
      ∧ (drawSupernova^[n] e).alpha = e.alpha - 0.01 * n
      ∧ (drawSupernova^[n] e).maxRadius = e.maxRadius := by
  induction n with
  | zero => simp
  | succ k ih =>
    rw [Function.iterate_succ_apply']
    refine ⟨?_, ?_, ?_⟩
    · show (drawSupernova^[k] e).radius + 2 = _
      rw [ih.1]; push_cast; ring
    · show (drawSupernova^[k] e).alpha - 0.01 = _
      rw [ih.2.1]; push_cast; ring
    · show (drawSupernova^[k] e).maxRadius = _
      exact ih.2.2

omit [FloorRing α] in
theorem drawSupernova_active_iff (e : Supernova α) :
    (drawSupernova e).active = true ↔
      e.active = true ∧ ¬ (e.alpha - 0.01 ≤ 0 ∨ e.radius + 2 ≥ e.maxRadius) := by
  unfold drawSupernova
  by_cases hc : e.alpha - 0.01 ≤ 0 ∨ e.radius + 2 ≥ e.maxRadius
  · simp only [hc, if_true, not_true_eq_false, and_false]
    exact ⟨fun h => absurd h Bool.false_ne_true, fun h => h.elim⟩
  · simp only [hc, if_false, not_false_eq_true, and_true]

omit [FloorRing α] in
/-- An active effect stays active as long as alpha stays positive and the radius stays
below the maximal radius. -/
theorem iterate_drawSupernova_active (e : Supernova α) (n : Nat) (hact : e.active = true)
    (hk : ∀ k : Nat, 1 ≤ k → k ≤ n →
      0 < e.alpha - 0.01 * k ∧ e.radius + 2 * k < e.maxRadius) :
    (drawSupernova^[n] e).active = true := by
  induction n with
  | zero => exact hact
  | succ j ih =>
    rw [Function.iterate_succ_apply', drawSupernova_active_iff]
    refine ⟨ih (fun k h1 h2 => hk k h1 (Nat.le_succ_of_le h2)), ?_⟩
    have hi := iterate_drawSupernova e j
    have hj := hk (j + 1) (by omega) (le_refl _)
    rw [hi.1, hi.2.1, hi.2.2]
    push_cast at hj
    intro hc
    rcases hc with hc | hc
    · linarith [hj.1]
    · have : e.radius + 2 * (j : α) + 2 ≥ e.maxRadius := hc
      linarith [hj.2]

omit [FloorRing α] in
theorem iterate_drawSupernova_inactive (e : Supernova α) (n k : Nat) (hn : n ≤ k)
    (hoff : (drawSupernova^[n] e).active = false) : (drawSupernova^[k] e).active = false := by
  induction k with
  | zero =>
    have : n = 0 := by omega
    rw [this] at hoff; exact hoff
  | succ j ih =>
    by_cases hj : n = j + 1
    · rw [← hj]; exact hoff
    · have hoffj := ih (by omega)
      rw [Function.iterate_succ_apply']
      cases hc : (drawSupernova (drawSupernova^[j] e)).active with
      | false => rfl
      | true =>
        have := ((drawSupernova_active_iff _).mp hc).1
        rw [hoffj] at this
        exact absurd this Bool.false_ne_true

/-! ### The host square root -/

omit [FloorRing α] in
theorem sqrt_lt_of_lt_sq (m : JSMath α)
    (hsqrt : ∀ a : α, 0 ≤ a → 0 ≤ m.sqrt a ∧ m.sqrt a * m.sqrt a = a)
    (a r : α) (ha : 0 ≤ a) (hr : 0 < r) (h : a < r * r) : m.sqrt a < r := by
  obtain ⟨h0, h2⟩ := hsqrt a ha
  by_contra hc
  have hle : r ≤ m.sqrt a := not_lt.mp hc
  have : r * r ≤ m.sqrt a * m.sqrt a := mul_le_mul hle hle (le_of_lt hr) h0
  linarith

omit [FloorRing α] in
theorem le_sqrt_of_sq_le (m : JSMath α)
    (hsqrt : ∀ a : α, 0 ≤ a → 0 ≤ m.sqrt a ∧ m.sqrt a * m.sqrt a = a)
    (a r : α) (h : r * r ≤ a) : r ≤ m.sqrt a := by
  have ha : 0 ≤ a := le_trans (mul_self_nonneg r) h
  obtain ⟨h0, h2⟩ := hsqrt a ha
  by_contra hc
  have hlt : m.sqrt a < r := not_le.mp hc
  have : m.sqrt a * m.sqrt a < r * r := mul_self_lt_mul_self h0 hlt
  linarith

/-! ### Particles in the game loop -/

theorem update_particles_simple (m : JSMath α) (h : Host α) (w : World α) :
    (update m h w).particles
      = simpleParticleUpdate (w.particles ++ spawned h (hoverUpdate m h w)) := by
  have hf : (fun q : Particle α => decide (0 < q.lifetime))
      = (fun q : Particle α => !decide (q.lifetime ≤ 0)) := by
    funext q
    by_cases hq : q.lifetime ≤ 0
    · simp [hq, not_lt.mpr hq]
    · simp [hq, not_le.mp hq]
  rw [update_particles, particleLoop_eq_filter_map, hf]
  rfl

theorem gameLoop_particles (m : JSMath α) (h : Host α) (w : World α) :
    (gameLoop m h w).particles
      = if w.gameRunning = true ∨ w.gameOver = true then (update m h w).particles
        else w.particles := by
  unfold gameLoop
  cases hr : w.gameRunning <;> cases hg : w.gameOver <;> simp [drawGame]

/-- The particle list after the first tick of a round: the new particle, one step old. -/
theorem roundStart_update_particles (m : JSMath α) (h : Host α) :
    (update m h (roundStart : World α)).particles
      = simpleParticleUpdate [createParticle h (hoverUpdate m h (roundStart : World α)).player] := by
  rw [update_particles_simple]
  have hs : spawned h (hoverUpdate m h (roundStart : World α))
      = [createParticle h (hoverUpdate m h (roundStart : World α)).player] := by
    unfold spawned
    rw [if_pos]
    constructor
    · show (roundStart : World α).particles.length < PARTICLE_COUNT
      rw [show (roundStart : World α).particles = [] from by
        unfold roundStart; rw [startGame_particles]; rfl]
      show 0 < PARTICLE_COUNT
      unfold PARTICLE_COUNT
      omega
    · show (roundStart : World α).gameRunning = true
      exact (startGame_flags zeroHost _ rfl rfl).1
  rw [hs]
  have : (roundStart : World α).particles = [] := by
    unfold roundStart; rw [startGame_particles]; rfl
  rw [this]
  rfl

/-! ### Two ticks in a row -/

omit [FloorRing α] in
theorem playerHit_iff (m : JSMath α) (p : Player α) (b : Ball α) :
    playerHit m p b = true ↔
      m.sqrt ((b.x - (p.x + p.width / 2)) * (b.x - (p.x + p.width / 2))
          + (b.y - (p.y + p.height / 2)) * (b.y - (p.y + p.height / 2)))
        < b.radius + min p.width p.height / 2
      ∧ b.velocity.y > 0 := by
  simp only [playerHit, hitDistance, Bool.and_eq_true, decide_eq_true_eq]

omit [FloorRing α] in
theorem playerHit_false_of_vy (m : JSMath α) (p : Player α) (b : Ball α)
    (hv : b.velocity.y ≤ 0) : playerHit m p b = false := by
  cases hc : playerHit m p b with
  | false => rfl
  | true =>
    have := ((playerHit_iff m p b).mp hc).2
    exact absurd this (not_lt.mpr hv)

omit [FloorRing α] in
theorem wallCollision_of_inside (b : Ball α) (h1 : ¬ (b.x - b.radius < 0))
    (h2 : ¬ (b.x + b.radius > CANVAS_WIDTH)) : wallCollision b = b := by
  simp only [wallCollision, h1, h2, if_false]

omit [FloorRing α] in
theorem movePlayer_still (p : Player α) (hl : p.isMovingLeft = false)
    (hr : p.isMovingRight = false) (h0 : 0 ≤ p.x) (h1 : p.x + p.width ≤ CANVAS_WIDTH) :
    (movePlayer p).x = p.x := by
  have h0n : ¬ (p.x < 0) := not_lt.mpr h0
  have h1n : ¬ (p.x + p.width > CANVAS_WIDTH) := not_lt.mpr h1
  simp only [movePlayer, hl, hr, Bool.false_eq_true, if_false, h0n, h1n]

/-- After a hit at check velocity `v`, the next tick checks the velocity
`GRAVITY - BOUNCE_POWER_INCREASE * v`. -/
theorem update_after_hit_vy (m : JSMath α) (h : Host α) (w : World α)
    (hrun : w.gameRunning = true)
    (hhit : playerHit m (movePlayer w.player) (wallCollision (integrateBall w.ball)) = true) :
    (update m h w).ball.velocity.y
      = -(BOUNCE_POWER_INCREASE * (w.ball.velocity.y + GRAVITY)) := by
  have hb := update_running_ball m h w hrun
  rw [if_pos hhit] at hb
  have hv : (wallCollision (integrateBall w.ball)).velocity.y = w.ball.velocity.y + GRAVITY := by
    rw [wallCollision_vy]; rfl
  have hpos : 0 < w.ball.velocity.y + GRAVITY := by
    have := ((playerHit_iff m _ _).mp hhit).2
    rw [hv] at this
    exact this
  rw [hb]
  show -|(wallCollision (integrateBall w.ball)).velocity.y| * BOUNCE_POWER_INCREASE = _
  rw [hv, abs_of_pos hpos]
  ring

/-- A running tick in which the falling ball ends within two units of the centre of the
body of a player who stands still at the start position: the hit is registered, the round
goes on, the player stays, and the ball leaves with the hit velocity. -/
theorem hit_near_centre (m : JSMath α) (h : Host α) (v : World α)
    (hsqrt : ∀ a : α, 0 ≤ a → 0 ≤ m.sqrt a ∧ m.sqrt a * m.sqrt a = a)
    (hcos : ∀ t : α, |m.cos t| ≤ 1)
    (hrun : v.gameRunning = true)
    (hpx : v.player.x = 295) (hpy : v.player.y = 396) (hpw : v.player.width = 50)
    (hph : v.player.height = 60) (hpl : v.player.isMovingLeft = false)
    (hpr : v.player.isMovingRight = false) (hbr : v.ball.radius = 18)
    (hx0 : 318 ≤ v.ball.x + v.ball.velocity.x) (hx1 : v.ball.x + v.ball.velocity.x ≤ 322)
    (hy0 : 424 ≤ v.ball.y + (v.ball.velocity.y + GRAVITY))
    (hy1 : v.ball.y + (v.ball.velocity.y + GRAVITY) ≤ 428)
    (hvy : 0 < v.ball.velocity.y + GRAVITY) :
    (update m h v).score = v.score + 1
    ∧ (update m h v).gameRunning = true
    ∧ ((update m h v).player.x = 295 ∧ (update m h v).player.y = 396
      ∧ (update m h v).player.width = 50 ∧ (update m h v).player.height = 60
      ∧ (update m h v).player.isMovingLeft = false
      ∧ (update m h v).player.isMovingRight = false)
    ∧ (update m h v).ball.radius = 18
    ∧ (update m h v).ball.x = v.ball.x + v.ball.velocity.x
    ∧ (update m h v).ball.y = v.ball.y + (v.ball.velocity.y + GRAVITY)
    ∧ (update m h v).ball.velocity.y = -(BOUNCE_POWER_INCREASE * (v.ball.velocity.y + GRAVITY))
    ∧ |(update m h v).ball.velocity.x|
        ≤ 0.8 * m.sqrt (v.ball.velocity.x * v.ball.velocity.x
            + (v.ball.velocity.y + GRAVITY) * (v.ball.velocity.y + GRAVITY)) := by
  have hB : wallCollision (integrateBall v.ball) = integrateBall v.ball := by
    apply wallCollision_of_inside
    · show ¬ (v.ball.x + v.ball.velocity.x - v.ball.radius < 0)
      rw [hbr]; linarith
    · show ¬ (v.ball.x + v.ball.velocity.x + v.ball.radius > CANVAS_WIDTH)
      rw [hbr]; simp only [CANVAS_WIDTH]; linarith
  have hmx : (movePlayer v.player).x = 295 := by
    rw [movePlayer_still v.player hpl hpr (by rw [hpx]; norm_num)
      (by rw [hpx, hpw]; simp only [CANVAS_WIDTH]; norm_num), hpx]
  have hhit : playerHit m (movePlayer v.player) (wallCollision (integrateBall v.ball)) = true := by
    rw [hB, playerHit_iff, hmx, movePlayer_y, movePlayer_width, movePlayer_height, hpy, hpw, hph]
    refine ⟨?_, hvy⟩
    show m.sqrt ((v.ball.x + v.ball.velocity.x - (295 + 50 / 2))
          * (v.ball.x + v.ball.velocity.x - (295 + 50 / 2))
        + (v.ball.y + (v.ball.velocity.y + GRAVITY) - (396 + 60 / 2))
          * (v.ball.y + (v.ball.velocity.y + GRAVITY) - (396 + 60 / 2)))
      < v.ball.radius + min (50 : α) 60 / 2
    rw [hbr, min_eq_left (by norm_num : (50 : α) ≤ 60)]
    apply sqrt_lt_of_lt_sq m hsqrt
    · nlinarith [mul_self_nonneg (v.ball.x + v.ball.velocity.x - (295 + 50 / 2)),
        mul_self_nonneg (v.ball.y + (v.ball.velocity.y + GRAVITY) - (396 + 60 / 2))]
    · norm_num
    · have e1 : (v.ball.x + v.ball.velocity.x - (295 + 50 / 2))
          * (v.ball.x + v.ball.velocity.x - (295 + 50 / 2)) ≤ 4 := by
        nlinarith
      have e2 : (v.ball.y + (v.ball.velocity.y + GRAVITY) - (396 + 60 / 2))
          * (v.ball.y + (v.ball.velocity.y + GRAVITY) - (396 + 60 / 2)) ≤ 4 := by
        nlinarith
      norm_num
      linarith
  have hs := update_running_score m h v hrun
  rw [if_pos hhit] at hs
  have hclear : ¬ (v.ball.y + (v.ball.velocity.y + GRAVITY) + v.ball.radius
      > CANVAS_HEIGHT - GROUND_HEIGHT) := by
    rw [hbr]; simp only [CANVAS_HEIGHT, GROUND_HEIGHT]; linarith
  have hb := update_running_ball m h v hrun
  rw [if_pos hhit, hB] at hb
  have hpl2 := update_running_player m h v hrun
  refine ⟨hs, (update_running_clear m h v hrun hclear).1, ⟨?_, ?_, ?_, ?_, ?_, ?_⟩, ?_, ?_, ?_,
    update_after_hit_vy m h v hrun hhit, ?_⟩
  · rw [update_running_player_x m h v hrun]; exact hmx
  · rw [hpl2]; exact hpy
  · rw [hpl2]; exact hpw
  · rw [hpl2]; exact hph
  · rw [hpl2]; exact hpl
  · rw [hpl2]; exact hpr
  · rw [hb]; exact hbr
  · rw [hb]; rfl
  · rw [hb]; rfl
  · rw [hb]
    show |m.cos _ * m.sqrt (v.ball.velocity.x * v.ball.velocity.x
        + (v.ball.velocity.y + GRAVITY) * (v.ball.velocity.y + GRAVITY)) * 0.8| ≤ _
    have hnn : 0 ≤ v.ball.velocity.x * v.ball.velocity.x
        + (v.ball.velocity.y + GRAVITY) * (v.ball.velocity.y + GRAVITY) := by
      nlinarith [mul_self_nonneg v.ball.velocity.x,
        mul_self_nonneg (v.ball.velocity.y + GRAVITY)]
    have h2 := (hsqrt _ hnn).1
    have key : ∀ c s : α, |c| ≤ 1 → 0 ≤ s → |c * s * 0.8| ≤ 0.8 * s := by
      intro c s hc hs0
      rw [abs_mul, abs_mul, abs_of_nonneg hs0, abs_of_pos (by norm_num : (0 : α) < 0.8)]
      have := mul_le_mul_of_nonneg_right hc hs0
      linarith
    exact key _ _ (hcos _) h2

/-- A ball falling slowly onto the player is hit in two ticks in a row. -/
theorem slow_hit_repeats (m : JSMath α) (h h2 : Host α)
    (hsqrt : ∀ a : α, 0 ≤ a → 0 ≤ m.sqrt a ∧ m.sqrt a * m.sqrt a = a)
    (hcos : ∀ t : α, |m.cos t| ≤ 1) :
    (withBall 320 425 0 (-0.05) : World α).gameRunning = true
    ∧ (withBall 320 425 0 (-0.05) : World α).score = 0
    ∧ (update m h (withBall 320 425 0 (-0.05))).score = 1
    ∧ (update m h (withBall 320 425 0 (-0.05))).gameRunning = true
    ∧ 0 < (update m h (withBall 320 425 0 (-0.05))).ball.velocity.y + GRAVITY
    ∧ playerHit m (movePlayer (update m h (withBall 320 425 0 (-0.05))).player)
        (wallCollision (integrateBall (update m h (withBall 320 425 0 (-0.05))).ball)) = true
    ∧ (update m h2 (update m h (withBall 320 425 0 (-0.05)))).score = 2 := by
  have hrun : (withBall 320 425 0 (-0.05) : World α).gameRunning = true :=
    (startGame_flags zeroHost _ rfl rfl).1
  have hsc : (withBall 320 425 0 (-0.05) : World α).score = 0 :=
    (startGame_flags zeroHost _ rfl rfl).2.2
  have hp := startGame_player (zeroHost : Host α) (selectCharacter true initialWorld) rfl rfl
  have hpx : (withBall 320 425 0 (-0.05) : World α).player.x = 295 := by
    show (roundStart : World α).player.x = 295
    unfold roundStart
    rw [hp]; simp only [CANVAS_WIDTH, PLAYER_WIDTH]; norm_num
  have hpy : (withBall 320 425 0 (-0.05) : World α).player.y = 396 := by
    show (roundStart : World α).player.y = 396
    unfold roundStart
    rw [hp]; simp only [CANVAS_HEIGHT, PLAYER_HEIGHT, GROUND_HEIGHT]; norm_num
  have hpw : (withBall 320 425 0 (-0.05) : World α).player.width = 50 := by
    show (roundStart : World α).player.width = 50
    unfold roundStart
    rw [hp]; rfl
  have hph : (withBall 320 425 0 (-0.05) : World α).player.height = 60 := by
    show (roundStart : World α).player.height = 60
    unfold roundStart
    rw [hp]; rfl
  have hpl : (withBall 320 425 0 (-0.05) : World α).player.isMovingLeft = false := by
    show (roundStart : World α).player.isMovingLeft = false
    unfold roundStart
    rw [hp]
  have hpr : (withBall 320 425 0 (-0.05) : World α).player.isMovingRight = false := by
    show (roundStart : World α).player.isMovingRight = false
    unfold roundStart
    rw [hp]
  have hbr : (withBall 320 425 0 (-0.05) : World α).ball.radius = 18 := by
    show (roundStart : World α).ball.radius = 18
    unfold roundStart
    rw [startGame_ball zeroHost _ rfl rfl]; rfl
  have hbx : (withBall 320 425 0 (-0.05) : World α).ball.x = 320 := rfl
  have hby : (withBall 320 425 0 (-0.05) : World α).ball.y = 425 := rfl
  have hvx : (withBall 320 425 0 (-0.05) : World α).ball.velocity.x = 0 := rfl
  have hvy : (withBall 320 425 0 (-0.05) : World α).ball.velocity.y = -0.05 := rfl
  have h1 := hit_near_centre m h (withBall 320 425 0 (-0.05)) hsqrt hcos hrun hpx hpy hpw hph
    hpl hpr hbr
    (by rw [hbx, hvx]; norm_num) (by rw [hbx, hvx]; norm_num)
    (by rw [hby, hvy]; simp only [GRAVITY]; norm_num)
    (by rw [hby, hvy]; simp only [GRAVITY]; norm_num)
    (by rw [hvy]; simp only [GRAVITY]; norm_num)
  obtain ⟨s1, r1, ⟨px1, py1, pw1, ph1, pl1, pr1⟩, br1, bx1, by1, vy1, vx1⟩ := h1
  rw [hbx, hvx] at bx1
  rw [hby, hvy] at by1
  rw [hvy] at vy1
  rw [hvx, hvy] at vx1
  have hroot : m.sqrt ((0 : α) * 0 + (-0.05 + GRAVITY) * (-0.05 + GRAVITY)) < 1 := by
    apply sqrt_lt_of_lt_sq m hsqrt
    · simp only [GRAVITY]; norm_num
    · norm_num
    · simp only [GRAVITY]; norm_num
  have hvxb : |(update m h (withBall 320 425 0 (-0.05))).ball.velocity.x| ≤ 0.8 := by
    refine le_trans vx1 ?_
    linarith
  have hvxb' := abs_le.mp hvxb
  have hvpos : 0 < (update m h (withBall 320 425 0 (-0.05))).ball.velocity.y + GRAVITY := by
    rw [vy1]; simp only [GRAVITY, BOUNCE_POWER_INCREASE]; norm_num
  have h2' := hit_near_centre m h2 (update m h (withBall 320 425 0 (-0.05))) hsqrt hcos r1
    px1 py1 pw1 ph1 pl1 pr1 br1
    (by rw [bx1]; linarith [hvxb'.1]) (by rw [bx1]; linarith [hvxb'.2])
    (by rw [by1, vy1]; simp only [GRAVITY, BOUNCE_POWER_INCREASE]; norm_num)
    (by rw [by1, vy1]; simp only [GRAVITY, BOUNCE_POWER_INCREASE]; norm_num)
    hvpos
  have hs2 := update_running_score m h2 (update m h (withBall 320 425 0 (-0.05))) r1
  have hhit2 : playerHit m (movePlayer (update m h (withBall 320 425 0 (-0.05))).player)
      (wallCollision (integrateBall (update m h (withBall 320 425 0 (-0.05))).ball)) = true := by
    by_contra hc
    rw [if_neg hc] at hs2
    rw [h2'.1] at hs2
    omega
  refine ⟨hrun, hsc, by rw [s1, hsc], r1, hvpos, hhit2, ?_⟩
  rw [h2'.1, s1, hsc]

/-! ### The number of particles -/

theorem falling_length_le (l : List Nat) (hp : l.Pairwise (fun a b => b < a))
    (h1 : ∀ x ∈ l, 1 ≤ x) (n : Nat) (hn : ∀ x ∈ l, x ≤ n) : l.length ≤ n := by
  induction l generalizing n with
  | nil => exact Nat.zero_le _
  | cons a t ih =>
    rw [List.pairwise_cons] at hp
    have ha1 := h1 a (List.mem_cons_self _ _)
    have han := hn a (List.mem_cons_self _ _)
    have ht := ih hp.2 (fun x hx => h1 x (List.mem_cons_of_mem _ hx)) (a - 1)
      (fun x hx => by have := hp.1 x hx; omega)
    simp only [List.length_cons]
    omega

theorem particleAge_of_nat (p : Particle α) (L l : Nat) (hL : p.maxLifetime = L)
    (hl : p.lifetime = l) (hle : l ≤ L) : particleAge p = L - l := by
  unfold particleAge
  rw [hL, hl, ← Nat.cast_sub hle, Nat.floor_natCast]

theorem createParticle_lifetime (h : Host α) (player : Player α)
    (hdraw : 0 ≤ h.rLifetime ∧ h.rLifetime < 1) :
    ∃ L : Nat, 15 ≤ L ∧ L ≤ 29 ∧ (createParticle h player).lifetime = L
      ∧ (createParticle h player).maxLifetime = L := by
  have hfl : 0 ≤ ⌊h.rLifetime * (PARTICLE_LIFETIME_MAX - PARTICLE_LIFETIME_MIN)⌋ := by
    rw [Int.floor_nonneg]
    apply mul_nonneg hdraw.1
    simp only [PARTICLE_LIFETIME_MAX, PARTICLE_LIFETIME_MIN]
    norm_num
  have hfu : ⌊h.rLifetime * (PARTICLE_LIFETIME_MAX - PARTICLE_LIFETIME_MIN)⌋ < 15 := by
    rw [Int.floor_lt]
    simp only [PARTICLE_LIFETIME_MAX, PARTICLE_LIFETIME_MIN]
    push_cast
    linarith [hdraw.2]
  have hc : ((⌊h.rLifetime * (PARTICLE_LIFETIME_MAX - PARTICLE_LIFETIME_MIN)⌋.toNat : Nat) : α)
      = ((⌊h.rLifetime * (PARTICLE_LIFETIME_MAX - PARTICLE_LIFETIME_MIN)⌋ : Int) : α) := by
    have := Int.toNat_of_nonneg hfl
    exact_mod_cast congrArg (fun z : Int => (z : α)) this
  have hval : ((⌊h.rLifetime * (PARTICLE_LIFETIME_MAX - PARTICLE_LIFETIME_MIN)⌋ : Int) : α)
      + PARTICLE_LIFETIME_MIN
      = ((⌊h.rLifetime * (PARTICLE_LIFETIME_MAX - PARTICLE_LIFETIME_MIN)⌋.toNat + 15 : Nat) : α) := by
    push_cast
    rw [hc]
    simp only [PARTICLE_LIFETIME_MIN]
  exact ⟨⌊h.rLifetime * (PARTICLE_LIFETIME_MAX - PARTICLE_LIFETIME_MIN)⌋.toNat + 15,
    by omega, by omega, hval, hval⟩

theorem agedParticles_length (ps : List (Particle α)) (hps : agedParticles ps) :
    ps.length ≤ 28 := by
  have hl := falling_length_le (ps.map particleAge)
    (by rw [List.pairwise_map]; exact hps.1)
    (by
      intro x hx
      rw [List.mem_map] at hx
      obtain ⟨p, hp, rfl⟩ := hx
      obtain ⟨L, l, hL, hl, h1, h2, h3⟩ := hps.2 p hp
      rw [particleAge_of_nat p L l hL hl (le_of_lt h2)]
      omega)
    28
    (by
      intro x hx
      rw [List.mem_map] at hx
      obtain ⟨p, hp, rfl⟩ := hx
      obtain ⟨L, l, hL, hl, h1, h2, h3⟩ := hps.2 p hp
      rw [particleAge_of_nat p L l hL hl (le_of_lt h2)]
      omega)
  simpa using hl

omit [FloorRing α] in
theorem particleStep_nat (p : Particle α) (L l : Nat) (hL : p.maxLifetime = L)
    (hl : p.lifetime = l) (h1 : 1 ≤ l) :
    (particleStep p).maxLifetime = L ∧ (particleStep p).lifetime = ((l - 1 : Nat) : α) := by
  refine ⟨hL, ?_⟩
  show p.lifetime - 1 = ((l - 1 : Nat) : α)
  rw [hl, Nat.cast_sub h1]
  simp

theorem particleAge_step (p : Particle α) (L l : Nat) (hL : p.maxLifetime = L)
    (hl : p.lifetime = l) (h1 : 1 ≤ l) (hle : l ≤ L) :
    particleAge (particleStep p) = L - l + 1 := by
  have hs := particleStep_nat p L l hL hl h1
  rw [particleAge_of_nat (particleStep p) L (l - 1) hs.1 hs.2 (by omega)]
  omega

/-- One particle update keeps the shape of the list: the survivors of an aged list, with
the new particle at the end, form an aged list. -/
theorem agedParticles_update (ps sp : List (Particle α)) (hps : agedParticles ps)
    (hsp : sp = [] ∨ ∃ (c : Particle α) (L : Nat), sp = [c] ∧ 15 ≤ L ∧ L ≤ 29
      ∧ c.lifetime = L ∧ c.maxLifetime = L) :
    agedParticles (simpleParticleUpdate (ps ++ sp)) := by
  have hmem : ∀ p ∈ ps ++ sp, ∃ L l : Nat, p.maxLifetime = L ∧ p.lifetime = l ∧ 1 ≤ l
      ∧ l ≤ L ∧ L ≤ 29 ∧ (p ∈ sp → l = L) ∧ (p ∈ ps → l < L) := by
    intro p hp
    rw [List.mem_append] at hp
    rcases hp with hp | hp
    · obtain ⟨L, l, hL, hl, h1, h2, h3⟩ := hps.2 p hp
      refine ⟨L, l, hL, hl, h1, le_of_lt h2, h3, ?_, fun _ => h2⟩
      intro hq
      rcases hsp with hnil | ⟨c, Lc, hc, h15, h29, hcl, hcm⟩
      · rw [hnil] at hq; exact absurd hq (List.not_mem_nil _)
      · rw [hc, List.mem_singleton] at hq
        rw [hq, hcm] at hL
        rw [hq, hcl] at hl
        have e1 : Lc = L := by exact_mod_cast hL
        have e2 : Lc = l := by exact_mod_cast hl
        omega
    · rcases hsp with hnil | ⟨c, Lc, hc, h15, h29, hcl, hcm⟩
      · rw [hnil] at hp; exact absurd hp (List.not_mem_nil _)
      · rw [hc, List.mem_singleton] at hp
        refine ⟨Lc, Lc, by rw [hp]; exact hcm, by rw [hp]; exact hcl, by omega, le_refl _, h29,
          fun _ => rfl, ?_⟩
        intro hq
        obtain ⟨L, l, hL, hl, h1, h2, h3⟩ := hps.2 p hq
        rw [hp, hcm] at hL
        rw [hp, hcl] at hl
        have e1 : Lc = L := by exact_mod_cast hL
        have e2 : Lc = l := by exact_mod_cast hl
        omega
  constructor
  · unfold simpleParticleUpdate
    apply List.Pairwise.filter
    rw [List.pairwise_map, List.pairwise_append]
    refine ⟨?_, ?_, ?_⟩
    · refine List.Pairwise.imp_of_mem ?_ hps.1
      intro p q hp hq hlt
      obtain ⟨L, l, hL, hl, h1, h2, h3⟩ := hps.2 p hp
      obtain ⟨L2, l2, hL2, hl2, h12, h22, h32⟩ := hps.2 q hq
      rw [particleAge_of_nat p L l hL hl (le_of_lt h2),
        particleAge_of_nat q L2 l2 hL2 hl2 (le_of_lt h22)] at hlt
      rw [particleAge_step p L l hL hl h1 (le_of_lt h2),
        particleAge_step q L2 l2 hL2 hl2 h12 (le_of_lt h22)]
      omega
    · rcases hsp with hnil | ⟨c, Lc, hc, _⟩
      · rw [hnil]; exact List.Pairwise.nil
      · rw [hc]; exact List.pairwise_singleton _ _
    · intro p hp q hq
      obtain ⟨L, l, hL, hl, h1, h2, h3⟩ := hps.2 p hp
      rcases hsp with hnil | ⟨c, Lc, hc, h15, h29, hcl, hcm⟩
      · rw [hnil] at hq; exact absurd hq (List.not_mem_nil _)
      · rw [hc, List.mem_singleton] at hq
        rw [hq, particleAge_step p L l hL hl h1 (le_of_lt h2),
          particleAge_step c Lc Lc hcm hcl (by omega) (le_refl _)]
        omega
  · intro q hq
    unfold simpleParticleUpdate at hq
    rw [List.mem_filter, List.mem_map] at hq
    obtain ⟨⟨p, hp, rfl⟩, halive⟩ := hq
    obtain ⟨L, l, hL, hl, h1, h2, h3, _, _⟩ := hmem p hp
    have hs := particleStep_nat p L l hL hl h1
    have hpos : 0 < (particleStep p).lifetime := by
      simpa using halive
    rw [hs.2] at hpos
    have hl1 : 0 < l - 1 := by exact_mod_cast hpos
    exact ⟨L, l - 1, hs.1, hs.2, by omega, by omega, h3⟩

theorem spawned_cases (h : Host α) (w : World α)
    (hdraw : 0 ≤ h.rLifetime ∧ h.rLifetime < 1) :
    spawned h w = [] ∨ ∃ (c : Particle α) (L : Nat), spawned h w = [c] ∧ 15 ≤ L ∧ L ≤ 29
      ∧ c.lifetime = L ∧ c.maxLifetime = L := by
  unfold spawned
  split_ifs
  · obtain ⟨L, h1, h2, h3, h4⟩ := createParticle_lifetime h w.player hdraw
    exact Or.inr ⟨_, L, rfl, h1, h2, h3, h4⟩
  · exact Or.inl rfl

theorem update_agedParticles (m : JSMath α) (h : Host α) (w : World α)
    (hdraw : 0 ≤ h.rLifetime ∧ h.rLifetime < 1) (hw : agedParticles w.particles) :
    agedParticles (update m h w).particles := by
  rw [update_particles_simple]
  exact agedParticles_update _ _ hw (spawned_cases h _ hdraw)

theorem step_agedParticles (m : JSMath α) (e : Event α) (w : World α)
    (he : e.drawsInRange) (hw : agedParticles w.particles) :
    agedParticles (step m e w).particles := by
  cases e with
  | startGame h =>
    show agedParticles (startGame h w).particles
    rw [startGame_particles]; exact hw
  | update h => exact update_agedParticles m h w he hw
  | showCharacterSelectScreen =>
    show agedParticles (showCharacterSelectScreen w).particles
    unfold showCharacterSelectScreen
    split_ifs <;> exact hw
  | drawGame => exact hw
  | selectCharacter c => exact hw
  | characterImageOnload iw ih =>
    show agedParticles (characterImageOnload iw ih w).particles
    unfold characterImageOnload
    split_ifs <;> exact hw
  | setMovement l r => exact hw
  | subscriptionSupernova rx ry rn =>
    show agedParticles (subscriptionSupernova rx ry rn w).particles
    unfold subscriptionSupernova
    split_ifs <;> exact hw
  | setRecording b => exact hw

theorem run_agedParticles (m : JSMath α) (es : List (Event α)) (w : World α)
    (hes : ∀ e ∈ es, e.drawsInRange) (hw : agedParticles w.particles) :
    agedParticles (run m es w).particles := by
  induction es generalizing w with
  | nil => exact hw
  | cons e t ih =>
    exact ih (step m e w) (fun e2 h2 => hes e2 (List.mem_cons_of_mem _ h2))
      (step_agedParticles m e w (hes e (List.mem_cons_self _ _)) hw)

theorem run_append (m : JSMath α) (es fs : List (Event α)) (w : World α) :
    run m (es ++ fs) w = run m fs (run m es w) := by
  unfold run
  rw [List.foldl_append]

/-! ### The high score along a session -/

omit [FloorRing α] in
theorem startGame_highScore (h : Host α) (w : World α) :
    (startGame h w).highScore = w.highScore := by
  simp only [startGame, stopRecording]; split_ifs <;> rfl

omit [FloorRing α] in
/-- Leaving a round and starting the next one does not touch the high score. -/
theorem leaveRound_highScore (h : Host α) (w : World α) :
    (startGame h (showCharacterSelectScreen w)).highScore = w.highScore := by
  rw [startGame_highScore]
  unfold showCharacterSelectScreen
  split_ifs <;> rfl

theorem step_highScore_mono (m : JSMath α) (e : Event α) (w : World α) :
    w.highScore ≤ (step m e w).highScore := by
  cases e with
  | startGame h =>
    show w.highScore ≤ (startGame h w).highScore
    rw [startGame_highScore]
  | update h => exact update_highScore_mono m h w
  | showCharacterSelectScreen =>
    show w.highScore ≤ (showCharacterSelectScreen w).highScore
    unfold showCharacterSelectScreen
    split_ifs <;> exact le_refl _
  | drawGame => exact le_refl _
  | selectCharacter c => exact le_refl _
  | characterImageOnload iw ih =>
    show w.highScore ≤ (characterImageOnload iw ih w).highScore
    unfold characterImageOnload
    split_ifs <;> exact le_refl _
  | setMovement l r => exact le_refl _
  | subscriptionSupernova rx ry rn =>
    show w.highScore ≤ (subscriptionSupernova rx ry rn w).highScore
    unfold subscriptionSupernova
    split_ifs <;> exact le_refl _
  | setRecording b => exact le_refl _

theorem run_highScore_mono (m : JSMath α) (es : List (Event α)) (w : World α) :
    w.highScore ≤ (run m es w).highScore := by
  induction es generalizing w with
  | nil => exact le_refl _
  | cons e t ih => exact le_trans (step_highScore_mono m e w) (ih (step m e w))

theorem update_scoreRecorded (m : JSMath α) (h : Host α) (w : World α)
    (hw : scoreRecorded w) : scoreRecorded (update m h w) := by
  refine ⟨step_flagsExclusive m (Event.update h) w hw.1, ?_⟩
  cases hrun : w.gameRunning with
  | false =>
    have hf := update_idle_fields m h w hrun
    rw [hf.1, hf.2.1, hf.2.2.2.1]
    exact hw.2
  | true =>
    by_cases hc : w.ball.y + (w.ball.velocity.y + GRAVITY) + w.ball.radius
        > CANVAS_HEIGHT - GROUND_HEIGHT
    · intro _
      rw [(update_running_crossing m h w hrun hc).2.2.1]
      exact le_max_right _ _
    · intro hg
      rw [(update_running_clear m h w hrun hc).2.1] at hg
      exact absurd ⟨hrun, hg⟩ hw.1

theorem step_scoreRecorded (m : JSMath α) (e : Event α) (w : World α)
    (hw : scoreRecorded w) : scoreRecorded (step m e w) := by
  cases e with
  | startGame h =>
    refine ⟨step_flagsExclusive m (Event.startGame h) w hw.1, ?_⟩
    show (startGame h w).gameOver = true → (startGame h w).score ≤ (startGame h w).highScore
    by_cases hg : w.selectedCharacter = true ∧ w.characterImageComplete = true
    · intro hc
      rw [(startGame_flags h w hg.1 hg.2).2.1] at hc
      exact absurd hc Bool.false_ne_true
    · rw [startGame_blocked h w hg]
      exact hw.2
  | update h => exact update_scoreRecorded m h w hw
  | showCharacterSelectScreen =>
    refine ⟨step_flagsExclusive m Event.showCharacterSelectScreen w hw.1, ?_⟩
    show (showCharacterSelectScreen w).gameOver = true →
      (showCharacterSelectScreen w).score ≤ (showCharacterSelectScreen w).highScore
    unfold showCharacterSelectScreen
    split_ifs <;> exact hw.2
  | drawGame => exact hw
  | selectCharacter c => exact hw
  | characterImageOnload iw ih =>
    refine ⟨step_flagsExclusive m (Event.characterImageOnload iw ih) w hw.1, ?_⟩
    show (characterImageOnload iw ih w).gameOver = true →
      (characterImageOnload iw ih w).score ≤ (characterImageOnload iw ih w).highScore
    unfold characterImageOnload
    split_ifs <;> exact hw.2
  | setMovement l r => exact hw
  | subscriptionSupernova rx ry rn =>
    refine ⟨step_flagsExclusive m (Event.subscriptionSupernova rx ry rn) w hw.1, ?_⟩
    show (subscriptionSupernova rx ry rn w).gameOver = true →
      (subscriptionSupernova rx ry rn w).score ≤ (subscriptionSupernova rx ry rn w).highScore
    unfold subscriptionSupernova
    split_ifs <;> exact hw.2
  | setRecording b => exact hw

theorem run_scoreRecorded (m : JSMath α) (es : List (Event α)) (w : World α)
    (hw : scoreRecorded w) : scoreRecorded (run m es w) := by
  induction es generalizing w with
  | nil => exact hw
  | cons e t ih => exact ih (step m e w) (step_scoreRecorded m e w hw)

/-! ### The first arc of the ball -/

omit [FloorRing α] in
theorem inFlight_roundStart : inFlight 0 (295 : α) false roundStart := by
  have hsel : (selectCharacter true (initialWorld : World α)).selectedCharacter = true := rfl
  have himg : (selectCharacter true (initialWorld : World α)).characterImageComplete = true := rfl
  have hf := startGame_flags (zeroHost : Host α) _ hsel himg
  have hb := startGame_ball (zeroHost : Host α) _ hsel himg
  have hp := startGame_player (zeroHost : Host α) _ hsel himg
  unfold inFlight roundStart
  rw [hb, hp, startGame_highScore]
  refine ⟨hf.1, hf.2.2, rfl, ?_, ?_, ?_, ?_, ?_, rfl, rfl, ?_, ?_, ?_, ?_, ?_⟩
  all_goals simp only [CANVAS_WIDTH, CANVAS_HEIGHT, PLAYER_WIDTH, PLAYER_HEIGHT, GROUND_HEIGHT,
    PLAYER_SPEED, BALL_RADIUS, BALL_VELOCITY_X, BALL_VELOCITY_Y]
  all_goals norm_num

omit [FloorRing α] in
theorem inFlight_setMovement (n : Nat) (px : α) (r r2 : Bool) (w : World α)
    (hw : inFlight n px r w) : inFlight n px r2 (setMovement false r2 w) := by
  obtain ⟨hrun, hsc, hhs, hpx, hpy, hpw, hph, hps, _, _, hbr, hbx, hby, hvx, hvy⟩ := hw
  exact ⟨hrun, hsc, hhs, hpx, hpy, hpw, hph, hps, rfl, rfl, hbr, hbx, hby, hvx, hvy⟩

omit [FloorRing α] in
theorem movePlayer_right (p : Player α) (r : Bool) (hl : p.isMovingLeft = false)
    (hr : p.isMovingRight = r) (hs : p.speed = 5) (hw : p.width = 50)
    (h0 : 0 ≤ p.x) (h1 : (if r then p.x + 5 else p.x) + 50 ≤ 640) :
    (movePlayer p).x = if r then p.x + 5 else p.x := by
  cases r with
  | false =>
    have h1f : p.x + 50 ≤ 640 := h1
    rw [movePlayer_still p hl hr h0 (by rw [hw]; simp only [CANVAS_WIDTH]; exact h1f)]
    rfl
  | true =>
    have h1t : p.x + 5 + 50 ≤ 640 := h1
    have h0n : ¬ (p.x + 5 < 0) := by intro hc; linarith
    have h1n : ¬ (p.x + 5 + 50 > 640) := by intro hc; linarith
    simp only [movePlayer, hl, hr, hs, hw, CANVAS_WIDTH, Bool.false_eq_true, if_false, if_true,
      h0n, h1n]

omit [FloorRing α] in
/-- A ball centre at height `y ≤ 379.15` is at least 43 away from the centre of the player's
body at height 426, whatever the horizontal offset `dx`. -/
theorem far_of_high (dx y : α) (hy : y ≤ 379.15) :
    43 * 43 ≤ dx * dx + (y - (396 + 60 / 2)) * (y - (396 + 60 / 2)) := by
  have h1 : 0 ≤ (426 - y - 46.85) * (426 - y + 46.85) :=
    mul_nonneg (by linarith) (by linarith)
  nlinarith [mul_self_nonneg dx]

/-- One tick of free flight: up to tick 121 the ball is above the reach of the player,
wherever the player stands. -/
theorem inFlight_update (m : JSMath α) (h : Host α) (w : World α) (n : Nat) (px : α) (r : Bool)
    (hsqrt : ∀ a : α, 0 ≤ a → 0 ≤ m.sqrt a ∧ m.sqrt a * m.sqrt a = a)
    (hw : inFlight n px r w) (hn : n + 1 ≤ 121) (hp0 : 0 ≤ px)
    (hp1 : (if r then px + 5 else px) + 50 ≤ 640) :
    inFlight (n + 1) (if r then px + 5 else px) r (update m h w) := by
  obtain ⟨hrun, hsc, hhs, hpx, hpy, hpw, hph, hps, hpl, hpr, hbr, hbx, hby, hvx, hvy⟩ := hw
  have hn1 : (n : α) + 1 ≤ 121 := by exact_mod_cast hn
  have hn0 : (0 : α) ≤ n := Nat.cast_nonneg n
  have hB : wallCollision (integrateBall w.ball) = integrateBall w.ball := by
    apply wallCollision_of_inside
    · show ¬ (w.ball.x + w.ball.velocity.x - w.ball.radius < 0)
      rw [hbx, hvx, hbr]; intro hc; linarith
    · show ¬ (w.ball.x + w.ball.velocity.x + w.ball.radius > CANVAS_WIDTH)
      rw [hbx, hvx, hbr]; simp only [CANVAS_WIDTH]; intro hc; linarith
  have hy : w.ball.y + (w.ball.velocity.y + GRAVITY)
      = 240 - 8 * ((n : α) + 1) + 0.075 * (((n : α) + 1) * ((n : α) + 1 + 1)) := by
    rw [hby, hvy]; simp only [GRAVITY]; ring
  have hyle : w.ball.y + (w.ball.velocity.y + GRAVITY) ≤ 379.15 := by
    rw [hy]
    have hprod : 0 ≤ (121 - ((n : α) + 1)) * ((n : α) + 1 + 46 / 3) :=
      mul_nonneg (by linarith) (by linarith)
    nlinarith [hprod]
  have hclear : ¬ (w.ball.y + (w.ball.velocity.y + GRAVITY) + w.ball.radius
      > CANVAS_HEIGHT - GROUND_HEIGHT) := by
    rw [hbr]; simp only [CANVAS_HEIGHT, GROUND_HEIGHT]; intro hc; linarith
  have hmx : (movePlayer w.player).x = if r then px + 5 else px := by
    rw [movePlayer_right w.player r hpl hpr hps hpw (by rw [hpx]; exact hp0)
      (by rw [hpx]; exact hp1), hpx]
  have hno : playerHit m (movePlayer w.player) (wallCollision (integrateBall w.ball)) = false := by
    rw [hB]
    cases hc : playerHit m (movePlayer w.player) (integrateBall w.ball) with
    | false => rfl
    | true =>
      exfalso
      have h1 := ((playerHit_iff m _ _).mp hc).1
      rw [movePlayer_y, movePlayer_width, movePlayer_height, hpy, hpw, hph,
        min_eq_left (by norm_num : (50 : α) ≤ 60)] at h1
      have h2 : (integrateBall w.ball).y = w.ball.y + (w.ball.velocity.y + GRAVITY) := rfl
      have h3 : (integrateBall w.ball).radius = 18 := hbr
      rw [h2, h3] at h1
      have h4 := le_sqrt_of_sq_le m hsqrt _ 43
        (far_of_high ((integrateBall w.ball).x - ((movePlayer w.player).x + 50 / 2)) _ hyle)
      have h5 : (18 : α) + 50 / 2 = 43 := by norm_num
      rw [h5] at h1
      exact absurd h1 (not_lt.mpr h4)
  have hs := update_running_score m h w hrun
  rw [hno] at hs
  have hcl := update_running_clear m h w hrun hclear
  have hb := update_running_ball m h w hrun
  rw [hno, hB] at hb
  have hpl2 := update_running_player m h w hrun
  refine ⟨hcl.1, ?_, ?_, ?_, ?_, ?_, ?_, ?_, ?_, ?_, ?_, ?_, ?_, ?_, ?_⟩
  · rw [hs]; exact hsc
  · rw [hcl.2.2]; exact hhs
  · rw [update_running_player_x m h w hrun]; exact hmx
  · rw [hpl2]; exact hpy
  · rw [hpl2]; exact hpw
  · rw [hpl2]; exact hph
  · rw [hpl2]; exact hps
  · rw [hpl2]; exact hpl
  · rw [hpl2]; exact hpr
  · rw [hb]; exact hbr
  · rw [hb]
    show w.ball.x + w.ball.velocity.x = 320 + 1.5 * ((n + 1 : Nat) : α)
    rw [hbx, hvx]; push_cast; ring
  · rw [hb]
    show w.ball.y + (w.ball.velocity.y + GRAVITY) = _
    rw [hy]; push_cast; ring
  · rw [hb]; exact hvx
  · rw [hb]
    show w.ball.velocity.y + GRAVITY = _
    rw [hvy]; simp only [GRAVITY]; push_cast; ring

/-- Free flight over `k` ticks. -/
theorem run_inFlight (m : JSMath α) (h : Host α) (r : Bool)
    (hsqrt : ∀ a : α, 0 ≤ a → 0 ≤ m.sqrt a ∧ m.sqrt a * m.sqrt a = a) (k : Nat) :
    ∀ (n : Nat) (px : α) (w : World α), inFlight n px r w → n + k ≤ 121 → 0 ≤ px →
      (if r then px + 5 * (k : α) else px) + 50 ≤ 640 →
      inFlight (n + k) (if r then px + 5 * (k : α) else px) r
        (run m (List.replicate k (Event.update h)) w) := by
  induction k with
  | zero =>
    intro n px w hw _ _ _
    have hpx : (if r then px + 5 * ((0 : Nat) : α) else px) = px := by
      cases r <;> simp
    rw [hpx]
    exact hw
  | succ k ih =>
    intro n px w hw hn hp0 hp1
    have hk0 : (0 : α) ≤ k := Nat.cast_nonneg k
    have hp1c : (if r then px + 5 * ((k : α) + 1) else px) + 50 ≤ 640 := by
      have := hp1
      push_cast at this
      exact this
    have hstep := inFlight_update m h w n px r hsqrt hw (by omega) hp0
      (by cases r <;> simp only [if_true, if_false, Bool.false_eq_true] at hp1c ⊢ <;> linarith)
    have hrest := ih (n + 1) (if r then px + 5 else px) (update m h w) hstep (by omega)
      (by cases r <;> simp only [if_true, if_false, Bool.false_eq_true] <;> linarith)
      (by cases r <;> simp only [if_true, if_false, Bool.false_eq_true] at hp1c ⊢ <;> linarith)
    have e1 : n + (k + 1) = n + 1 + k := by omega
    have hpx : (if r then px + 5 * ((k + 1 : Nat) : α) else px)
        = (if r then (if r then px + 5 else px) + 5 * (k : α) else (if r then px + 5 else px)) := by
      cases r with
      | false => simp
      | true =>
        simp only [if_true]
        push_cast
        ring
    rw [e1, hpx, List.replicate_succ]
    exact hrest

/-- Tick 122 of the flight with the player moved to `x = 480`: the ball comes down on the
player, the score becomes 1 and the round goes on with high score 0. -/
theorem inFlight_hit (m : JSMath α) (h : Host α) (w : World α)
    (hsqrt : ∀ a : α, 0 ≤ a → 0 ≤ m.sqrt a ∧ m.sqrt a * m.sqrt a = a)
    (hw : inFlight 121 (475 : α) true w) :
    (update m h w).score = 1 ∧ (update m h w).highScore = 0
      ∧ (update m h w).gameRunning = true := by
  obtain ⟨hrun, hsc, hhs, hpx, hpy, hpw, hph, hps, hpl, hpr, hbr, hbx, hby, hvx, hvy⟩ := hw
  have hbx2 : w.ball.x + w.ball.velocity.x = 503 := by rw [hbx, hvx]; norm_num
  have hby2 : w.ball.y + (w.ball.velocity.y + GRAVITY) = 389.45 := by
    rw [hby, hvy]; simp only [GRAVITY]; norm_num
  have hvy2 : w.ball.velocity.y + GRAVITY = 10.3 := by
    rw [hvy]; simp only [GRAVITY]; norm_num
  have hB : wallCollision (integrateBall w.ball) = integrateBall w.ball := by
    apply wallCollision_of_inside
    · show ¬ (w.ball.x + w.ball.velocity.x - w.ball.radius < 0)
      rw [hbx2, hbr]; norm_num
    · show ¬ (w.ball.x + w.ball.velocity.x + w.ball.radius > CANVAS_WIDTH)
      rw [hbx2, hbr]; simp only [CANVAS_WIDTH]; norm_num
  have hmx : (movePlayer w.player).x = 480 := by
    rw [movePlayer_right w.player true hpl hpr hps hpw (by rw [hpx]; norm_num)
      (by rw [hpx]; norm_num), hpx]
    norm_num
  have hhit : playerHit m (movePlayer w.player) (wallCollision (integrateBall w.ball)) = true := by
    rw [hB, playerHit_iff, hmx, movePlayer_y, movePlayer_width, movePlayer_height, hpy, hpw, hph]
    constructor
    · show m.sqrt ((w.ball.x + w.ball.velocity.x - (480 + 50 / 2))
            * (w.ball.x + w.ball.velocity.x - (480 + 50 / 2))
          + (w.ball.y + (w.ball.velocity.y + GRAVITY) - (396 + 60 / 2))
            * (w.ball.y + (w.ball.velocity.y + GRAVITY) - (396 + 60 / 2)))
        < w.ball.radius + min (50 : α) 60 / 2
      rw [hbx2, hby2, hbr, min_eq_left (by norm_num : (50 : α) ≤ 60)]
      apply sqrt_lt_of_lt_sq m hsqrt <;> norm_num
    · show w.ball.velocity.y + GRAVITY > 0
      rw [hvy2]; norm_num
  have hclear : ¬ (w.ball.y + (w.ball.velocity.y + GRAVITY) + w.ball.radius
      > CANVAS_HEIGHT - GROUND_HEIGHT) := by
    rw [hby2, hbr]; simp only [CANVAS_HEIGHT, GROUND_HEIGHT]; norm_num
  have hs := update_running_score m h w hrun
  rw [if_pos hhit, hsc] at hs
  have hcl := update_running_clear m h w hrun hclear
  exact ⟨hs, by rw [hcl.2.2]; exact hhs, hcl.1⟩

/-- The session `firstHitTrace` ends in a running round with score 1 and high score 0. -/
theorem firstHitTrace_hit (m : JSMath α)
    (hsqrt : ∀ a : α, 0 ≤ a → 0 ≤ m.sqrt a ∧ m.sqrt a * m.sqrt a = a) :
    (run m firstHitTrace (initialWorld : World α)).score = 1
      ∧ (run m firstHitTrace (initialWorld : World α)).highScore = 0
      ∧ (run m firstHitTrace (initialWorld : World α)).gameRunning = true := by
  have h1 := run_inFlight m zeroHost false hsqrt 85 0 295 roundStart inFlight_roundStart
    (by norm_num) (by norm_num) (by norm_num)
  have h2 := inFlight_setMovement _ _ false true _ h1
  have h3 := run_inFlight m zeroHost true hsqrt 36 _ _ _ h2 (by norm_num) (by norm_num)
    (by norm_num)
  have e3 : (if true = true then (if false = true then (295 : α) + 5 * ((85 : Nat) : α) else 295)
      + 5 * ((36 : Nat) : α) else (if false = true then (295 : α) + 5 * ((85 : Nat) : α) else 295))
      = 475 := by norm_num
  rw [e3] at h3
  have h4 := inFlight_hit m zeroHost _ hsqrt h3
  have e : run m firstHitTrace (initialWorld : World α)
      = update m zeroHost (run m (List.replicate 36 (Event.update zeroHost))
          (setMovement false true
            (run m (List.replicate 85 (Event.update zeroHost)) roundStart))) := by
    unfold firstHitTrace
    have hr : List.replicate 37 (Event.update (zeroHost : Host α))
        = List.replicate 36 (Event.update zeroHost) ++ [Event.update zeroHost] := rfl
    have r1 : run m [Event.selectCharacter true, Event.startGame zeroHost]
        (initialWorld : World α) = roundStart := rfl
    have r2 : ∀ v : World α, run m [Event.setMovement false true] v = setMovement false true v :=
      fun _ => rfl
    have r3 : ∀ v : World α, run m [Event.update zeroHost] v = update m zeroHost v :=
      fun _ => rfl
    rw [hr, ← List.append_assoc, run_append, run_append, run_append, run_append, r1, r2, r3]
  rw [e]
  exact h4

/-- The particle list after one tick of `gameLoop`, by game state: in Running and in
GameOver every live particle is updated (after a new one was pushed in a running game below
the cap): the position is advanced by the velocity, 0.05 is added to the vertical velocity,
the lifetime is decremented by 1, alpha is set to lifetime over maximal lifetime, and the
particle is removed if its lifetime is then at most 0. Every `update` call does this in
every state; in Idle `gameLoop` does not call `update`. -/
theorem gameLoop_particles_by_state (m : JSMath α) (h : Host α) (w : World α) :
    (w.gameRunning = true ∨ w.gameOver = true →
      (gameLoop m h w).particles
        = simpleParticleUpdate (w.particles ++ spawned h (hoverUpdate m h w)))
    ∧ (isIdle w → (gameLoop m h w).particles = w.particles)
    ∧ (update m h w).particles
        = simpleParticleUpdate (w.particles ++ spawned h (hoverUpdate m h w))
    ∧ (¬ (w.gameRunning = true ∧ w.particles.length < PARTICLE_COUNT) →
        spawned h (hoverUpdate m h w) = [])
    ∧ (∀ p : Particle α, (particleStep p).x = p.x + p.vx ∧ (particleStep p).y = p.y + p.vy
        ∧ (particleStep p).vx = p.vx ∧ (particleStep p).vy = p.vy + 0.05
        ∧ (particleStep p).lifetime = p.lifetime - 1
        ∧ (particleStep p).maxLifetime = p.maxLifetime
        ∧ (particleStep p).alpha = (particleStep p).lifetime / (particleStep p).maxLifetime) := by
  refine ⟨?_, ?_, update_particles_simple m h w, ?_, fun p => ⟨rfl, rfl, rfl, rfl, rfl, rfl, rfl⟩⟩
  · intro hs
    rw [gameLoop_particles, if_pos hs, update_particles_simple]
  · intro hi
    rw [gameLoop_particles, if_neg]
    rw [hi.1, hi.2]
    simp
  · intro hn
    unfold spawned
    rw [if_neg]
    rintro ⟨h1, h2⟩
    exact hn ⟨h2, h1⟩

/-! ## Claims -/

/-- C1: in a running tick gravity is added to the vertical velocity before the position
is advanced: the integrated values are `vy + GRAVITY`, `x + vx` and `y + (vy + GRAVITY)`,
and when the tick has no wall contact and no player hit they are the values at the end
of the tick (the ground check never moves the ball of a running game). From the state
that `startGame` leaves, one tick gives vertical velocity -7.85 and height 232.15. -/
theorem C1_gravity_then_position (m : JSMath α) (h h0 : Host α) (w w0 : World α)
    (hrun : w.gameRunning = true)
    (hleft : ¬ (w.ball.x + w.ball.velocity.x - w.ball.radius < 0))
    (hright : ¬ (w.ball.x + w.ball.velocity.x + w.ball.radius > CANVAS_WIDTH))
    (hhit : playerHit m (movePlayer w.player) (integrateBall w.ball) = false)
    (hsel : w0.selectedCharacter = true) (himg : w0.characterImageComplete = true) :
    ((integrateBall w.ball).velocity.y = w.ball.velocity.y + GRAVITY
      ∧ (integrateBall w.ball).x = w.ball.x + w.ball.velocity.x
      ∧ (integrateBall w.ball).y = w.ball.y + (w.ball.velocity.y + GRAVITY))
    ∧ ((update m h w).ball.velocity.y = w.ball.velocity.y + GRAVITY
      ∧ (update m h w).ball.velocity.x = w.ball.velocity.x
      ∧ (update m h w).ball.x = w.ball.x + w.ball.velocity.x
      ∧ (update m h w).ball.y = w.ball.y + (w.ball.velocity.y + GRAVITY))
    ∧ ((update m h (startGame h0 w0)).ball.velocity.y = -7.85
      ∧ (update m h (startGame h0 w0)).ball.y = 232.15) := by
  have hwall : wallCollision (integrateBall w.ball) = integrateBall w.ball := by
    have h1 : ¬ ((integrateBall w.ball).x - (integrateBall w.ball).radius < 0) := hleft
    have h2 : ¬ ((integrateBall w.ball).x + (integrateBall w.ball).radius > CANVAS_WIDTH) :=
      hright
    simp only [wallCollision, h1, h2, if_false]
  refine ⟨⟨rfl, rfl, rfl⟩, ?_, ?_⟩
  · rw [update_running_ball m h w hrun, hwall, hhit]
    exact ⟨rfl, rfl, rfl, rfl⟩
  · have hr := (startGame_flags h0 w0 hsel himg).1
    have hb := startGame_ball h0 w0 hsel himg
    have hno : playerHit m (movePlayer (startGame h0 w0).player)
        (wallCollision (integrateBall (startGame h0 w0).ball)) = false := by
      have hv : (wallCollision (integrateBall (startGame h0 w0).ball)).velocity.y
          = -8 + 0.15 := by
        rw [wallCollision_vy, hb]; rfl
      simp only [playerHit, hv]
      norm_num
    rw [update_running_ball m h _ hr, hno]
    simp only [Bool.false_eq_true, if_false, wallCollision_vy, wallCollision_y, hb]
    simp only [integrateBall, CANVAS_HEIGHT, BALL_VELOCITY_Y, GRAVITY]
    norm_num
theorem C1_gravity_then_position_witness :
    (roundStart : World ℝ).gameRunning = true
    ∧ (update ⟨Real.sqrt, fun y x => Complex.arg ⟨x, y⟩, Real.cos, Real.sin⟩ zeroHost
        (roundStart : World ℝ)).ball.velocity.y = -8 + GRAVITY
    ∧ (update ⟨Real.sqrt, fun y x => Complex.arg ⟨x, y⟩, Real.cos, Real.sin⟩ zeroHost
        (roundStart : World ℝ)).ball.y = 232.15 :=
  have hw := C1_gravity_then_position
    ⟨Real.sqrt, fun y x => Complex.arg ⟨x, y⟩, Real.cos, Real.sin⟩ zeroHost zeroHost
    (roundStart : World ℝ) (selectCharacter true initialWorld)
    (by simp [roundStart, startGame, selectCharacter, initialWorld])
    (by simp [roundStart, startGame, selectCharacter, initialWorld, stopRecording,
          CANVAS_WIDTH, BALL_VELOCITY_X, BALL_RADIUS]; norm_num)
    (by simp [roundStart, startGame, selectCharacter, initialWorld, stopRecording,
          CANVAS_WIDTH, BALL_VELOCITY_X, BALL_RADIUS]; norm_num)
    (by simp [roundStart, startGame, selectCharacter, initialWorld, stopRecording,
          playerHit, integrateBall, BALL_VELOCITY_Y, GRAVITY]; norm_num)
    rfl rfl
  ⟨by simp [roundStart, startGame, selectCharacter, initialWorld], hw.2.1.1, hw.2.2.2⟩

/-- C2: after a running tick the horizontal position of the ball (radius 18) lies in
`[radius, CANVAS_WIDTH - radius] = [18, 622]`, whatever the position and the velocity
of the ball were before the tick. -/
theorem C2_ball_x_in_field (m : JSMath α) (h : Host α) (w : World α)
    (hrun : w.gameRunning = true) (hr : w.ball.radius = BALL_RADIUS) :
    (BALL_RADIUS ≤ (update m h w).ball.x ∧ (update m h w).ball.x ≤ CANVAS_WIDTH - BALL_RADIUS)
    ∧ (18 ≤ (update m h w).ball.x ∧ (update m h w).ball.x ≤ 622) := by
  have key : BALL_RADIUS ≤ (update m h w).ball.x
      ∧ (update m h w).ball.x ≤ CANVAS_WIDTH - BALL_RADIUS := by
    rw [update_running_ball_x m h w hrun]
    have hr1 : (integrateBall w.ball).radius = BALL_RADIUS := hr
    unfold wallCollision
    split_ifs with h1 h2
    · simp only [hr1, BALL_RADIUS, CANVAS_WIDTH]; norm_num
    · simp only [hr1, BALL_RADIUS, CANVAS_WIDTH]; norm_num
    · rw [hr1] at h1 h2
      constructor
      · linarith
      · linarith
  refine ⟨key, ?_⟩
  simp only [BALL_RADIUS, CANVAS_WIDTH] at key
  constructor
  · exact key.1
  · linarith [key.2]

theorem C2_ball_x_in_field_witness :
    (roundStart : World ℝ).gameRunning = true ∧ (roundStart : World ℝ).ball.radius = BALL_RADIUS
    ∧ (18 : ℝ) ≤ (update ⟨Real.sqrt, fun y x => Complex.arg ⟨x, y⟩, Real.cos, Real.sin⟩ zeroHost
        (roundStart : World ℝ)).ball.x
    ∧ (update ⟨Real.sqrt, fun y x => Complex.arg ⟨x, y⟩, Real.cos, Real.sin⟩ zeroHost
        (roundStart : World ℝ)).ball.x ≤ 622 :=
  ⟨by simp [roundStart, startGame, selectCharacter, initialWorld],
   by simp [roundStart, startGame, selectCharacter, initialWorld, stopRecording],
   (C2_ball_x_in_field ⟨Real.sqrt, fun y x => Complex.arg ⟨x, y⟩, Real.cos, Real.sin⟩ zeroHost
      (roundStart : World ℝ)
      (by simp [roundStart, startGame, selectCharacter, initialWorld])
      (by simp [roundStart, startGame, selectCharacter, initialWorld, stopRecording])).2⟩

/-- C3: wall resolution in a running tick (ball radius 18). With `x1 = x + vx` the
integrated position: if `x1 - radius < 0` the ball is put at `radius`, if
`x1 + radius > CANVAS_WIDTH` it is put at `CANVAS_WIDTH - radius`, and in both cases the
horizontal velocity right after wall resolution is `-BOUNCE_FACTOR = -0.8` times the
velocity before; if no edge is crossed wall resolution changes nothing. The position set
by wall resolution is the one at the end of the tick, and unless the player is hit in
the same tick so is the horizontal velocity, and the score is then unchanged. -/
theorem C3_wall_resolution (m : JSMath α) (h : Host α) (w : World α)
    (hrun : w.gameRunning = true) (hr : w.ball.radius = BALL_RADIUS) :
    (w.ball.x + w.ball.velocity.x - w.ball.radius < 0 →
      (wallCollision (integrateBall w.ball)).x = w.ball.radius
      ∧ (wallCollision (integrateBall w.ball)).velocity.x = -BOUNCE_FACTOR * w.ball.velocity.x
      ∧ (wallCollision (integrateBall w.ball)).velocity.x = -0.8 * w.ball.velocity.x
      ∧ (update m h w).ball.x = 18)
    ∧ (w.ball.x + w.ball.velocity.x + w.ball.radius > CANVAS_WIDTH →
      (wallCollision (integrateBall w.ball)).x = CANVAS_WIDTH - w.ball.radius
      ∧ (wallCollision (integrateBall w.ball)).velocity.x = -BOUNCE_FACTOR * w.ball.velocity.x
      ∧ (wallCollision (integrateBall w.ball)).velocity.x = -0.8 * w.ball.velocity.x
      ∧ (update m h w).ball.x = 622)
    ∧ (¬ (w.ball.x + w.ball.velocity.x - w.ball.radius < 0) →
      ¬ (w.ball.x + w.ball.velocity.x + w.ball.radius > CANVAS_WIDTH) →
      wallCollision (integrateBall w.ball) = integrateBall w.ball
      ∧ (update m h w).ball.x = w.ball.x + w.ball.velocity.x)
    ∧ (update m h w).ball.x = (wallCollision (integrateBall w.ball)).x
    ∧ (playerHit m (movePlayer w.player) (wallCollision (integrateBall w.ball)) = false →
      (update m h w).ball.velocity.x = (wallCollision (integrateBall w.ball)).velocity.x
      ∧ (update m h w).score = w.score) := by
  have hx := update_running_ball_x m h w hrun
  have hr1 : (integrateBall w.ball).radius = BALL_RADIUS := hr
  have hx1 : (integrateBall w.ball).x = w.ball.x + w.ball.velocity.x := rfl
  have hv1 : (integrateBall w.ball).velocity.x = w.ball.velocity.x := rfl
  refine ⟨?_, ?_, ?_, hx, ?_⟩
  · intro hl
    have hl1 : (integrateBall w.ball).x - (integrateBall w.ball).radius < 0 := hl
    have e : wallCollision (integrateBall w.ball) =
        { integrateBall w.ball with
          x := (integrateBall w.ball).radius
          velocity := { (integrateBall w.ball).velocity with
            x := -(integrateBall w.ball).velocity.x * BOUNCE_FACTOR } } := by
      simp only [wallCollision, hl1, if_true]
    rw [hx, e]
    refine ⟨rfl, ?_, ?_, ?_⟩
    · simp only [hv1]; ring
    · simp only [hv1, BOUNCE_FACTOR]; ring
    · simp only [hr1, BALL_RADIUS]
  · intro hg
    have hg1 : (integrateBall w.ball).x + (integrateBall w.ball).radius > CANVAS_WIDTH := hg
    have hl1 : ¬ ((integrateBall w.ball).x - (integrateBall w.ball).radius < 0) := by
      rw [hx1, hr1]
      rw [hr] at hg
      simp only [BALL_RADIUS, CANVAS_WIDTH] at hg ⊢
      linarith
    have e : wallCollision (integrateBall w.ball) =
        { integrateBall w.ball with
          x := CANVAS_WIDTH - (integrateBall w.ball).radius
          velocity := { (integrateBall w.ball).velocity with
            x := -(integrateBall w.ball).velocity.x * BOUNCE_FACTOR } } := by
      simp only [wallCollision, hl1, hg1, if_true, if_false]
    rw [hx, e]
    refine ⟨rfl, ?_, ?_, ?_⟩
    · simp only [hv1]; ring
    · simp only [hv1, BOUNCE_FACTOR]; ring
    · simp only [hr1, BALL_RADIUS, CANVAS_WIDTH]; norm_num
  · intro hl hg
    have hl1 : ¬ ((integrateBall w.ball).x - (integrateBall w.ball).radius < 0) := hl
    have hg1 : ¬ ((integrateBall w.ball).x + (integrateBall w.ball).radius > CANVAS_WIDTH) := hg
    have e : wallCollision (integrateBall w.ball) = integrateBall w.ball := by
      simp only [wallCollision, hl1, hg1, if_false]
    rw [hx, e]
    exact ⟨rfl, rfl⟩
  · intro hno
    rw [update_running_ball m h w hrun, update_running_score m h w hrun, hno]
    exact ⟨rfl, rfl⟩

theorem C3_wall_resolution_witness :
    (withBall 19 240 (-3) (-8) : World ℝ).gameRunning = true
    ∧ (withBall 19 240 (-3) (-8) : World ℝ).ball.radius = BALL_RADIUS
    ∧ ((wallCollision (integrateBall (withBall 19 240 (-3) (-8) : World ℝ).ball)).x = 18
      ∧ (wallCollision (integrateBall (withBall 19 240 (-3) (-8) : World ℝ).ball)).velocity.x
          = -0.8 * (-3)
      ∧ (update ⟨Real.sqrt, fun y x => Complex.arg ⟨x, y⟩, Real.cos, Real.sin⟩ zeroHost
          (withBall 19 240 (-3) (-8) : World ℝ)).ball.x = 18) :=
  have hw := (C3_wall_resolution ⟨Real.sqrt, fun y x => Complex.arg ⟨x, y⟩, Real.cos, Real.sin⟩
    zeroHost (withBall 19 240 (-3) (-8) : World ℝ)
    (by simp [withBall, roundStart, startGame, selectCharacter, initialWorld])
    (by simp [withBall, roundStart, startGame, selectCharacter, initialWorld, stopRecording])).1
    (by simp [withBall, roundStart, startGame, selectCharacter, initialWorld, stopRecording,
          BALL_RADIUS]; norm_num)
  ⟨by simp [withBall, roundStart, startGame, selectCharacter, initialWorld],
   by simp [withBall, roundStart, startGame, selectCharacter, initialWorld, stopRecording],
   hw.1, hw.2.2.1, hw.2.2.2⟩

/-- C4: every `update` call changes the score by 0 or by +1, so the score never
decreases; it grows by exactly 1 if and only if the game is running and, with the player
moved, the ball integrated and the walls resolved, the Euclidean distance from the ball
centre to the centre of the player's body is strictly below ball radius plus
`min(width, height) / 2` and the vertical velocity of the ball is strictly positive. -/
theorem C4_score_step (m : JSMath α) (h : Host α) (w : World α) :
    ((update m h w).score = w.score ∨ (update m h w).score = w.score + 1)
    ∧ w.score ≤ (update m h w).score
    ∧ ((update m h w).score = w.score + 1 ↔
        (w.gameRunning = true
        ∧ m.sqrt
            (((wallCollision (integrateBall w.ball)).x
                - ((movePlayer w.player).x + w.player.width / 2))
              * ((wallCollision (integrateBall w.ball)).x
                - ((movePlayer w.player).x + w.player.width / 2))
            + ((wallCollision (integrateBall w.ball)).y - (w.player.y + w.player.height / 2))
              * ((wallCollision (integrateBall w.ball)).y - (w.player.y + w.player.height / 2)))
          < w.ball.radius + min w.player.width w.player.height / 2
        ∧ (wallCollision (integrateBall w.ball)).velocity.y > 0)) := by
  have hit_iff : playerHit m (movePlayer w.player) (wallCollision (integrateBall w.ball)) = true ↔
      (m.sqrt
            (((wallCollision (integrateBall w.ball)).x
                - ((movePlayer w.player).x + w.player.width / 2))
              * ((wallCollision (integrateBall w.ball)).x
                - ((movePlayer w.player).x + w.player.width / 2))
            + ((wallCollision (integrateBall w.ball)).y - (w.player.y + w.player.height / 2))
              * ((wallCollision (integrateBall w.ball)).y - (w.player.y + w.player.height / 2)))
          < w.ball.radius + min w.player.width w.player.height / 2
        ∧ (wallCollision (integrateBall w.ball)).velocity.y > 0) := by
    have hrad : (wallCollision (integrateBall w.ball)).radius = w.ball.radius := by
      rw [wallCollision_radius]; rfl
    simp only [playerHit, hitDistance, Bool.and_eq_true, decide_eq_true_eq, movePlayer_y,
      movePlayer_width, movePlayer_height, hrad]
  cases hrun : w.gameRunning with
  | false =>
    have hs := (update_idle_fields m h w hrun).1
    rw [hs]
    simp
  | true =>
    rw [update_running_score m h w hrun]
    by_cases hh : playerHit m (movePlayer w.player) (wallCollision (integrateBall w.ball)) = true
    · have hp := hit_iff.mp hh
      rw [if_pos hh]
      exact ⟨Or.inr rfl, Nat.le_succ _, fun _ => ⟨rfl, hp⟩, fun _ => rfl⟩
    · have hn : ¬ _ := fun c => hh (hit_iff.mpr c)
      rw [if_neg hh]
      exact ⟨Or.inl rfl, le_refl _, fun c => absurd c (by omega), fun c => absurd c.2 hn⟩

/-- C5: on a player hit in a running tick, with `(vx, vy)` the ball velocity at the
check (`vy > 0`) and `(dx, dy)` the vector from the centre of the player's body to the
ball centre, the velocity at the end of the tick is
`(cos (atan2 dy dx) * sqrt (vx * vx + vy * vy) * 0.8, -|vy| * BOUNCE_POWER_INCREASE)`:
the vertical velocity is strictly negative with magnitude exactly 1.02 times the old one,
without any cap, and the horizontal speed is at most 0.8 times the old total speed.
The bound uses that the host cosine is bounded by 1 and its square root is not negative. -/
theorem C5_hit_velocity (m : JSMath α) (h : Host α) (w : World α)
    (hrun : w.gameRunning = true)
    (hhit : playerHit m (movePlayer w.player) (wallCollision (integrateBall w.ball)) = true)
    (hcos : ∀ t, |m.cos t| ≤ 1) (hsqrt : ∀ x, 0 ≤ m.sqrt x) :
    0 < w.ball.velocity.y + GRAVITY
    ∧ (update m h w).ball.velocity.x =
        m.cos (m.atan2
            ((wallCollision (integrateBall w.ball)).y - (w.player.y + w.player.height / 2))
            ((wallCollision (integrateBall w.ball)).x
              - ((movePlayer w.player).x + w.player.width / 2)))
          * m.sqrt ((wallCollision (integrateBall w.ball)).velocity.x
                * (wallCollision (integrateBall w.ball)).velocity.x
              + (w.ball.velocity.y + GRAVITY) * (w.ball.velocity.y + GRAVITY))
          * 0.8
    ∧ (update m h w).ball.velocity.y = -|w.ball.velocity.y + GRAVITY| * BOUNCE_POWER_INCREASE
    ∧ (update m h w).ball.velocity.y < 0
    ∧ |(update m h w).ball.velocity.y| = 1.02 * |w.ball.velocity.y + GRAVITY|
    ∧ (update m h w).ball.velocity.y = -(1.02 * (w.ball.velocity.y + GRAVITY))
    ∧ |(update m h w).ball.velocity.x| ≤
        0.8 * m.sqrt ((wallCollision (integrateBall w.ball)).velocity.x
                * (wallCollision (integrateBall w.ball)).velocity.x
              + (w.ball.velocity.y + GRAVITY) * (w.ball.velocity.y + GRAVITY)) := by
  have hvy : (wallCollision (integrateBall w.ball)).velocity.y = w.ball.velocity.y + GRAVITY := by
    rw [wallCollision_vy]; rfl
  have hpos : 0 < w.ball.velocity.y + GRAVITY := by
    have := hhit
    simp only [playerHit, Bool.and_eq_true, decide_eq_true_eq, hvy] at this
    exact this.2
  have hb := update_running_ball m h w hrun
  rw [if_pos hhit] at hb
  have hx : (update m h w).ball.velocity.x =
      (hitVelocity m (movePlayer w.player) (wallCollision (integrateBall w.ball))).x := by
    rw [hb]
  have hy : (update m h w).ball.velocity.y =
      (hitVelocity m (movePlayer w.player) (wallCollision (integrateBall w.ball))).y := by
    rw [hb]
  have hx2 : (update m h w).ball.velocity.x =
        m.cos (m.atan2
            ((wallCollision (integrateBall w.ball)).y - (w.player.y + w.player.height / 2))
            ((wallCollision (integrateBall w.ball)).x
              - ((movePlayer w.player).x + w.player.width / 2)))
          * m.sqrt ((wallCollision (integrateBall w.ball)).velocity.x
                * (wallCollision (integrateBall w.ball)).velocity.x
              + (w.ball.velocity.y + GRAVITY) * (w.ball.velocity.y + GRAVITY))
          * 0.8 := by
    rw [hx]
    simp only [hitVelocity, hvy, movePlayer_y, movePlayer_width, movePlayer_height]
  have hy2 : (update m h w).ball.velocity.y =
      -|w.ball.velocity.y + GRAVITY| * BOUNCE_POWER_INCREASE := by
    rw [hy]
    simp only [hitVelocity, hvy]
  have habs : |w.ball.velocity.y + GRAVITY| = w.ball.velocity.y + GRAVITY := abs_of_pos hpos
  have hy3 : (update m h w).ball.velocity.y = -(1.02 * (w.ball.velocity.y + GRAVITY)) := by
    rw [hy2, habs]; simp only [BOUNCE_POWER_INCREASE]; ring
  have hneg : (update m h w).ball.velocity.y < 0 := by
    rw [hy3]
    have : 0 < 1.02 * (w.ball.velocity.y + GRAVITY) := mul_pos (by norm_num) hpos
    linarith
  refine ⟨hpos, hx2, hy2, hneg, ?_, hy3, ?_⟩
  · rw [abs_of_neg hneg, hy3, habs]; ring
  · rw [hx2]
    set c := m.cos (m.atan2
            ((wallCollision (integrateBall w.ball)).y - (w.player.y + w.player.height / 2))
            ((wallCollision (integrateBall w.ball)).x
              - ((movePlayer w.player).x + w.player.width / 2))) with hc
    set p := m.sqrt ((wallCollision (integrateBall w.ball)).velocity.x
                * (wallCollision (integrateBall w.ball)).velocity.x
              + (w.ball.velocity.y + GRAVITY) * (w.ball.velocity.y + GRAVITY)) with hp
    have h1 : |c| ≤ 1 := hcos _
    have h2 : 0 ≤ p := hsqrt _
    rw [abs_mul, abs_mul, abs_of_nonneg h2, abs_of_pos (by norm_num : (0 : α) < 0.8)]
    have : |c| * p ≤ 1 * p := mul_le_mul_of_nonneg_right h1 h2
    nlinarith

theorem C5_hit_velocity_witness :
    (withBall 320 425 0 0.85 : World ℝ).gameRunning = true
    ∧ (update ⟨Real.sqrt, fun y x => Complex.arg ⟨x, y⟩, Real.cos, Real.sin⟩ zeroHost
        (withBall 320 425 0 0.85 : World ℝ)).ball.velocity.y = -(1.02 * (0.85 + GRAVITY))
    ∧ (update ⟨Real.sqrt, fun y x => Complex.arg ⟨x, y⟩, Real.cos, Real.sin⟩ zeroHost
        (withBall 320 425 0 0.85 : World ℝ)).ball.velocity.y < 0 :=
  have hw := C5_hit_velocity ⟨Real.sqrt, fun y x => Complex.arg ⟨x, y⟩, Real.cos, Real.sin⟩
    zeroHost (withBall 320 425 0 0.85 : World ℝ)
    (by simp [withBall, roundStart, startGame, selectCharacter, initialWorld])
    (by
      simp [withBall, roundStart, startGame, selectCharacter, initialWorld, stopRecording,
        playerHit, hitDistance, movePlayer, wallCollision, integrateBall, GRAVITY,
        CANVAS_WIDTH, CANVAS_HEIGHT, PLAYER_WIDTH, PLAYER_HEIGHT, GROUND_HEIGHT, BALL_RADIUS]
      norm_num)
    Real.abs_cos_le_one Real.sqrt_nonneg
  ⟨by simp [withBall, roundStart, startGame, selectCharacter, initialWorld], hw.2.2.2.2.2.1,
    hw.2.2.2.1⟩

/-- C6: an `update` call takes the game from Running to GameOver (`gameOver = true`,
`gameRunning = false`) if and only if the game is Running at the call and the integrated
ball has `y + radius > CANVAS_HEIGHT - GROUND_HEIGHT = 456`; a ball whose lower edge is
exactly on the ground line leaves the game Running, and an `update` from Idle or from
GameOver keeps that state. -/
theorem C6_game_over_iff (m : JSMath α) (h : Host α) (w : World α) :
    ((isRunning w ∧ isGameOver (update m h w)) ↔
      (isRunning w ∧ w.ball.y + (w.ball.velocity.y + GRAVITY) + w.ball.radius
        > CANVAS_HEIGHT - GROUND_HEIGHT))
    ∧ (CANVAS_HEIGHT - GROUND_HEIGHT : α) = 456
    ∧ (isRunning w →
        w.ball.y + (w.ball.velocity.y + GRAVITY) + w.ball.radius = CANVAS_HEIGHT - GROUND_HEIGHT →
        isRunning (update m h w))
    ∧ (isIdle w → isIdle (update m h w))
    ∧ (isGameOver w → isGameOver (update m h w)) := by
  refine ⟨?_, ?_, ?_, ?_, ?_⟩
  · constructor
    · rintro ⟨hr, hg⟩
      refine ⟨hr, ?_⟩
      by_contra hc
      have := (update_running_clear m h w hr.1 hc).1
      rw [hg.1] at this
      exact Bool.false_ne_true this
    · rintro ⟨hr, hc⟩
      have := update_running_crossing m h w hr.1 hc
      exact ⟨hr, this.1, this.2.1⟩
  · simp only [CANVAS_HEIGHT, GROUND_HEIGHT]; norm_num
  · intro hr he
    have hc : ¬ (w.ball.y + (w.ball.velocity.y + GRAVITY) + w.ball.radius
        > CANVAS_HEIGHT - GROUND_HEIGHT) := by
      rw [he]; exact lt_irrefl _
    have := update_running_clear m h w hr.1 hc
    exact ⟨this.1, this.2.1.trans hr.2⟩
  · intro hi
    have := update_idle_fields m h w hi.1
    exact ⟨this.2.2.1.trans hi.1, this.2.2.2.1.trans hi.2⟩
  · intro hi
    have := update_idle_fields m h w hi.1
    exact ⟨this.2.2.1.trans hi.1, this.2.2.2.1.trans hi.2⟩

theorem C6_game_over_iff_witness :
    isRunning (withBall 320 438 0 (-0.15) : World ℝ)
    ∧ isRunning (update ⟨Real.sqrt, fun y x => Complex.arg ⟨x, y⟩, Real.cos, Real.sin⟩ zeroHost
        (withBall 320 438 0 (-0.15) : World ℝ))
    ∧ isRunning (withBall 320 438 0 0 : World ℝ)
    ∧ isGameOver (update ⟨Real.sqrt, fun y x => Complex.arg ⟨x, y⟩, Real.cos, Real.sin⟩ zeroHost
        (withBall 320 438 0 0 : World ℝ)) :=
  have hr : ∀ x y vx vy : ℝ, isRunning (withBall x y vx vy : World ℝ) := fun x y vx vy => by
    simp [isRunning, withBall, roundStart, startGame, selectCharacter, initialWorld,
      stopRecording, zeroHost]
  ⟨hr _ _ _ _,
   (C6_game_over_iff ⟨Real.sqrt, fun y x => Complex.arg ⟨x, y⟩, Real.cos, Real.sin⟩ zeroHost
      (withBall 320 438 0 (-0.15) : World ℝ)).2.2.1 (hr _ _ _ _)
      (by simp [withBall, roundStart, startGame, selectCharacter, initialWorld, stopRecording,
            zeroHost, GRAVITY, CANVAS_HEIGHT, GROUND_HEIGHT, BALL_RADIUS]; norm_num),
   hr _ _ _ _,
   ((C6_game_over_iff ⟨Real.sqrt, fun y x => Complex.arg ⟨x, y⟩, Real.cos, Real.sin⟩ zeroHost
      (withBall 320 438 0 0 : World ℝ)).1.mpr ⟨hr _ _ _ _,
      (by simp [withBall, roundStart, startGame, selectCharacter, initialWorld, stopRecording,
            zeroHost, GRAVITY, CANVAS_HEIGHT, GROUND_HEIGHT, BALL_RADIUS]; norm_num)⟩).2⟩

/-- C7: once the game is in GameOver, any number of further `update` calls leaves the
score, the high score, both state flags, the start time of the game-over animation, the
supernova effect, the ball and the player position as they are, so the side effects of
the transition are not repeated. -/
theorem C7_game_over_is_stable (m : JSMath α) (hs : List (Host α)) (w : World α)
    (hover : isGameOver w) :
    (updates m hs w).score = w.score ∧ (updates m hs w).highScore = w.highScore
    ∧ (updates m hs w).gameRunning = false ∧ (updates m hs w).gameOver = true
    ∧ (updates m hs w).gameOverAnimationStart = w.gameOverAnimationStart
    ∧ (updates m hs w).supernovaEffect = w.supernovaEffect
    ∧ (updates m hs w).ball = w.ball
    ∧ (updates m hs w).player.x = w.player.x ∧ (updates m hs w).player.y = w.player.y := by
  have hf := updates_idle_fields m hs w hover.1
  exact ⟨hf.1, hf.2.1, hf.2.2.1.trans hover.1, hf.2.2.2.1.trans hover.2, hf.2.2.2.2.1,
    hf.2.2.2.2.2.1, hf.2.2.2.2.2.2.1, hf.2.2.2.2.2.2.2.1, hf.2.2.2.2.2.2.2.2⟩

theorem C7_game_over_is_stable_witness :
    isGameOver (update ⟨Real.sqrt, fun y x => Complex.arg ⟨x, y⟩, Real.cos, Real.sin⟩ zeroHost
      (withBall 320 438 0 0 : World ℝ))
    ∧ (updates ⟨Real.sqrt, fun y x => Complex.arg ⟨x, y⟩, Real.cos, Real.sin⟩
        [zeroHost, zeroHost, zeroHost]
        (update ⟨Real.sqrt, fun y x => Complex.arg ⟨x, y⟩, Real.cos, Real.sin⟩ zeroHost
          (withBall 320 438 0 0 : World ℝ))).ball
      = (update ⟨Real.sqrt, fun y x => Complex.arg ⟨x, y⟩, Real.cos, Real.sin⟩ zeroHost
          (withBall 320 438 0 0 : World ℝ)).ball :=
  have hover : isGameOver
      (update ⟨Real.sqrt, fun y x => Complex.arg ⟨x, y⟩, Real.cos, Real.sin⟩ zeroHost
        (withBall 320 438 0 0 : World ℝ)) := by
    have hc := update_running_crossing
      ⟨Real.sqrt, fun y x => Complex.arg ⟨x, y⟩, Real.cos, Real.sin⟩ zeroHost
      (withBall 320 438 0 0 : World ℝ)
      (by simp [withBall, roundStart, startGame, selectCharacter, initialWorld])
      (by simp [withBall, roundStart, startGame, selectCharacter, initialWorld, stopRecording,
            zeroHost, GRAVITY, CANVAS_HEIGHT, GROUND_HEIGHT, BALL_RADIUS]; norm_num)
    exact ⟨hc.1, hc.2.1⟩
  ⟨hover, (C7_game_over_is_stable
      ⟨Real.sqrt, fun y x => Complex.arg ⟨x, y⟩, Real.cos, Real.sin⟩
      [zeroHost, zeroHost, zeroHost] _ hover).2.2.2.2.2.2.1⟩

/-- C8: at the transition from Running to GameOver the high score becomes the maximum of
the previous high score and the score at the transition: it is replaced by the score
exactly when the score is strictly greater and is otherwise unchanged, and no `update`
call lowers it. With score 7 at the transition and high score 5 the game is over and the
high score is 7. -/
theorem C8_high_score_at_game_over (m : JSMath α) (h : Host α) (w v : World α)
    (hr : isRunning w)
    (hc : w.ball.y + (w.ball.velocity.y + GRAVITY) + w.ball.radius
      > CANVAS_HEIGHT - GROUND_HEIGHT) :
    isGameOver (update m h w)
    ∧ (update m h w).highScore = max w.highScore (update m h w).score
    ∧ ((update m h w).score > w.highScore → (update m h w).highScore = (update m h w).score)
    ∧ (¬ ((update m h w).score > w.highScore) → (update m h w).highScore = w.highScore)
    ∧ w.highScore ≤ (update m h w).highScore
    ∧ v.highScore ≤ (update m h v).highScore
    ∧ ((update m h w).score = 7 → w.highScore = 5 → (update m h w).highScore = 7)
    ∧ (w.score = 7 → w.highScore = 5 →
        playerHit m (movePlayer w.player) (wallCollision (integrateBall w.ball)) = false →
        (update m h w).highScore = 7) := by
  have hg := update_running_crossing m h w hr.1 hc
  refine ⟨⟨hg.1, hg.2.1⟩, hg.2.2.1, ?_, ?_, update_highScore_mono m h w,
    update_highScore_mono m h v, ?_, ?_⟩
  · intro hs; rw [hg.2.2.1]; exact max_eq_right (le_of_lt hs)
  · intro hs; rw [hg.2.2.1]; exact max_eq_left (not_lt.mp hs)
  · intro h7 h5; rw [hg.2.2.1, h7, h5]; rfl
  · intro h7 h5 hno
    have hs := update_running_score m h w hr.1
    rw [hno] at hs
    rw [hg.2.2.1, hs, if_neg Bool.false_ne_true, h7, h5]; rfl

theorem C8_high_score_at_game_over_witness :
    isRunning (withScore 7 5 (withBall 320 440 0 (-1)) : World ℝ)
    ∧ isGameOver (update ⟨Real.sqrt, fun y x => Complex.arg ⟨x, y⟩, Real.cos, Real.sin⟩ zeroHost
        (withScore 7 5 (withBall 320 440 0 (-1)) : World ℝ))
    ∧ (update ⟨Real.sqrt, fun y x => Complex.arg ⟨x, y⟩, Real.cos, Real.sin⟩ zeroHost
        (withScore 7 5 (withBall 320 440 0 (-1)) : World ℝ)).highScore = 7 :=
  have hr : isRunning (withScore 7 5 (withBall 320 440 0 (-1)) : World ℝ) := by
    simp [isRunning, withScore, withBall, roundStart, startGame, selectCharacter, initialWorld,
      stopRecording, zeroHost]
  have hw := C8_high_score_at_game_over
    ⟨Real.sqrt, fun y x => Complex.arg ⟨x, y⟩, Real.cos, Real.sin⟩ zeroHost
    (withScore 7 5 (withBall 320 440 0 (-1)) : World ℝ) roundStart hr
    (by simp [withScore, withBall, roundStart, startGame, selectCharacter, initialWorld,
          stopRecording, zeroHost, GRAVITY, CANVAS_HEIGHT, GROUND_HEIGHT, BALL_RADIUS]; norm_num)
  ⟨hr, hw.1, hw.2.2.2.2.2.2.2 rfl rfl
    (by simp [withScore, withBall, roundStart, startGame, selectCharacter, initialWorld,
          stopRecording, zeroHost, playerHit, wallCollision, integrateBall, GRAVITY,
          CANVAS_WIDTH, BALL_RADIUS]; norm_num)⟩

omit [FloorRing α] in
/-- C9: when a character is selected and its image is complete, `startGame` puts the
core state into fixed values whatever the prior state was: player at `x = 295`,
`y = 396` with width 50, height 60 and both movement flags cleared; ball at `(320, 240)`
with velocity `(1.5, -8)` and rotation 0; score 0; `gameRunning` set and `gameOver`
cleared; a fresh active supernova at the canvas centre with radius 10, maximal radius
500 and alpha 0.3. Two calls from different prior states agree on all of these. -/
theorem C9_startGame_resets (h h2 : Host α) (w w2 : World α)
    (hsel : w.selectedCharacter = true) (himg : w.characterImageComplete = true)
    (hsel2 : w2.selectedCharacter = true) (himg2 : w2.characterImageComplete = true) :
    ((startGame h w).player.x = 295 ∧ (startGame h w).player.y = 396
      ∧ (startGame h w).player.width = 50 ∧ (startGame h w).player.height = 60
      ∧ (startGame h w).player.isMovingLeft = false
      ∧ (startGame h w).player.isMovingRight = false)
    ∧ ((startGame h w).ball.x = 320 ∧ (startGame h w).ball.y = 240
      ∧ (startGame h w).ball.velocity.x = 1.5 ∧ (startGame h w).ball.velocity.y = -8
      ∧ (startGame h w).ball.rotation = 0)
    ∧ (startGame h w).score = 0
    ∧ ((startGame h w).gameRunning = true ∧ (startGame h w).gameOver = false)
    ∧ ((startGame h w).supernovaEffect.active = true
      ∧ (startGame h w).supernovaEffect.x = CANVAS_WIDTH / 2
      ∧ (startGame h w).supernovaEffect.y = CANVAS_HEIGHT / 2
      ∧ (startGame h w).supernovaEffect.x = 320 ∧ (startGame h w).supernovaEffect.y = 240
      ∧ (startGame h w).supernovaEffect.radius = 10
      ∧ (startGame h w).supernovaEffect.maxRadius = 500
      ∧ (startGame h w).supernovaEffect.alpha = 0.3)
    ∧ ((startGame h w).player = (startGame h2 w2).player
      ∧ (startGame h w).ball = (startGame h2 w2).ball
      ∧ (startGame h w).score = (startGame h2 w2).score
      ∧ (startGame h w).gameRunning = (startGame h2 w2).gameRunning
      ∧ (startGame h w).gameOver = (startGame h2 w2).gameOver
      ∧ (startGame h w).supernovaEffect = (startGame h2 w2).supernovaEffect) := by
  have hp := startGame_player h w hsel himg
  have hb := startGame_ball h w hsel himg
  have hf := startGame_flags h w hsel himg
  have hn := startGame_supernova h w hsel himg
  have hp2 := startGame_player h2 w2 hsel2 himg2
  have hb2 := startGame_ball h2 w2 hsel2 himg2
  have hf2 := startGame_flags h2 w2 hsel2 himg2
  have hn2 := startGame_supernova h2 w2 hsel2 himg2
  have e500 : jsOr (some (500 : α)) (300 + h.rNova * 200) = 500 := by
    simp [jsOr]
  have e500b : jsOr (some (500 : α)) (300 + h2.rNova * 200) = 500 := by
    simp [jsOr]
  have e03 : jsOr (some (0.3 : α)) 0.8 = 0.3 := by
    have : (0.3 : α) ≠ 0 := by norm_num
    simp [jsOr, this]
  have ex : jsOr (some (CANVAS_WIDTH / 2 : α)) (CANVAS_WIDTH / 2) = CANVAS_WIDTH / 2 := by
    simp [jsOr]
  have ey : jsOr (some (CANVAS_HEIGHT / 2 : α)) (CANVAS_HEIGHT / 2) = CANVAS_HEIGHT / 2 := by
    simp [jsOr]
  refine ⟨?_, ?_, hf.2.2, ⟨hf.1, hf.2.1⟩, ?_, ?_⟩
  · rw [hp]
    refine ⟨?_, ?_, rfl, rfl, rfl, rfl⟩
    · simp only [CANVAS_WIDTH, PLAYER_WIDTH]; norm_num
    · simp only [CANVAS_HEIGHT, PLAYER_HEIGHT, GROUND_HEIGHT]; norm_num
  · rw [hb]
    refine ⟨?_, ?_, rfl, rfl, rfl⟩
    · simp only [CANVAS_WIDTH]; norm_num
    · simp only [CANVAS_HEIGHT]; norm_num
  · rw [hn]
    refine ⟨rfl, ex, ey, ex.trans ?_, ey.trans ?_, rfl, e500, e03⟩
    · simp only [CANVAS_WIDTH]; norm_num
    · simp only [CANVAS_HEIGHT]; norm_num
  · refine ⟨hp.trans hp2.symm, hb.trans hb2.symm, hf.2.2.trans hf2.2.2.symm,
      hf.1.trans hf2.1.symm, hf.2.1.trans hf2.2.1.symm, ?_⟩
    rw [hn, hn2]
    simp only [triggerSupernova, e500, e500b]

theorem C9_startGame_resets_witness :
    (startGame zeroHost (selectCharacter true initialWorld) : World ℚ).ball.x = 320
    ∧ (startGame zeroHost (selectCharacter true initialWorld) : World ℚ).ball
      = (startGame zeroHost (withScore 7 5 (selectCharacter true initialWorld)) : World ℚ).ball
    ∧ (startGame zeroHost (withScore 7 5 (selectCharacter true initialWorld)) : World ℚ).score
      = 0 :=
  have hw := C9_startGame_resets (zeroHost : Host ℚ) zeroHost
    (selectCharacter true initialWorld) (withScore 7 5 (selectCharacter true initialWorld))
    rfl rfl rfl rfl
  have hw2 := C9_startGame_resets (zeroHost : Host ℚ) zeroHost
    (withScore 7 5 (selectCharacter true initialWorld)) (selectCharacter true initialWorld)
    rfl rfl rfl rfl
  ⟨hw.2.1.1, hw.2.2.2.2.2.2.1, hw2.2.2.1⟩

/-- C10: in every state reached from the initial state by any sequence of `startGame`,
`update`, `showCharacterSelectScreen` calls and host events, `gameRunning` and `gameOver`
are never both set, so the two flags denote exactly one of Idle, Running and GameOver. -/
theorem C10_flags_exclusive (m : JSMath α) (es : List (Event α)) :
    ¬ ((run m es initialWorld).gameRunning = true ∧ (run m es initialWorld).gameOver = true)
    ∧ (isIdle (run m es initialWorld) ∨ isRunning (run m es initialWorld)
        ∨ isGameOver (run m es initialWorld))
    ∧ ¬ (isIdle (run m es initialWorld) ∧ isRunning (run m es initialWorld))
    ∧ ¬ (isIdle (run m es initialWorld) ∧ isGameOver (run m es initialWorld))
    ∧ ¬ (isRunning (run m es initialWorld) ∧ isGameOver (run m es initialWorld)) := by
  have h0 : flagsExclusive (initialWorld : World α) := by
    intro hc; exact Bool.false_ne_true hc.1
  have hx := run_flagsExclusive m es initialWorld h0
  refine ⟨hx, ?_, ?_, ?_, ?_⟩
  · unfold flagsExclusive at hx
    unfold isIdle isRunning isGameOver
    cases hr : (run m es initialWorld).gameRunning <;>
      cases hg : (run m es initialWorld).gameOver <;> simp_all
  · unfold isIdle isRunning
    intro hc; rw [hc.1.1] at hc; exact Bool.false_ne_true hc.2.1
  · unfold isIdle isGameOver
    intro hc; rw [hc.1.2] at hc; exact Bool.false_ne_true hc.2.2
  · unfold isRunning isGameOver
    intro hc; rw [hc.1.1] at hc; exact Bool.false_ne_true hc.2.1.symm

/-- C11 (counterexample): `showCharacterSelectScreen` takes a Running game back to Idle,
a transition the claim excludes. -/
theorem C11_running_to_idle :
    isRunning (roundStart : World ℚ) ∧ isIdle (showCharacterSelectScreen (roundStart : World ℚ)) := by
  constructor
  · simp [isRunning, roundStart, startGame, selectCharacter, initialWorld, stopRecording, zeroHost]
  · simp [isIdle, showCharacterSelectScreen, roundStart, startGame, selectCharacter, initialWorld,
      stopRecording, zeroHost]

/-- C11 (amended): the transitions of the game state are Idle to Running and GameOver to
Running (`startGame`, which otherwise leaves the state as it is or restarts a Running
game), Running to GameOver (`update`) and Running to Idle (`showCharacterSelectScreen`);
`update` keeps Idle and GameOver, `showCharacterSelectScreen` keeps Idle and GameOver,
and no event goes from Idle to GameOver or from GameOver to Idle. -/
theorem C11_transitions (m : JSMath α) (w : World α) :
    (∀ h : Host α, startGame h w = w ∨ isRunning (startGame h w))
    ∧ (∀ h : Host α, (isIdle w → isIdle (update m h w))
        ∧ (isGameOver w → isGameOver (update m h w))
        ∧ (isRunning w → isRunning (update m h w) ∨ isGameOver (update m h w)))
    ∧ ((isIdle w → isIdle (showCharacterSelectScreen w))
        ∧ (isGameOver w → isGameOver (showCharacterSelectScreen w))
        ∧ (isRunning w → isIdle (showCharacterSelectScreen w)))
    ∧ (∀ e : Event α,
        (isIdle w → isIdle (step m e w) ∨ isRunning (step m e w))
        ∧ (isRunning w → isRunning (step m e w) ∨ isGameOver (step m e w) ∨ isIdle (step m e w))
        ∧ (isGameOver w → isGameOver (step m e w) ∨ isRunning (step m e w))) := by
  have hstart : ∀ h : Host α, startGame h w = w ∨ isRunning (startGame h w) := by
    intro h
    by_cases hg : w.selectedCharacter = true ∧ w.characterImageComplete = true
    · have hf := startGame_flags h w hg.1 hg.2
      exact Or.inr ⟨hf.1, hf.2.1⟩
    · exact Or.inl (startGame_blocked h w hg)
  have hupd : ∀ h : Host α, (isIdle w → isIdle (update m h w))
        ∧ (isGameOver w → isGameOver (update m h w))
        ∧ (isRunning w → isRunning (update m h w) ∨ isGameOver (update m h w)) := by
    intro h
    refine ⟨?_, ?_, ?_⟩
    · intro hi
      have hf := update_idle_fields m h w hi.1
      exact ⟨hf.2.2.1.trans hi.1, hf.2.2.2.1.trans hi.2⟩
    · intro hi
      have hf := update_idle_fields m h w hi.1
      exact ⟨hf.2.2.1.trans hi.1, hf.2.2.2.1.trans hi.2⟩
    · intro hr
      by_cases hc : w.ball.y + (w.ball.velocity.y + GRAVITY) + w.ball.radius
          > CANVAS_HEIGHT - GROUND_HEIGHT
      · have hg := update_running_crossing m h w hr.1 hc
        exact Or.inr ⟨hg.1, hg.2.1⟩
      · have hg := update_running_clear m h w hr.1 hc
        exact Or.inl ⟨hg.1, hg.2.1.trans hr.2⟩
  have hshow : (isIdle w → isIdle (showCharacterSelectScreen w))
        ∧ (isGameOver w → isGameOver (showCharacterSelectScreen w))
        ∧ (isRunning w → isIdle (showCharacterSelectScreen w)) := by
    unfold showCharacterSelectScreen
    refine ⟨?_, ?_, ?_⟩
    · intro hi
      rw [if_neg (by rw [hi.1]; exact Bool.false_ne_true)]; exact hi
    · intro hi
      rw [if_neg (by rw [hi.1]; exact Bool.false_ne_true)]; exact hi
    · intro hr
      rw [if_pos hr.1]; exact ⟨rfl, hr.2⟩
  refine ⟨hstart, hupd, hshow, ?_⟩
  intro e
  have hkeep : ∀ v : World α, v.gameRunning = w.gameRunning → v.gameOver = w.gameOver →
      (isIdle w → isIdle v ∨ isRunning v)
      ∧ (isRunning w → isRunning v ∨ isGameOver v ∨ isIdle v)
      ∧ (isGameOver w → isGameOver v ∨ isRunning v) := by
    intro v h1 h2
    exact ⟨fun hi => Or.inl ⟨h1.trans hi.1, h2.trans hi.2⟩,
      fun hi => Or.inl ⟨h1.trans hi.1, h2.trans hi.2⟩,
      fun hi => Or.inl ⟨h1.trans hi.1, h2.trans hi.2⟩⟩
  cases e with
  | startGame h =>
    have hs : step m (Event.startGame h) w = startGame h w := rfl
    rw [hs]
    rcases hstart h with he | hr
    · rw [he]; exact hkeep w rfl rfl
    · exact ⟨fun _ => Or.inr hr, fun _ => Or.inl hr, fun _ => Or.inr hr⟩
  | update h =>
    have hs : step m (Event.update h) w = update m h w := rfl
    rw [hs]
    have hu := hupd h
    refine ⟨fun hi => Or.inl (hu.1 hi), fun hr => ?_, fun hg => Or.inl (hu.2.1 hg)⟩
    rcases hu.2.2 hr with h1 | h1
    · exact Or.inl h1
    · exact Or.inr (Or.inl h1)
  | showCharacterSelectScreen =>
    have hs : step m Event.showCharacterSelectScreen w = showCharacterSelectScreen w := rfl
    rw [hs]
    exact ⟨fun hi => Or.inl (hshow.1 hi), fun hr => Or.inr (Or.inr (hshow.2.2 hr)),
      fun hg => Or.inl (hshow.2.1 hg)⟩
  | drawGame => exact hkeep _ rfl rfl
  | selectCharacter c => exact hkeep _ rfl rfl
  | characterImageOnload iw ih =>
    refine hkeep _ ?_ ?_
    · show (characterImageOnload iw ih w).gameRunning = w.gameRunning
      unfold characterImageOnload; split_ifs <;> rfl
    · show (characterImageOnload iw ih w).gameOver = w.gameOver
      unfold characterImageOnload; split_ifs <;> rfl
  | setMovement l r => exact hkeep _ rfl rfl
  | subscriptionSupernova rx ry rn =>
    refine hkeep _ ?_ ?_
    · show (subscriptionSupernova rx ry rn w).gameRunning = w.gameRunning
      unfold subscriptionSupernova; split_ifs <;> rfl
    · show (subscriptionSupernova rx ry rn w).gameOver = w.gameOver
      unfold subscriptionSupernova; split_ifs <;> rfl
  | setRecording b => exact hkeep _ rfl rfl

theorem C11_transitions_witness :
    isRunning (roundStart : World ℝ) ∧ isIdle (showCharacterSelectScreen (roundStart : World ℝ)) :=
  have hr : isRunning (roundStart : World ℝ) := by
    simp [isRunning, roundStart, startGame, selectCharacter, initialWorld, stopRecording, zeroHost]
  ⟨hr, (C11_transitions ⟨Real.sqrt, fun y x => Complex.arg ⟨x, y⟩, Real.cos, Real.sin⟩
    (roundStart : World ℝ)).2.2.1.2.2 hr⟩

/-- C12: whatever the player's position and the two movement flags are before it, a
running tick leaves the player's `x` in `[0, CANVAS_WIDTH - width]` (for a width of at
most `CANVAS_WIDTH`), which is `[0, 590]` for the width 50; and a player of width 50
standing in `[0, 590]` stays there under every sequence of inputs, ticks and other events
that do not rewrite the width. -/
theorem C12_player_x_in_field (m : JSMath α) (h : Host α) (w v : World α)
    (es : List (Event α))
    (hrun : w.gameRunning = true) (hwidth : w.player.width ≤ CANVAS_WIDTH)
    (hes : ∀ e ∈ es, e.isImageOnload = false) (hv : playerInField v) :
    (0 ≤ (update m h w).player.x ∧ (update m h w).player.x ≤ CANVAS_WIDTH - w.player.width)
    ∧ (w.player.width = PLAYER_WIDTH →
        0 ≤ (update m h w).player.x ∧ (update m h w).player.x ≤ 590)
    ∧ ((run m es v).player.width = 50
      ∧ 0 ≤ (run m es v).player.x ∧ (run m es v).player.x ≤ 590) := by
  have hb := movePlayer_x_bounds w.player hwidth
  rw [← update_running_player_x m h w hrun] at hb
  refine ⟨hb, ?_, ?_⟩
  · intro h50
    refine ⟨hb.1, ?_⟩
    have := hb.2
    rw [h50] at this
    simp only [PLAYER_WIDTH, CANVAS_WIDTH] at this
    linarith
  · have hr := run_playerInField m es v hes hv
    unfold playerInField at hr
    simp only [PLAYER_WIDTH, CANVAS_WIDTH] at hr
    refine ⟨hr.1, hr.2.1, ?_⟩
    linarith [hr.2.2]

theorem C12_player_x_in_field_witness :
    (0 : ℝ) ≤ (update ⟨Real.sqrt, fun y x => Complex.arg ⟨x, y⟩, Real.cos, Real.sin⟩ zeroHost
        (setMovement true true (roundStart : World ℝ))).player.x
    ∧ (update ⟨Real.sqrt, fun y x => Complex.arg ⟨x, y⟩, Real.cos, Real.sin⟩ zeroHost
        (setMovement true true (roundStart : World ℝ))).player.x ≤ 590
    ∧ (run ⟨Real.sqrt, fun y x => Complex.arg ⟨x, y⟩, Real.cos, Real.sin⟩
        [Event.setMovement true false, Event.update zeroHost, Event.update zeroHost]
        (roundStart : World ℝ)).player.x ≤ 590 :=
  have hw := C12_player_x_in_field
    ⟨Real.sqrt, fun y x => Complex.arg ⟨x, y⟩, Real.cos, Real.sin⟩ zeroHost
    (setMovement true true (roundStart : World ℝ)) (roundStart : World ℝ)
    [Event.setMovement true false, Event.update zeroHost, Event.update zeroHost]
    (by simp [setMovement, roundStart, startGame, selectCharacter, initialWorld])
    (by
      simp [setMovement, roundStart, startGame, selectCharacter, initialWorld, stopRecording,
        PLAYER_WIDTH, CANVAS_WIDTH]
      norm_num)
    (by simp [Event.isImageOnload])
    (by
      simp [playerInField, roundStart, startGame, selectCharacter, initialWorld, stopRecording,
        PLAYER_WIDTH, CANVAS_WIDTH]
      norm_num)
  ⟨hw.1.1,
   (hw.2.1 (by simp [setMovement, roundStart, startGame, selectCharacter, initialWorld,
      stopRecording])).2,
   hw.2.2.2.2⟩

/-- C13: in a running tick with the player's `x` inside `[0, CANVAS_WIDTH - width]` (and a
speed that is not negative): with both movement flags set the two moves cancel and `x` is
unchanged; with only the left flag set `x` becomes `max 0 (x - speed)`; with only the
right flag set it becomes `min (CANVAS_WIDTH - width) (x + speed)`. -/
theorem C13_player_moves (m : JSMath α) (h : Host α) (w : World α)
    (hrun : w.gameRunning = true)
    (hx0 : 0 ≤ w.player.x) (hx1 : w.player.x ≤ CANVAS_WIDTH - w.player.width)
    (hspeed : 0 ≤ w.player.speed) :
    (w.player.isMovingLeft = true → w.player.isMovingRight = true →
      (update m h w).player.x = w.player.x - w.player.speed + w.player.speed
      ∧ (update m h w).player.x = w.player.x)
    ∧ (w.player.isMovingLeft = true → w.player.isMovingRight = false →
      (update m h w).player.x = max 0 (w.player.x - w.player.speed))
    ∧ (w.player.isMovingLeft = false → w.player.isMovingRight = true →
      (update m h w).player.x = min (CANVAS_WIDTH - w.player.width) (w.player.x + w.player.speed))
    ∧ (w.player.isMovingLeft = false → w.player.isMovingRight = false →
      (update m h w).player.x = w.player.x) := by
  rw [update_running_player_x m h w hrun]
  refine ⟨?_, ?_, ?_, ?_⟩
  · intro hl hr
    have hc : w.player.x - w.player.speed + w.player.speed = w.player.x := by ring
    have h1 : ¬ (w.player.x - w.player.speed + w.player.speed < 0) := by
      rw [hc]; exact not_lt.mpr hx0
    have h2 : ¬ (w.player.x - w.player.speed + w.player.speed + w.player.width
        > CANVAS_WIDTH) := by
      rw [hc]; linarith
    simp only [movePlayer, hl, hr, if_true, if_neg h1]
    rw [if_neg h2]
    exact ⟨rfl, hc⟩
  · intro hl hr
    simp only [movePlayer, hl, hr, if_true, Bool.false_eq_true, if_false]
    by_cases hn : w.player.x - w.player.speed < 0
    · simp only [if_pos hn]
      rw [if_neg (by linarith), max_eq_left (le_of_lt hn)]
    · simp only [if_neg hn]
      rw [if_neg (by linarith), max_eq_right (not_lt.mp hn)]
  · intro hl hr
    have h1 : ¬ (w.player.x + w.player.speed < 0) := by linarith
    simp only [movePlayer, hl, hr, if_true, Bool.false_eq_true, if_false, if_neg h1]
    by_cases hn : w.player.x + w.player.speed + w.player.width > CANVAS_WIDTH
    · rw [if_pos hn, min_eq_left (by linarith)]
    · rw [if_neg hn, min_eq_right (by linarith)]
  · intro hl hr
    have h1 : ¬ (w.player.x < 0) := not_lt.mpr hx0
    simp only [movePlayer, hl, hr, Bool.false_eq_true, if_false, if_neg h1]
    rw [if_neg (by linarith)]

theorem C13_player_moves_witness :
    (update ⟨Real.sqrt, fun y x => Complex.arg ⟨x, y⟩, Real.cos, Real.sin⟩ zeroHost
        (setMovement true true (roundStart : World ℝ))).player.x
      = (setMovement true true (roundStart : World ℝ)).player.x
    ∧ (update ⟨Real.sqrt, fun y x => Complex.arg ⟨x, y⟩, Real.cos, Real.sin⟩ zeroHost
        (setMovement true false (roundStart : World ℝ))).player.x
      = max 0 ((setMovement true false (roundStart : World ℝ)).player.x
          - (setMovement true false (roundStart : World ℝ)).player.speed) :=
  have hb : ∀ l r : Bool, (setMovement l r (roundStart : World ℝ)).gameRunning = true
      ∧ 0 ≤ (setMovement l r (roundStart : World ℝ)).player.x
      ∧ (setMovement l r (roundStart : World ℝ)).player.x
          ≤ CANVAS_WIDTH - (setMovement l r (roundStart : World ℝ)).player.width
      ∧ 0 ≤ (setMovement l r (roundStart : World ℝ)).player.speed := fun l r => by
    simp [setMovement, roundStart, startGame, selectCharacter, initialWorld, stopRecording,
      PLAYER_WIDTH, CANVAS_WIDTH, PLAYER_SPEED]
    norm_num
  ⟨((C13_player_moves ⟨Real.sqrt, fun y x => Complex.arg ⟨x, y⟩, Real.cos, Real.sin⟩ zeroHost
      (setMovement true true (roundStart : World ℝ))
      (hb true true).1 (hb true true).2.1 (hb true true).2.2.1 (hb true true).2.2.2).1
      rfl rfl).2,
   (C13_player_moves ⟨Real.sqrt, fun y x => Complex.arg ⟨x, y⟩, Real.cos, Real.sin⟩ zeroHost
      (setMovement true false (roundStart : World ℝ))
      (hb true false).1 (hb true false).2.1 (hb true false).2.2.1 (hb true false).2.2.2).2.1
      rfl rfl⟩

/-- C14: `updateParticles` pushes at most one particle per call, and only when the game
is running and the list holds fewer than `PARTICLE_COUNT = 100` particles; its loop never
adds one. So a list of at most 100 particles has at most 100 after the call, and no
state reached from the initial one holds more than 100 particles. -/
theorem C14_particle_cap (m : JSMath α) (h : Host α) (w : World α) (es : List (Event α)) :
    ((updateParticles m h w).particles =
        particleLoop (w.particles ++ spawned h w).length (w.particles ++ spawned h w)
      ∧ (spawned h w).length ≤ 1
      ∧ (¬ (w.gameRunning = true ∧ w.particles.length < PARTICLE_COUNT) → spawned h w = []))
    ∧ (updateParticles m h w).particles.length ≤ w.particles.length + 1
    ∧ (¬ (w.gameRunning = true ∧ w.particles.length < PARTICLE_COUNT) →
        (updateParticles m h w).particles.length ≤ w.particles.length)
    ∧ (w.particles.length ≤ PARTICLE_COUNT →
        (updateParticles m h w).particles.length ≤ PARTICLE_COUNT)
    ∧ PARTICLE_COUNT = 100
    ∧ (run m es initialWorld).particles.length ≤ 100 := by
  have hl := particleLoop_length_le (w.particles ++ spawned h w)
  rw [← updateParticles_particles m h w, List.length_append] at hl
  have hnone : ¬ (w.gameRunning = true ∧ w.particles.length < PARTICLE_COUNT) →
      spawned h w = [] := by
    intro hn
    unfold spawned
    rw [if_neg (fun hc => hn ⟨hc.2, hc.1⟩)]
  refine ⟨⟨updateParticles_particles m h w, spawned_length_le h w, hnone⟩, ?_, ?_, ?_, rfl, ?_⟩
  · have := spawned_length_le h w
    omega
  · intro hn
    have hs : spawned h w = [] := by
      unfold spawned
      rw [if_neg (fun hc => hn ⟨hc.2, hc.1⟩)]
    rw [hs] at hl
    simpa using hl
  · intro hw
    by_cases hc : w.particles.length < PARTICLE_COUNT ∧ w.gameRunning = true
    · have := spawned_length_le h w
      have := hc.1
      omega
    · have hs : spawned h w = [] := by
        unfold spawned
        rw [if_neg hc]
      rw [hs] at hl
      have : (updateParticles m h w).particles.length ≤ w.particles.length := by simpa using hl
      omega
  · exact run_particles_le m es initialWorld (Nat.zero_le _)

theorem C14_particle_cap_witness :
    (roundStart : World ℝ).particles.length ≤ PARTICLE_COUNT
    ∧ (updateParticles ⟨Real.sqrt, fun y x => Complex.arg ⟨x, y⟩, Real.cos, Real.sin⟩ zeroHost
        (roundStart : World ℝ)).particles.length ≤ PARTICLE_COUNT :=
  have h0 : (roundStart : World ℝ).particles.length ≤ PARTICLE_COUNT := by
    simp [roundStart, startGame, selectCharacter, initialWorld, stopRecording, zeroHost]
  ⟨h0, (C14_particle_cap ⟨Real.sqrt, fun y x => Complex.arg ⟨x, y⟩, Real.cos, Real.sin⟩ zeroHost
    (roundStart : World ℝ) []).2.2.2.1 h0⟩

/-- C15: a particle as `createParticle` makes it (alpha 1, lifetime equal to the maximal
lifetime, a whole number `L ≥ 1`) has, after each run of the loop of `updateParticles`,
alpha equal to lifetime over maximal lifetime, that is `(L - k) / L` after `k` runs; its
alpha values never increase; and it is in the list after `k` runs exactly when `k < L`,
whatever stands before and behind it: it is removed in the run in which its lifetime and
its alpha reach 0, not earlier, and it never survives a run with alpha at most 0. A
particle made from a lifetime draw that is not negative is of this kind. -/
theorem C15_particle_life (p : Particle α) (L : Nat) (h : Host α) (player : Player α)
    (hL : 1 ≤ L) (hlife : p.lifetime = L) (hmax : p.maxLifetime = L) (halpha : p.alpha = 1)
    (hdraw : 0 ≤ h.rLifetime) :
    (∀ k : Nat, (particleStep^[k] p).alpha
        = (particleStep^[k] p).lifetime / (particleStep^[k] p).maxLifetime
      ∧ (particleStep^[k] p).alpha = ((L : α) - k) / L)
    ∧ (∀ k : Nat, (particleStep^[k + 1] p).alpha ≤ (particleStep^[k] p).alpha)
    ∧ (∀ k : Nat, k < L → 0 < (particleStep^[k] p).alpha)
    ∧ ((particleStep^[L] p).alpha = 0 ∧ (particleStep^[L] p).lifetime = 0)
    ∧ (∀ (k : Nat) (pre post : List (Particle α)),
        particlesAfter k (pre ++ p :: post) =
          particlesAfter k pre ++ (if k < L then [particleStep^[k] p] else [])
            ++ particlesAfter k post)
    ∧ (∀ (m : JSMath α) (w : World α),
        (updateParticles m h w).particles = particlesAfter 1 (w.particles ++ spawned h w))
    ∧ (∃ n : Nat, 1 ≤ n ∧ (createParticle h player).lifetime = n
        ∧ (createParticle h player).maxLifetime = n ∧ (createParticle h player).alpha = 1) := by
  have hLpos : (0 : α) < L := by exact_mod_cast hL
  have hfrac : ∀ k : Nat, (particleStep^[k] p).alpha
        = (particleStep^[k] p).lifetime / (particleStep^[k] p).maxLifetime
      ∧ (particleStep^[k] p).alpha = ((L : α) - k) / L := by
    intro k
    have hi := iterate_particleStep p k
    cases k with
    | zero =>
      simp only [Function.iterate_zero, id_eq, hlife, hmax, halpha, Nat.cast_zero, sub_zero]
      rw [div_self (ne_of_gt hLpos)]
      exact ⟨rfl, rfl⟩
    | succ k =>
      have ha := iterate_particleStep_alpha p k
      refine ⟨ha, ?_⟩
      rw [ha, hi.1, hi.2, hlife, hmax]
  refine ⟨hfrac, ?_, ?_, ?_, ?_, ?_, ?_⟩
  · intro k
    rw [(hfrac (k + 1)).2, (hfrac k).2]
    apply div_le_div_of_nonneg_right _ (le_of_lt hLpos)
    push_cast
    linarith
  · intro k hk
    rw [(hfrac k).2]
    apply div_pos _ hLpos
    have : (k : α) < L := by exact_mod_cast hk
    linarith
  · constructor
    · rw [(hfrac L).2]; simp
    · rw [(iterate_particleStep p L).1, hlife]; simp
  · intro k pre post
    have hsplit : pre ++ p :: post = pre ++ ([p] ++ post) := rfl
    rw [hsplit, particlesAfter_append, particlesAfter_append,
      particlesAfter_single k L p hL hlife, List.append_assoc]
  · intro m w
    rw [updateParticles_particles]
    rfl
  · have hfl : 0 ≤ ⌊h.rLifetime * (PARTICLE_LIFETIME_MAX - PARTICLE_LIFETIME_MIN)⌋ := by
      rw [Int.floor_nonneg]
      apply mul_nonneg hdraw
      simp only [PARTICLE_LIFETIME_MAX, PARTICLE_LIFETIME_MIN]
      norm_num
    refine ⟨⌊h.rLifetime * (PARTICLE_LIFETIME_MAX - PARTICLE_LIFETIME_MIN)⌋.toNat + 15,
      by omega, ?_, ?_, rfl⟩
    · show ((⌊h.rLifetime * (PARTICLE_LIFETIME_MAX - PARTICLE_LIFETIME_MIN)⌋ : Int) : α)
          + PARTICLE_LIFETIME_MIN = _
      have hc : ((⌊h.rLifetime * (PARTICLE_LIFETIME_MAX - PARTICLE_LIFETIME_MIN)⌋.toNat : Nat) : α)
          = ((⌊h.rLifetime * (PARTICLE_LIFETIME_MAX - PARTICLE_LIFETIME_MIN)⌋ : Int) : α) := by
        have := Int.toNat_of_nonneg hfl
        exact_mod_cast congrArg (fun z : Int => (z : α)) this
      push_cast
      rw [hc]
      simp only [PARTICLE_LIFETIME_MIN]
    · show ((⌊h.rLifetime * (PARTICLE_LIFETIME_MAX - PARTICLE_LIFETIME_MIN)⌋ : Int) : α)
          + PARTICLE_LIFETIME_MIN = _
      have hc : ((⌊h.rLifetime * (PARTICLE_LIFETIME_MAX - PARTICLE_LIFETIME_MIN)⌋.toNat : Nat) : α)
          = ((⌊h.rLifetime * (PARTICLE_LIFETIME_MAX - PARTICLE_LIFETIME_MIN)⌋ : Int) : α) := by
        have := Int.toNat_of_nonneg hfl
        exact_mod_cast congrArg (fun z : Int => (z : α)) this
      push_cast
      rw [hc]
      simp only [PARTICLE_LIFETIME_MIN]

theorem C15_particle_life_witness :
    (createParticle zeroHost (roundStart : World ℝ).player).lifetime = ((15 : Nat) : ℝ)
    ∧ (particleStep^[15] (createParticle zeroHost (roundStart : World ℝ).player)).alpha = 0
    ∧ particlesAfter 15 ([] ++ createParticle zeroHost (roundStart : World ℝ).player :: [])
      = particlesAfter 15 [] ++ [] ++ particlesAfter 15 [] :=
  have hl : (createParticle zeroHost (roundStart : World ℝ).player).lifetime
      = ((15 : Nat) : ℝ) := by
    simp [createParticle, zeroHost, PARTICLE_LIFETIME_MIN]
  have hw := C15_particle_life (createParticle zeroHost (roundStart : World ℝ).player) 15
    zeroHost (roundStart : World ℝ).player (by decide) hl hl rfl (le_refl _)
  ⟨hl, hw.2.2.2.1.1, hw.2.2.2.2.1 15 [] []⟩

/-- C16: in a running tick that does not end the round, a player hit that brings the
score to a multiple of 10 triggers the supernova effect with default parameters at the
position of the ball: after the tick the effect is active with `x = ball.x`,
`y = ball.y`, radius 10, alpha 0.8 and maximal radius `300 + 200 * random` in
`[300, 500)`; a hit that brings the score to another value leaves the effect as it was.
The player stands at the start height with the start body height, the ball has radius
18, the host square root is the square root, and the random draw lies in `[0, 1)`. -/
theorem C16_milestone_supernova (m : JSMath α) (h : Host α) (w v : World α)
    (hrun : w.gameRunning = true)
    (hhit : playerHit m (movePlayer w.player) (wallCollision (integrateBall w.ball)) = true)
    (hscore : (w.score + 1) % 10 = 0)
    (hclear : ¬ (w.ball.y + (w.ball.velocity.y + GRAVITY) + w.ball.radius
      > CANVAS_HEIGHT - GROUND_HEIGHT))
    (hy : w.player.y = CANVAS_HEIGHT - PLAYER_HEIGHT - GROUND_HEIGHT)
    (hh : w.player.height = PLAYER_HEIGHT) (hr : w.ball.radius = BALL_RADIUS)
    (hsqrt : ∀ a : α, 0 ≤ a → 0 ≤ m.sqrt a ∧ m.sqrt a * m.sqrt a = a)
    (hnova : 0 ≤ h.rNova ∧ h.rNova < 1) :
    ((update m h w).score = w.score + 1 ∧ (update m h w).score % 10 = 0)
    ∧ (update m h w).supernovaEffect.active = true
    ∧ (update m h w).supernovaEffect.x = (update m h w).ball.x
    ∧ (update m h w).supernovaEffect.y = (update m h w).ball.y
    ∧ (update m h w).supernovaEffect.radius = 10
    ∧ (update m h w).supernovaEffect.alpha = 0.8
    ∧ (update m h w).supernovaEffect.maxRadius = 300 + h.rNova * 200
    ∧ (300 ≤ (update m h w).supernovaEffect.maxRadius
      ∧ (update m h w).supernovaEffect.maxRadius < 500)
    ∧ (v.gameRunning = true →
        playerHit m (movePlayer v.player) (wallCollision (integrateBall v.ball)) = true →
        (v.score + 1) % 10 ≠ 0 →
        ¬ (v.ball.y + (v.ball.velocity.y + GRAVITY) + v.ball.radius
          > CANVAS_HEIGHT - GROUND_HEIGHT) →
        (update m h v).supernovaEffect = v.supernovaEffect) := by
  have hs := update_running_score m h w hrun
  rw [if_pos hhit] at hs
  have hn := update_running_supernova m h w hrun hclear
  rw [if_pos hhit, if_pos hscore] at hn
  have hb := update_running_ball m h w hrun
  rw [if_pos hhit] at hb
  have hbx : (update m h w).ball.x = (wallCollision (integrateBall w.ball)).x := by rw [hb]
  have hby : (update m h w).ball.y = (wallCollision (integrateBall w.ball)).y := by rw [hb]
  have hr1 : (integrateBall w.ball).radius = BALL_RADIUS := hr
  have hxne : (wallCollision (integrateBall w.ball)).x ≠ 0 := by
    have := (wallCollision_x_bounds (integrateBall w.ball) hr1).1
    simp only [BALL_RADIUS] at this
    intro h0
    rw [h0] at this
    norm_num at this
  have hyne : (wallCollision (integrateBall w.ball)).y ≠ 0 :=
    playerHit_ball_y_ne_zero m (movePlayer w.player) (wallCollision (integrateBall w.ball))
      hsqrt hy hh (by rw [wallCollision_radius]; exact hr1) hhit
  have hmax : (update m h w).supernovaEffect.maxRadius = 300 + h.rNova * 200 := by
    rw [hn]; rfl
  refine ⟨⟨hs, by rw [hs]; exact hscore⟩, by rw [hn]; rfl, ?_, ?_, by rw [hn]; rfl, ?_, hmax,
    ?_, ?_⟩
  · rw [hn, hbx]
    exact jsOr_some_of_ne_zero _ _ hxne
  · rw [hn, hby]
    exact jsOr_some_of_ne_zero _ _ hyne
  · rw [hn]; rfl
  · rw [hmax]
    constructor <;> linarith [hnova.1, hnova.2]
  · intro h1 h2 h3 h4
    rw [update_running_supernova m h v h1 h4, if_pos h2, if_neg h3]

theorem C16_milestone_supernova_witness :
    (update ⟨Real.sqrt, fun y x => Complex.arg ⟨x, y⟩, Real.cos, Real.sin⟩ zeroHost
        (withScore 9 0 (withBall 320 425 0 0.85) : World ℝ)).score = 10
    ∧ (update ⟨Real.sqrt, fun y x => Complex.arg ⟨x, y⟩, Real.cos, Real.sin⟩ zeroHost
        (withScore 9 0 (withBall 320 425 0 0.85) : World ℝ)).supernovaEffect.active = true
    ∧ (update ⟨Real.sqrt, fun y x => Complex.arg ⟨x, y⟩, Real.cos, Real.sin⟩ zeroHost
        (withScore 9 0 (withBall 320 425 0 0.85) : World ℝ)).supernovaEffect.y
      = (update ⟨Real.sqrt, fun y x => Complex.arg ⟨x, y⟩, Real.cos, Real.sin⟩ zeroHost
        (withScore 9 0 (withBall 320 425 0 0.85) : World ℝ)).ball.y :=
  have hw := C16_milestone_supernova
    ⟨Real.sqrt, fun y x => Complex.arg ⟨x, y⟩, Real.cos, Real.sin⟩ zeroHost
    (withScore 9 0 (withBall 320 425 0 0.85) : World ℝ) roundStart
    (by simp [withScore, withBall, roundStart, startGame, selectCharacter, initialWorld])
    (by
      simp [withScore, withBall, roundStart, startGame, selectCharacter, initialWorld,
        stopRecording, playerHit, hitDistance, movePlayer, wallCollision, integrateBall, GRAVITY,
        CANVAS_WIDTH, CANVAS_HEIGHT, PLAYER_WIDTH, PLAYER_HEIGHT, GROUND_HEIGHT, BALL_RADIUS]
      norm_num)
    (by simp [withScore])
    (by
      simp [withScore, withBall, roundStart, startGame, selectCharacter, initialWorld,
        stopRecording, zeroHost, GRAVITY, CANVAS_HEIGHT, GROUND_HEIGHT, BALL_RADIUS]
      norm_num)
    (by simp [withScore, withBall, roundStart, startGame, selectCharacter, initialWorld,
          stopRecording, zeroHost])
    (by simp [withScore, withBall, roundStart, startGame, selectCharacter, initialWorld,
          stopRecording, zeroHost])
    (by simp [withScore, withBall, roundStart, startGame, selectCharacter, initialWorld,
          stopRecording, zeroHost])
    (fun a ha => ⟨Real.sqrt_nonneg a, Real.mul_self_sqrt ha⟩)
    (by simp [zeroHost])
  ⟨hw.1.1, hw.2.1, hw.2.2.2.1⟩

/-- C17 (the code at the failing inputs): a supernova triggered at `x = 0` is placed at
`x = CANVAS_WIDTH / 2 = 320`, one triggered at `y = 0` at `y = 240`, a given alpha of 0
is replaced by 0.8 and a given maximal radius of 0 by the random default, because
`triggerSupernova` takes the default for every argument that is zero, not only for an
omitted one. -/
theorem C17_zero_is_taken_as_omitted :
    (triggerSupernova (0.5 : ℚ) 0 100 none none).x = 320
    ∧ (triggerSupernova (0.5 : ℚ) 0 100 none none).x ≠ 0
    ∧ (triggerSupernova (0.5 : ℚ) 100 0 none none).y = 240
    ∧ (triggerSupernova (0.5 : ℚ) 100 100 (some 200) (some 0)).alpha = 0.8
    ∧ (triggerSupernova (0.5 : ℚ) 100 100 (some 0) (some 0.5)).maxRadius = 400 := by
  simp [triggerSupernova, jsOr, CANVAS_WIDTH, CANVAS_HEIGHT]
  norm_num

omit [FloorRing α] in
/-- C18: one step of the supernova effect (the state change of one `drawSupernova` call)
adds 2 to the radius and takes 0.01 from alpha, keeps position and maximal radius, and
clears `active` exactly when the new alpha is at most 0 or the new radius has reached the
maximal radius, leaving it as it was otherwise; it never sets `active`, so an inactive
effect stays inactive under any number of steps. -/
theorem C18_supernova_step (e : Supernova α) (n : Nat) :
    (drawSupernova e).radius = e.radius + 2
    ∧ (drawSupernova e).alpha = e.alpha - 0.01
    ∧ (drawSupernova e).x = e.x ∧ (drawSupernova e).y = e.y
    ∧ (drawSupernova e).maxRadius = e.maxRadius
    ∧ ((drawSupernova e).alpha ≤ 0 ∨ (drawSupernova e).radius ≥ e.maxRadius →
        (drawSupernova e).active = false)
    ∧ (¬ ((drawSupernova e).alpha ≤ 0 ∨ (drawSupernova e).radius ≥ e.maxRadius) →
        (drawSupernova e).active = e.active)
    ∧ ((drawSupernova e).active = true → e.active = true)
    ∧ (e.active = false → (drawSupernova^[n] e).active = false) := by
  have hstep : ∀ d : Supernova α, (drawSupernova d).active = true → d.active = true := by
    intro d hd
    unfold drawSupernova at hd
    by_cases hc : d.alpha - 0.01 ≤ 0 ∨ d.radius + 2 ≥ d.maxRadius
    · simp only [hc, if_true] at hd
      exact absurd hd Bool.false_ne_true
    · simp only [hc, if_false] at hd
      exact hd
  refine ⟨rfl, rfl, rfl, rfl, rfl, ?_, ?_, hstep e, ?_⟩
  · intro hc
    have hc2 : e.alpha - 0.01 ≤ 0 ∨ e.radius + 2 ≥ e.maxRadius := hc
    unfold drawSupernova
    simp only [hc2, if_true]
  · intro hc
    have hc2 : ¬ (e.alpha - 0.01 ≤ 0 ∨ e.radius + 2 ≥ e.maxRadius) := hc
    unfold drawSupernova
    simp only [hc2, if_false]
  · intro h0
    induction n with
    | zero => exact h0
    | succ k ih =>
      rw [Function.iterate_succ_apply']
      cases hk : (drawSupernova (drawSupernova^[k] e)).active with
      | false => rfl
      | true =>
        have := hstep _ hk
        rw [ih] at this
        exact absurd this Bool.false_ne_true

theorem C18_supernova_step_witness :
    (drawSupernova
        (triggerSupernova (0 : ℚ) 320 240 (some 12) (some 0.9))).active = false
    ∧ (drawSupernova
        (triggerSupernova (0 : ℚ) 320 240 (some 500) (some 0.9))).active = true
    ∧ (drawSupernova^[7] (initialWorld : World ℚ).supernovaEffect).active = false :=
  ⟨(C18_supernova_step (triggerSupernova (0 : ℚ) 320 240 (some 12) (some 0.9)) 0).2.2.2.2.2.1
      (Or.inr (by simp [drawSupernova, triggerSupernova, jsOr]; norm_num)),
   ((C18_supernova_step (triggerSupernova (0 : ℚ) 320 240 (some 500) (some 0.9)) 0).2.2.2.2.2.2.1
      (by simp [drawSupernova, triggerSupernova, jsOr]; norm_num)).trans rfl,
   (C18_supernova_step (initialWorld : World ℚ).supernovaEffect 7).2.2.2.2.2.2.2.2 rfl⟩

/-- C19 (counterexample): with a current time before the start of the animation the
progress is negative, so it does not lie in `[0, 1]`. -/
theorem C19_progress_below_zero :
    animationProgress (0 : ℚ) 3000 = -1 ∧ ¬ (0 ≤ animationProgress (0 : ℚ) 3000) := by
  have h1 : animationProgress (0 : ℚ) 3000 = -1 := by
    simp only [animationProgress, GAME_OVER_ANIMATION_DURATION]
    norm_num
  exact ⟨h1, by rw [h1]; norm_num⟩

omit [FloorRing α] in
/-- C19 (amended): the progress computed by `drawGameOverScreen` is the elapsed time over
`GAME_OVER_ANIMATION_DURATION = 3000`, cut off at 1 only: it is at most 1 for every start
and current time, it lies in `[0, 1]` whenever the current time is not before the start,
and it equals elapsed over 3000 whenever that quotient is at most 1. -/
theorem C19_progress (currentTime start : α) :
    animationProgress currentTime start = min 1 ((currentTime - start) / 3000)
    ∧ animationProgress currentTime start ≤ 1
    ∧ (start ≤ currentTime →
        0 ≤ animationProgress currentTime start ∧ animationProgress currentTime start ≤ 1)
    ∧ ((currentTime - start) / 3000 ≤ 1 →
        animationProgress currentTime start = (currentTime - start) / 3000)
    ∧ (currentTime < start → animationProgress currentTime start < 0) := by
  have hdef : animationProgress currentTime start = min 1 ((currentTime - start) / 3000) := by
    simp only [animationProgress, GAME_OVER_ANIMATION_DURATION]
  refine ⟨hdef, ?_, ?_, ?_, ?_⟩
  · rw [hdef]; exact min_le_left _ _
  · intro hle
    rw [hdef]
    refine ⟨le_min (by norm_num) ?_, min_le_left _ _⟩
    apply div_nonneg _ (by norm_num)
    linarith
  · intro hq
    rw [hdef, min_eq_right hq]
  · intro hlt
    rw [hdef]
    refine lt_of_le_of_lt (min_le_right _ _) ?_
    apply div_neg_of_neg_of_pos _ (by norm_num)
    linarith

theorem C19_progress_witness :
    (0 : ℚ) ≤ animationProgress 1500 0 ∧ animationProgress (1500 : ℚ) 0 ≤ 1
    ∧ animationProgress (1500 : ℚ) 0 = (1500 - 0) / 3000 :=
  ⟨((C19_progress (1500 : ℚ) 0).2.2.1 (by norm_num)).1,
   ((C19_progress (1500 : ℚ) 0).2.2.1 (by norm_num)).2,
   (C19_progress (1500 : ℚ) 0).2.2.2.1 (by norm_num)⟩

/-- C20 (the code at the failing input): in a GameOver state whose ball is below the
ground line, `update` returns before the ball code: the ball is left where it is, with
its velocity, instead of being put on the ground line with the vertical velocity
reflected and both components damped. -/
theorem C20_no_decorative_bounce :
    isGameOver (gameOverSample : World ℝ)
    ∧ (gameOverSample : World ℝ).ball.y + (gameOverSample : World ℝ).ball.radius
        > CANVAS_HEIGHT - GROUND_HEIGHT
    ∧ (update ⟨Real.sqrt, fun y x => Complex.arg ⟨x, y⟩, Real.cos, Real.sin⟩ zeroHost
        (gameOverSample : World ℝ)).ball = (gameOverSample : World ℝ).ball
    ∧ (update ⟨Real.sqrt, fun y x => Complex.arg ⟨x, y⟩, Real.cos, Real.sin⟩ zeroHost
        (gameOverSample : World ℝ)).ball.y = 440
    ∧ CANVAS_HEIGHT - GROUND_HEIGHT - (gameOverSample : World ℝ).ball.radius = 438
    ∧ (update ⟨Real.sqrt, fun y x => Complex.arg ⟨x, y⟩, Real.cos, Real.sin⟩ zeroHost
        (gameOverSample : World ℝ)).ball.velocity.y = 2
    ∧ -BOUNCE_FACTOR * (gameOverSample : World ℝ).ball.velocity.y = -1.6
    ∧ (update ⟨Real.sqrt, fun y x => Complex.arg ⟨x, y⟩, Real.cos, Real.sin⟩ zeroHost
        (gameOverSample : World ℝ)).ball.velocity.x = 1.5
    ∧ BOUNCE_FACTOR * (gameOverSample : World ℝ).ball.velocity.x = 1.2 := by
  have hf := update_idle_fields
    ⟨Real.sqrt, fun y x => Complex.arg ⟨x, y⟩, Real.cos, Real.sin⟩ zeroHost
    (gameOverSample : World ℝ) rfl
  have hb := hf.2.2.2.2.2.2.1
  refine ⟨⟨rfl, rfl⟩, ?_, hb, by rw [hb]; rfl, ?_, by rw [hb]; rfl, ?_, by rw [hb]; rfl, ?_⟩
  · simp [gameOverSample, withBall, roundStart, startGame, selectCharacter, initialWorld,
      stopRecording, zeroHost, CANVAS_HEIGHT, GROUND_HEIGHT, BALL_RADIUS]
    norm_num
  · simp [gameOverSample, withBall, roundStart, startGame, selectCharacter, initialWorld,
      stopRecording, zeroHost, CANVAS_HEIGHT, GROUND_HEIGHT, BALL_RADIUS]
    norm_num
  · simp [gameOverSample, withBall, roundStart, startGame, selectCharacter, initialWorld,
      stopRecording, zeroHost, BOUNCE_FACTOR]
    norm_num
  · simp [gameOverSample, withBall, roundStart, startGame, selectCharacter, initialWorld,
      stopRecording, zeroHost, BOUNCE_FACTOR]
    norm_num

/-- C21 (the code at the failing input): `gameLoop` applied to an Idle state with one live
particle of lifetime 14 leaves the particle list as it is: the particle is not moved and
its lifetime stays 14. The update that the claim describes, and that the comments of
`gameLoop` and `update` announce for every state (game.js 749 and 770), gives lifetime 13,
and a call of `update` in the same state does give 13: `gameLoop` does not call `update`
in Idle. The call of `gameLoop` is the function applied to these values of the variables;
the browser itself schedules no frame in this state. -/
theorem C21_idle_particles_not_updated :
    isIdle (idleWithParticle ⟨Real.sqrt, fun y x => Complex.arg ⟨x, y⟩, Real.cos, Real.sin⟩
      : World ℝ)
    ∧ (idleWithParticle ⟨Real.sqrt, fun y x => Complex.arg ⟨x, y⟩, Real.cos, Real.sin⟩
        : World ℝ).particles.map (fun p => p.lifetime) = [14]
    ∧ (gameLoop ⟨Real.sqrt, fun y x => Complex.arg ⟨x, y⟩, Real.cos, Real.sin⟩ zeroHost
        (idleWithParticle ⟨Real.sqrt, fun y x => Complex.arg ⟨x, y⟩, Real.cos, Real.sin⟩
          : World ℝ)).particles
      = (idleWithParticle ⟨Real.sqrt, fun y x => Complex.arg ⟨x, y⟩, Real.cos, Real.sin⟩
          : World ℝ).particles
    ∧ (gameLoop ⟨Real.sqrt, fun y x => Complex.arg ⟨x, y⟩, Real.cos, Real.sin⟩ zeroHost
        (idleWithParticle ⟨Real.sqrt, fun y x => Complex.arg ⟨x, y⟩, Real.cos, Real.sin⟩
          : World ℝ)).particles.map (fun p => p.lifetime) = [14]
    ∧ (simpleParticleUpdate
        (idleWithParticle ⟨Real.sqrt, fun y x => Complex.arg ⟨x, y⟩, Real.cos, Real.sin⟩
          : World ℝ).particles).map (fun p => p.lifetime) = [13]
    ∧ (update ⟨Real.sqrt, fun y x => Complex.arg ⟨x, y⟩, Real.cos, Real.sin⟩ zeroHost
        (idleWithParticle ⟨Real.sqrt, fun y x => Complex.arg ⟨x, y⟩, Real.cos, Real.sin⟩
          : World ℝ)).particles.map (fun p => p.lifetime) = [13] := by
  have hrun : (update ⟨Real.sqrt, fun y x => Complex.arg ⟨x, y⟩, Real.cos, Real.sin⟩ zeroHost
      (roundStart : World ℝ)).gameRunning = true := by
    refine (update_running_clear _ _ _ (startGame_flags zeroHost _ rfl rfl).1 ?_).1
    simp [roundStart, startGame, selectCharacter, initialWorld, stopRecording, zeroHost,
      GRAVITY, CANVAS_HEIGHT, GROUND_HEIGHT, BALL_RADIUS, BALL_VELOCITY_Y]
    norm_num
  have hover : (update ⟨Real.sqrt, fun y x => Complex.arg ⟨x, y⟩, Real.cos, Real.sin⟩ zeroHost
      (roundStart : World ℝ)).gameOver = false := by
    have := (update_running_clear
      ⟨Real.sqrt, fun y x => Complex.arg ⟨x, y⟩, Real.cos, Real.sin⟩ zeroHost
      (roundStart : World ℝ) (startGame_flags zeroHost _ rfl rfl).1 ?_).2.1
    · rw [this]; exact (startGame_flags zeroHost _ rfl rfl).2.1
    · simp [roundStart, startGame, selectCharacter, initialWorld, stopRecording, zeroHost,
        GRAVITY, CANVAS_HEIGHT, GROUND_HEIGHT, BALL_RADIUS, BALL_VELOCITY_Y]
      norm_num
  have hidle : isIdle (idleWithParticle
      ⟨Real.sqrt, fun y x => Complex.arg ⟨x, y⟩, Real.cos, Real.sin⟩ : World ℝ) := by
    unfold idleWithParticle showCharacterSelectScreen
    rw [if_pos hrun]
    exact ⟨rfl, hover⟩
  have hps : (idleWithParticle
      ⟨Real.sqrt, fun y x => Complex.arg ⟨x, y⟩, Real.cos, Real.sin⟩ : World ℝ).particles
      = simpleParticleUpdate [createParticle zeroHost
          (hoverUpdate ⟨Real.sqrt, fun y x => Complex.arg ⟨x, y⟩, Real.cos, Real.sin⟩ zeroHost
            (roundStart : World ℝ)).player] := by
    rw [← roundStart_update_particles]
    unfold idleWithParticle showCharacterSelectScreen
    rw [if_pos hrun]
  have hlife : (idleWithParticle
      ⟨Real.sqrt, fun y x => Complex.arg ⟨x, y⟩, Real.cos, Real.sin⟩
        : World ℝ).particles.map (fun p => p.lifetime) = [14] := by
    rw [hps]
    simp [simpleParticleUpdate, particleStep, createParticle, zeroHost, PARTICLE_LIFETIME_MIN]
    norm_num
  have hloop : (gameLoop ⟨Real.sqrt, fun y x => Complex.arg ⟨x, y⟩, Real.cos, Real.sin⟩ zeroHost
        (idleWithParticle ⟨Real.sqrt, fun y x => Complex.arg ⟨x, y⟩, Real.cos, Real.sin⟩
          : World ℝ)).particles
      = (idleWithParticle ⟨Real.sqrt, fun y x => Complex.arg ⟨x, y⟩, Real.cos, Real.sin⟩
          : World ℝ).particles := by
    rw [gameLoop_particles, if_neg]
    rw [hidle.1, hidle.2]
    simp
  have hsimple : (simpleParticleUpdate
        (idleWithParticle ⟨Real.sqrt, fun y x => Complex.arg ⟨x, y⟩, Real.cos, Real.sin⟩
          : World ℝ).particles).map (fun p => p.lifetime) = [13] := by
    rw [hps]
    simp [simpleParticleUpdate, particleStep, createParticle, zeroHost, PARTICLE_LIFETIME_MIN]
    norm_num
  have hsp : spawned zeroHost
      (hoverUpdate ⟨Real.sqrt, fun y x => Complex.arg ⟨x, y⟩, Real.cos, Real.sin⟩ zeroHost
        (idleWithParticle ⟨Real.sqrt, fun y x => Complex.arg ⟨x, y⟩, Real.cos, Real.sin⟩
          : World ℝ)) = [] := by
    unfold spawned
    rw [if_neg]
    intro hc
    have hr : (idleWithParticle
        ⟨Real.sqrt, fun y x => Complex.arg ⟨x, y⟩, Real.cos, Real.sin⟩
          : World ℝ).gameRunning = true := hc.2
    rw [hidle.1] at hr
    exact Bool.false_ne_true hr
  refine ⟨hidle, hlife, hloop, by rw [hloop]; exact hlife, hsimple, ?_⟩
  rw [update_particles_simple, hsp, List.append_nil]
  exact hsimple

/-- C22 (counterexample): from the start of a round with the left flag set, `update` moves
the player from 295 to 290, but the particle it spawns stands at `x = 320`, the centre of
the player before the move; with the particle update after the collision steps, as the
claim orders them, the particle would stand at 315. So `update` is not the composition in
the claimed order. -/
theorem C22_particle_anchor_is_before_move :
    (update ⟨Real.sqrt, fun y x => Complex.arg ⟨x, y⟩, Real.cos, Real.sin⟩ stillHost
        (setMovement true false (roundStart : World ℝ))).player.x = 290
    ∧ (update ⟨Real.sqrt, fun y x => Complex.arg ⟨x, y⟩, Real.cos, Real.sin⟩ stillHost
        (setMovement true false (roundStart : World ℝ))).particles.map (fun p => p.x) = [320]
    ∧ (runningTickParticlesLast ⟨Real.sqrt, fun y x => Complex.arg ⟨x, y⟩, Real.cos, Real.sin⟩
        stillHost (setMovement true false (roundStart : World ℝ))).particles.map (fun p => p.x)
      = [315]
    ∧ update ⟨Real.sqrt, fun y x => Complex.arg ⟨x, y⟩, Real.cos, Real.sin⟩ stillHost
        (setMovement true false (roundStart : World ℝ))
      ≠ runningTickParticlesLast ⟨Real.sqrt, fun y x => Complex.arg ⟨x, y⟩, Real.cos, Real.sin⟩
        stillHost (setMovement true false (roundStart : World ℝ)) := by
  have hrun : (setMovement true false (roundStart : World ℝ)).gameRunning = true :=
    (startGame_flags zeroHost _ rfl rfl).1
  have hpx : (update ⟨Real.sqrt, fun y x => Complex.arg ⟨x, y⟩, Real.cos, Real.sin⟩ stillHost
        (setMovement true false (roundStart : World ℝ))).player.x = 290 := by
    rw [update_running_player_x _ _ _ hrun]
    simp [movePlayer, setMovement, roundStart, startGame, selectCharacter, initialWorld,
      stopRecording, zeroHost, CANVAS_WIDTH, PLAYER_WIDTH, PLAYER_SPEED]
    norm_num
  have hp1 : (update ⟨Real.sqrt, fun y x => Complex.arg ⟨x, y⟩, Real.cos, Real.sin⟩ stillHost
        (setMovement true false (roundStart : World ℝ))).particles.map (fun p => p.x)
      = [320] := by
    rw [update_particles_simple]
    simp [simpleParticleUpdate, spawned, hoverUpdate, particleStep, createParticle, stillHost,
      zeroHost, setMovement, roundStart, startGame, selectCharacter, initialWorld,
      stopRecording, PARTICLE_COUNT, PARTICLE_LIFETIME_MIN, CANVAS_WIDTH, PLAYER_WIDTH]
    norm_num
  have hclear : ¬ ((playerCollision
      ⟨Real.sqrt, fun y x => Complex.arg ⟨x, y⟩, Real.cos, Real.sin⟩ stillHost
      (afterWalls (hoverUpdate ⟨Real.sqrt, fun y x => Complex.arg ⟨x, y⟩, Real.cos, Real.sin⟩
        stillHost (setMovement true false (roundStart : World ℝ))))).ball.y
      + (playerCollision
      ⟨Real.sqrt, fun y x => Complex.arg ⟨x, y⟩, Real.cos, Real.sin⟩ stillHost
      (afterWalls (hoverUpdate ⟨Real.sqrt, fun y x => Complex.arg ⟨x, y⟩, Real.cos, Real.sin⟩
        stillHost (setMovement true false (roundStart : World ℝ))))).ball.radius
      > CANVAS_HEIGHT - GROUND_HEIGHT) := by
    rw [playerCollision_ball_y, playerCollision_ball_radius]
    show ¬ ((wallCollision (integrateBall (roundStart : World ℝ).ball)).y
      + (wallCollision (integrateBall (roundStart : World ℝ).ball)).radius
      > CANVAS_HEIGHT - GROUND_HEIGHT)
    rw [wallCollision_y, wallCollision_radius]
    simp [integrateBall, roundStart, startGame, selectCharacter, initialWorld, stopRecording,
      zeroHost, GRAVITY, CANVAS_HEIGHT, GROUND_HEIGHT, BALL_RADIUS, BALL_VELOCITY_Y]
    norm_num
  have hp2 : (runningTickParticlesLast
      ⟨Real.sqrt, fun y x => Complex.arg ⟨x, y⟩, Real.cos, Real.sin⟩
        stillHost (setMovement true false (roundStart : World ℝ))).particles.map (fun p => p.x)
      = [315] := by
    unfold runningTickParticlesLast
    rw [groundCollision_clear _ _ hclear, updateParticles_particles, particleLoop_eq_filter_map,
      playerCollision_particles]
    have hsp : spawned stillHost (playerCollision
        ⟨Real.sqrt, fun y x => Complex.arg ⟨x, y⟩, Real.cos, Real.sin⟩ stillHost
        (afterWalls (hoverUpdate ⟨Real.sqrt, fun y x => Complex.arg ⟨x, y⟩, Real.cos, Real.sin⟩
          stillHost (setMovement true false (roundStart : World ℝ)))))
        = [createParticle stillHost (movePlayer
            (hoverUpdate ⟨Real.sqrt, fun y x => Complex.arg ⟨x, y⟩, Real.cos, Real.sin⟩
              stillHost (setMovement true false (roundStart : World ℝ))).player)] := by
      unfold spawned
      rw [playerCollision_particles, playerCollision_gameRunning, playerCollision_player]
      rw [if_pos]
      · rfl
      · constructor
        · show (roundStart : World ℝ).particles.length < PARTICLE_COUNT
          rw [show (roundStart : World ℝ).particles = [] from by
            unfold roundStart; rw [startGame_particles]; rfl]
          show 0 < PARTICLE_COUNT
          unfold PARTICLE_COUNT
          omega
        · exact hrun
    rw [hsp]
    have hnil : (afterWalls (hoverUpdate
        ⟨Real.sqrt, fun y x => Complex.arg ⟨x, y⟩, Real.cos, Real.sin⟩
        stillHost (setMovement true false (roundStart : World ℝ)))).particles = [] := by
      show (roundStart : World ℝ).particles = []
      unfold roundStart; rw [startGame_particles]; rfl
    rw [hnil]
    simp [hoverUpdate, particleStep, createParticle, movePlayer, stillHost,
      zeroHost, setMovement, roundStart, startGame, selectCharacter, initialWorld,
      stopRecording, PARTICLE_LIFETIME_MIN, CANVAS_WIDTH, PLAYER_WIDTH, PLAYER_SPEED]
    norm_num
  refine ⟨hpx, hp1, hp2, ?_⟩
  intro hc
  rw [hc, hp2] at hp1
  norm_num at hp1

/-- C22 (amended): a running tick of `update` applies its steps in the order hover and
particle update (with the spawn), then player movement, then ball integration, then
collision resolution (walls, then player, then ground). The collision checks read the
player and the ball already advanced for this tick: the hit test is taken on the moved
player and the wall-resolved ball, and the ground test on the integrated height. The
particle spawned in the tick is anchored at the lower centre of the player as it is
before this tick's movement, and `update` leaves the supernova effect to `drawGame`
unless a hit or the end of the round triggers one. -/
theorem C22_order_of_steps (m : JSMath α) (h : Host α) (w : World α)
    (hrun : w.gameRunning = true) :
    update m h w
      = groundCollision h (playerCollision m h
          { updateParticles m h (hoverUpdate m h w) with
            player := movePlayer (updateParticles m h (hoverUpdate m h w)).player
            ball := wallCollision
              (integrateBall (updateParticles m h (hoverUpdate m h w)).ball) })
    ∧ (update m h w).score
        = (if playerHit m (movePlayer w.player) (wallCollision (integrateBall w.ball))
            then w.score + 1 else w.score)
    ∧ ((update m h w).gameRunning = false ↔
        w.ball.y + (w.ball.velocity.y + GRAVITY) + w.ball.radius > CANVAS_HEIGHT - GROUND_HEIGHT)
    ∧ (update m h w).player.x = (movePlayer w.player).x
    ∧ (update m h w).particles
        = simpleParticleUpdate (w.particles ++ spawned h (hoverUpdate m h w))
    ∧ (∀ p ∈ spawned h (hoverUpdate m h w),
        p.x = w.player.x + w.player.width / 2
        ∧ p.y = w.player.y + m.sin (h.nowHover * w.player.hoverSpeed) * w.player.hoverHeight
            + w.player.height)
    ∧ (playerHit m (movePlayer w.player) (wallCollision (integrateBall w.ball)) = false →
        ¬ (w.ball.y + (w.ball.velocity.y + GRAVITY) + w.ball.radius
          > CANVAS_HEIGHT - GROUND_HEIGHT) →
        (update m h w).supernovaEffect = w.supernovaEffect) := by
  refine ⟨update_running_eq m h w hrun, update_running_score m h w hrun, ?_,
    update_running_player_x m h w hrun, update_particles_simple m h w, ?_, ?_⟩
  · constructor
    · intro hf
      by_contra hc
      have := (update_running_clear m h w hrun hc).1
      rw [hf] at this
      exact Bool.false_ne_true this
    · intro hc
      exact (update_running_crossing m h w hrun hc).1
  · intro p hp
    unfold spawned at hp
    split_ifs at hp
    · rw [List.mem_singleton] at hp
      rw [hp]
      exact ⟨rfl, rfl⟩
    · exact absurd hp (List.not_mem_nil _)
  · intro hno hc
    rw [update_running_supernova m h w hrun hc, hno]
    rfl

theorem C22_order_of_steps_witness :
    (update ⟨Real.sqrt, fun y x => Complex.arg ⟨x, y⟩, Real.cos, Real.sin⟩ stillHost
        (setMovement true false (roundStart : World ℝ))).particles
      = simpleParticleUpdate ((setMovement true false (roundStart : World ℝ)).particles
          ++ spawned stillHost
            (hoverUpdate ⟨Real.sqrt, fun y x => Complex.arg ⟨x, y⟩, Real.cos, Real.sin⟩
              stillHost (setMovement true false (roundStart : World ℝ))))
    ∧ (update ⟨Real.sqrt, fun y x => Complex.arg ⟨x, y⟩, Real.cos, Real.sin⟩ stillHost
        (setMovement true false (roundStart : World ℝ))).player.x
      = (movePlayer (setMovement true false (roundStart : World ℝ)).player).x :=
  have hw := C22_order_of_steps
    ⟨Real.sqrt, fun y x => Complex.arg ⟨x, y⟩, Real.cos, Real.sin⟩ stillHost
    (setMovement true false (roundStart : World ℝ)) (startGame_flags zeroHost _ rfl rfl).1
  ⟨hw.2.2.2.2.1, hw.2.2.2.1⟩

/-- C23 (counterexample): a session of `startGame` and `update` calls in which the player
catches the first ball. The character is chosen and the round starts with high score 0;
the ball flies for 85 ticks, the right key goes down, and at tick 122 the ball comes down
on the player. The state reached is running with score 1 and high score 0: the score
observed is above the high score. Leaving the round and starting the next one keeps the
high score at 0, below the score 1 seen in the earlier round. -/
theorem C23_score_above_highScore :
    (run ⟨Real.sqrt, fun y x => Complex.arg ⟨x, y⟩, Real.cos, Real.sin⟩ firstHitTrace
        (initialWorld : World ℝ)).score = 1
    ∧ (run ⟨Real.sqrt, fun y x => Complex.arg ⟨x, y⟩, Real.cos, Real.sin⟩ firstHitTrace
        (initialWorld : World ℝ)).highScore = 0
    ∧ (run ⟨Real.sqrt, fun y x => Complex.arg ⟨x, y⟩, Real.cos, Real.sin⟩ firstHitTrace
        (initialWorld : World ℝ)).gameRunning = true
    ∧ ¬ ((run ⟨Real.sqrt, fun y x => Complex.arg ⟨x, y⟩, Real.cos, Real.sin⟩ firstHitTrace
          (initialWorld : World ℝ)).score
        ≤ (run ⟨Real.sqrt, fun y x => Complex.arg ⟨x, y⟩, Real.cos, Real.sin⟩ firstHitTrace
          (initialWorld : World ℝ)).highScore)
    ∧ (run ⟨Real.sqrt, fun y x => Complex.arg ⟨x, y⟩, Real.cos, Real.sin⟩
        (firstHitTrace ++ [Event.showCharacterSelectScreen, Event.startGame zeroHost])
        (initialWorld : World ℝ)).highScore = 0 := by
  have hw := firstHitTrace_hit
    (⟨Real.sqrt, fun y x => Complex.arg ⟨x, y⟩, Real.cos, Real.sin⟩ : JSMath ℝ)
    (fun a ha => ⟨Real.sqrt_nonneg a, Real.mul_self_sqrt ha⟩)
  refine ⟨hw.1, hw.2.1, hw.2.2, ?_, ?_⟩
  · rw [hw.1, hw.2.1]; decide
  · have r4 : ∀ v : World ℝ,
        run ⟨Real.sqrt, fun y x => Complex.arg ⟨x, y⟩, Real.cos, Real.sin⟩
          [Event.showCharacterSelectScreen, Event.startGame zeroHost] v
        = startGame zeroHost (showCharacterSelectScreen v) := fun _ => rfl
    rw [run_append, r4, leaveRound_highScore]
    exact hw.2.1

/-- C23 (amended): the high score is raised only by the check at the end of a round. From
every state in which the two flags exclude each other and a finished round is recorded
(in GameOver the score is at most the high score), every sequence of events leads to such
a state again, the high score never decreases, and the score of a round that ended in
GameOver stays at most the high score whatever follows. The initial state is such a state,
so this holds in every reachable state. While a round is running, and after a round was
left through `showCharacterSelectScreen`, the score may be above the high score. -/
theorem C23_highScore_records_finished_rounds (m : JSMath α) (w0 : World α)
    (es es2 : List (Event α)) (h0 : scoreRecorded w0) :
    scoreRecorded (run m es w0)
    ∧ ((run m es w0).gameOver = true → (run m es w0).score ≤ (run m es w0).highScore)
    ∧ w0.highScore ≤ (run m es w0).highScore
    ∧ ((run m es w0).gameOver = true →
        (run m es w0).score ≤ (run m es2 (run m es w0)).highScore)
    ∧ scoreRecorded (initialWorld : World α)
    ∧ scoreRecorded (run m es initialWorld) := by
  have hi : scoreRecorded (initialWorld : World α) :=
    ⟨fun hc => absurd hc.1 Bool.false_ne_true, fun hc => absurd hc Bool.false_ne_true⟩
  have h1 := run_scoreRecorded m es w0 h0
  exact ⟨h1, h1.2, run_highScore_mono m es w0,
    fun hg => le_trans (h1.2 hg) (run_highScore_mono m es2 _), hi,
    run_scoreRecorded m es initialWorld hi⟩

theorem C23_highScore_records_finished_rounds_witness :
    (update ⟨Real.sqrt, fun y x => Complex.arg ⟨x, y⟩, Real.cos, Real.sin⟩ zeroHost
        (withScore 3 5 (withBall 320 445 0 1) : World ℝ)).gameOver = true
    ∧ (update ⟨Real.sqrt, fun y x => Complex.arg ⟨x, y⟩, Real.cos, Real.sin⟩ zeroHost
        (withScore 3 5 (withBall 320 445 0 1) : World ℝ)).score
      ≤ (update ⟨Real.sqrt, fun y x => Complex.arg ⟨x, y⟩, Real.cos, Real.sin⟩ zeroHost
        (withScore 3 5 (withBall 320 445 0 1) : World ℝ)).highScore :=
  have hrun : (withScore 3 5 (withBall 320 445 0 1) : World ℝ).gameRunning = true :=
    (startGame_flags zeroHost _ rfl rfl).1
  have hover : (withScore 3 5 (withBall 320 445 0 1) : World ℝ).gameOver = false :=
    (startGame_flags zeroHost _ rfl rfl).2.1
  have hg := (update_running_crossing
    ⟨Real.sqrt, fun y x => Complex.arg ⟨x, y⟩, Real.cos, Real.sin⟩ zeroHost
    (withScore 3 5 (withBall 320 445 0 1) : World ℝ) hrun (by
      simp [withScore, withBall, roundStart, startGame, selectCharacter, initialWorld,
        stopRecording, zeroHost, GRAVITY, CANVAS_HEIGHT, GROUND_HEIGHT, BALL_RADIUS]
      norm_num)).2.1
  have hw := C23_highScore_records_finished_rounds
    ⟨Real.sqrt, fun y x => Complex.arg ⟨x, y⟩, Real.cos, Real.sin⟩
    (withScore 3 5 (withBall 320 445 0 1) : World ℝ) [Event.update zeroHost] []
    ⟨fun hc => by rw [hover] at hc; exact absurd hc.2 Bool.false_ne_true,
      fun hc => by rw [hover] at hc; exact absurd hc Bool.false_ne_true⟩
  ⟨hg, hw.2.1 hg⟩

/-- C24 (the code at the failing inputs): one `drawGame` call applies the supernova step
twice to an active effect (once in `drawBackground`, once by its own unguarded
`drawSupernova` call), so the radius grows by 4 and alpha drops by 0.02 in one frame, and
it applies the step once to an effect that is already inactive, which is thereby
changed. -/
theorem C24_supernova_steps_per_frame :
    (roundStart : World ℚ).supernovaEffect.active = true
    ∧ (roundStart : World ℚ).supernovaEffect.radius = 10
    ∧ (roundStart : World ℚ).supernovaEffect.alpha = 0.3
    ∧ (drawGame (roundStart : World ℚ)).supernovaEffect.radius = 14
    ∧ (drawGame (roundStart : World ℚ)).supernovaEffect.alpha = 0.28
    ∧ (initialWorld : World ℚ).supernovaEffect.active = false
    ∧ (initialWorld : World ℚ).supernovaEffect.radius = 0
    ∧ (initialWorld : World ℚ).supernovaEffect.alpha = 1
    ∧ (drawGame (initialWorld : World ℚ)).supernovaEffect.radius = 2
    ∧ (drawGame (initialWorld : World ℚ)).supernovaEffect.alpha = 0.99
    ∧ (drawGame (initialWorld : World ℚ)).supernovaEffect
        ≠ (initialWorld : World ℚ).supernovaEffect := by
  have h1 : (roundStart : World ℚ).supernovaEffect
      = { active := true, x := 320, y := 240, radius := 10, maxRadius := 500, alpha := 0.3
          color := "#ffaa00" } := by
    simp [roundStart, startGame, selectCharacter, initialWorld, stopRecording, zeroHost,
      triggerSupernova, jsOr, CANVAS_WIDTH, CANVAS_HEIGHT]
    norm_num
  have h2 : (drawGame (roundStart : World ℚ)).supernovaEffect
      = drawSupernova (drawSupernova (roundStart : World ℚ).supernovaEffect) := by
    simp [drawGame, h1]
  have h3 : (drawGame (initialWorld : World ℚ)).supernovaEffect
      = drawSupernova (initialWorld : World ℚ).supernovaEffect := by
    simp [drawGame, initialWorld]
  refine ⟨by rw [h1], by rw [h1], by rw [h1], ?_, ?_, rfl, rfl, rfl, ?_, ?_, ?_⟩
  · rw [h2, h1]; simp [drawSupernova]; norm_num
  · rw [h2, h1]; simp [drawSupernova]; norm_num
  · rw [h3]; simp [drawSupernova, initialWorld]
  · rw [h3]; simp [drawSupernova, initialWorld]; norm_num
  · rw [h3]
    intro hc
    have := congrArg Supernova.radius hc
    simp [drawSupernova, initialWorld] at this

/-- C25: the back-to-front loop with removal in place of `updateParticles` computes the
simple update: for every particle list the loop result is the list with the one-step
update applied to every element once, with the elements whose lifetime is at most 0
filtered out and the survivors in their original order; the particle list after
`updateParticles` is this update of the list with the new particle, if any, appended. -/
theorem C25_loop_is_map_filter (ps : List (Particle α)) (m : JSMath α) (h : Host α)
    (w : World α) :
    particleLoop ps.length ps = simpleParticleUpdate ps
    ∧ particleLoop ps.length ps
        = (ps.map particleStep).filter (fun q => !decide (q.lifetime ≤ 0))
    ∧ (particleLoop ps.length ps).Sublist (ps.map particleStep)
    ∧ (∀ q, q ∈ particleLoop ps.length ps ↔ q ∈ ps.map particleStep ∧ ¬ q.lifetime ≤ 0)
    ∧ (updateParticles m h w).particles = simpleParticleUpdate (w.particles ++ spawned h w) := by
  have hf : (fun q : Particle α => decide (0 < q.lifetime))
      = (fun q : Particle α => !decide (q.lifetime ≤ 0)) := by
    funext q
    by_cases hq : q.lifetime ≤ 0
    · simp [hq, not_lt.mpr hq]
    · simp [hq, not_le.mp hq]
  have he : particleLoop ps.length ps
      = (ps.map particleStep).filter (fun q => !decide (q.lifetime ≤ 0)) := by
    rw [particleLoop_eq_filter_map, hf]
  refine ⟨he, he, ?_, ?_, ?_⟩
  · rw [he]; exact List.filter_sublist _
  · intro q
    rw [he, List.mem_filter]
    simp
  · rw [updateParticles_particles, particleLoop_eq_filter_map, hf]
    rfl

/-- C26 (counterexample): with the player at the start position and the ball at
`(320, 425)` falling with velocity `(0, -0.05)`, the first tick registers a hit at check
velocity 0.1 (score 1); the velocity after the bounce, -0.102, is positive again after one
more gravity step, the ball is still inside the collision circle, and the next tick
registers a second hit (score 2). -/
theorem C26_second_hit_in_next_tick :
    (withBall 320 425 0 (-0.05) : World ℝ).gameRunning = true
    ∧ (update ⟨Real.sqrt, fun y x => Complex.arg ⟨x, y⟩, Real.cos, Real.sin⟩ zeroHost
        (withBall 320 425 0 (-0.05) : World ℝ)).score = 1
    ∧ playerHit ⟨Real.sqrt, fun y x => Complex.arg ⟨x, y⟩, Real.cos, Real.sin⟩
        (movePlayer (update ⟨Real.sqrt, fun y x => Complex.arg ⟨x, y⟩, Real.cos, Real.sin⟩
          zeroHost (withBall 320 425 0 (-0.05) : World ℝ)).player)
        (wallCollision (integrateBall
          (update ⟨Real.sqrt, fun y x => Complex.arg ⟨x, y⟩, Real.cos, Real.sin⟩
            zeroHost (withBall 320 425 0 (-0.05) : World ℝ)).ball)) = true
    ∧ (update ⟨Real.sqrt, fun y x => Complex.arg ⟨x, y⟩, Real.cos, Real.sin⟩ zeroHost
        (update ⟨Real.sqrt, fun y x => Complex.arg ⟨x, y⟩, Real.cos, Real.sin⟩ zeroHost
          (withBall 320 425 0 (-0.05) : World ℝ))).score = 2 := by
  have hw := slow_hit_repeats
    ⟨Real.sqrt, fun y x => Complex.arg ⟨x, y⟩, Real.cos, Real.sin⟩ (zeroHost : Host ℝ) zeroHost
    (fun a ha => ⟨Real.sqrt_nonneg a, Real.mul_self_sqrt ha⟩) Real.abs_cos_le_one
  exact ⟨hw.1, hw.2.2.1, hw.2.2.2.2.2.1, hw.2.2.2.2.2.2⟩

/-- C26 (amended): if a running tick registers a player hit at a check velocity `v`
(the vertical velocity after gravity) with `BOUNCE_POWER_INCREASE * v ≥ GRAVITY`, that
is `v ≥ 0.15 / 1.02`, the tick that follows registers no hit and leaves the score as it
is, whatever the movement flags are in between: the velocity it checks is
`GRAVITY - 1.02 * v ≤ 0`. -/
theorem C26_no_second_hit (m : JSMath α) (h h2 : Host α) (w : World α) (left right : Bool)
    (hrun : w.gameRunning = true)
    (hhit : playerHit m (movePlayer w.player) (wallCollision (integrateBall w.ball)) = true)
    (hfast : GRAVITY ≤ BOUNCE_POWER_INCREASE * (w.ball.velocity.y + GRAVITY)) :
    (update m h w).score = w.score + 1
    ∧ (update m h w).ball.velocity.y + GRAVITY ≤ 0
    ∧ playerHit m (movePlayer (setMovement left right (update m h w)).player)
        (wallCollision (integrateBall (setMovement left right (update m h w)).ball)) = false
    ∧ (update m h2 (setMovement left right (update m h w))).score = (update m h w).score
    ∧ (update m h2 (update m h w)).score = (update m h w).score := by
  have hs := update_running_score m h w hrun
  rw [if_pos hhit] at hs
  have hv := update_after_hit_vy m h w hrun hhit
  have hle : (update m h w).ball.velocity.y + GRAVITY ≤ 0 := by
    rw [hv]; linarith
  have hno : ∀ p : Player α,
      playerHit m p (wallCollision (integrateBall (update m h w).ball)) = false := by
    intro p
    apply playerHit_false_of_vy
    rw [wallCollision_vy]
    exact hle
  have hnext : ∀ v : World α, v.ball = (update m h w).ball → v.score = (update m h w).score →
      (update m h2 v).score = (update m h w).score := by
    intro v hb hsc
    cases hr : v.gameRunning with
    | false => rw [(update_idle_fields m h2 v hr).1, hsc]
    | true =>
      rw [update_running_score m h2 v hr, hb, hno, if_neg Bool.false_ne_true, hsc]
  exact ⟨hs, hle, hno _, hnext _ rfl rfl, hnext _ rfl rfl⟩

theorem C26_no_second_hit_witness :
    (update ⟨Real.sqrt, fun y x => Complex.arg ⟨x, y⟩, Real.cos, Real.sin⟩ zeroHost
        (withBall 320 425 0 0.85 : World ℝ)).score = 1
    ∧ (update ⟨Real.sqrt, fun y x => Complex.arg ⟨x, y⟩, Real.cos, Real.sin⟩ zeroHost
        (update ⟨Real.sqrt, fun y x => Complex.arg ⟨x, y⟩, Real.cos, Real.sin⟩ zeroHost
          (withBall 320 425 0 0.85 : World ℝ))).score
      = (update ⟨Real.sqrt, fun y x => Complex.arg ⟨x, y⟩, Real.cos, Real.sin⟩ zeroHost
          (withBall 320 425 0 0.85 : World ℝ)).score :=
  have hw := C26_no_second_hit
    ⟨Real.sqrt, fun y x => Complex.arg ⟨x, y⟩, Real.cos, Real.sin⟩ zeroHost zeroHost
    (withBall 320 425 0 0.85 : World ℝ) false false
    (by simp [withBall, roundStart, startGame, selectCharacter, initialWorld])
    (by
      simp [withBall, roundStart, startGame, selectCharacter, initialWorld, stopRecording,
        playerHit, hitDistance, movePlayer, wallCollision, integrateBall, GRAVITY,
        CANVAS_WIDTH, CANVAS_HEIGHT, PLAYER_WIDTH, PLAYER_HEIGHT, GROUND_HEIGHT, BALL_RADIUS]
      norm_num)
    (by
      simp [withBall, roundStart, startGame, selectCharacter, initialWorld, stopRecording,
        GRAVITY, BOUNCE_POWER_INCREASE]
      norm_num)
  ⟨hw.1, hw.2.2.2.2⟩

/-- C27: the player check and the ground check of one tick can both fire. From the running
state with the player at the start position and the ball at `(320, 438)` with velocity
`(0, 1)` (any score and high score), one `update` registers a player hit, which adds 1 to
the score, and ends the round, and the high score check of the transition compares the
score already incremented: the high score becomes the maximum of the old one and
`score + 1`. The host square root is the square root. -/
theorem C27_hit_and_game_over (m : JSMath α) (h : Host α) (score highScore : Nat)
    (hsqrt : ∀ a : α, 0 ≤ a → 0 ≤ m.sqrt a ∧ m.sqrt a * m.sqrt a = a) :
    isRunning (withScore score highScore (withBall 320 438 0 1) : World α)
    ∧ playerHit m (movePlayer (withScore score highScore (withBall 320 438 0 1) : World α).player)
        (wallCollision (integrateBall
          (withScore score highScore (withBall 320 438 0 1) : World α).ball)) = true
    ∧ (update m h (withScore score highScore (withBall 320 438 0 1))).score = score + 1
    ∧ isGameOver (update m h (withScore score highScore (withBall 320 438 0 1)))
    ∧ (update m h (withScore score highScore (withBall 320 438 0 1))).highScore
        = max highScore (score + 1) := by
  have hr : isRunning (withScore score highScore (withBall 320 438 0 1) : World α) := by
    simp [isRunning, withScore, withBall, roundStart, startGame, selectCharacter, initialWorld,
      stopRecording, zeroHost]
  have hhit : playerHit m
      (movePlayer (withScore score highScore (withBall 320 438 0 1) : World α).player)
      (wallCollision (integrateBall
        (withScore score highScore (withBall 320 438 0 1) : World α).ball)) = true := by
    simp [withScore, withBall, roundStart, startGame, selectCharacter, initialWorld,
      stopRecording, zeroHost, playerHit, hitDistance, movePlayer, wallCollision, integrateBall,
      GRAVITY, CANVAS_WIDTH, CANVAS_HEIGHT, PLAYER_WIDTH, PLAYER_HEIGHT, GROUND_HEIGHT,
      BALL_RADIUS]
    norm_num
    apply sqrt_lt_of_lt_sq m hsqrt <;> norm_num
  have hc : (withScore score highScore (withBall 320 438 0 1) : World α).ball.y
      + ((withScore score highScore (withBall 320 438 0 1) : World α).ball.velocity.y + GRAVITY)
      + (withScore score highScore (withBall 320 438 0 1) : World α).ball.radius
      > CANVAS_HEIGHT - GROUND_HEIGHT := by
    simp [withScore, withBall, roundStart, startGame, selectCharacter, initialWorld,
      stopRecording, zeroHost, GRAVITY, CANVAS_HEIGHT, GROUND_HEIGHT, BALL_RADIUS]
    norm_num
  have hs := update_running_score m h _ hr.1
  rw [if_pos hhit] at hs
  have hg := update_running_crossing m h _ hr.1 hc
  refine ⟨hr, hhit, hs, ⟨hg.1, hg.2.1⟩, ?_⟩
  rw [hg.2.2.1, hs]
  rfl

theorem C27_hit_and_game_over_witness :
    (update ⟨Real.sqrt, fun y x => Complex.arg ⟨x, y⟩, Real.cos, Real.sin⟩ zeroHost
        (withScore 7 7 (withBall 320 438 0 1) : World ℝ)).score = 8
    ∧ isGameOver (update ⟨Real.sqrt, fun y x => Complex.arg ⟨x, y⟩, Real.cos, Real.sin⟩ zeroHost
        (withScore 7 7 (withBall 320 438 0 1) : World ℝ))
    ∧ (update ⟨Real.sqrt, fun y x => Complex.arg ⟨x, y⟩, Real.cos, Real.sin⟩ zeroHost
        (withScore 7 7 (withBall 320 438 0 1) : World ℝ)).highScore = 8 :=
  have hw := C27_hit_and_game_over
    ⟨Real.sqrt, fun y x => Complex.arg ⟨x, y⟩, Real.cos, Real.sin⟩ zeroHost 7 7
    (fun a ha => ⟨Real.sqrt_nonneg a, Real.mul_self_sqrt ha⟩)
  ⟨hw.2.2.1, hw.2.2.2.1, hw.2.2.2.2⟩

/-- C28: from the empty particle list, with every lifetime draw in `[0, 1)` (so that
`createParticle` gives a whole lifetime in 15..29), the particle list holds at most 28
particles after every call, and at most 29 inside a call (after the push, before the
loop); so the cap `PARTICLE_COUNT = 100` is never reached and every tick of a running
game spawns a particle. -/
theorem C28_at_most_28_particles (m : JSMath α) (es : List (Event α)) (h : Host α)
    (hes : ∀ e ∈ es, e.drawsInRange) (hdraw : 0 ≤ h.rLifetime ∧ h.rLifetime < 1) :
    (run m es initialWorld).particles.length ≤ 28
    ∧ ((run m es initialWorld).particles
        ++ spawned h (hoverUpdate m h (run m es initialWorld))).length ≤ 29
    ∧ (update m h (run m es initialWorld)).particles.length ≤ 28
    ∧ (updateParticles m h (run m es initialWorld)).particles.length ≤ 28
    ∧ (run m es initialWorld).particles.length < PARTICLE_COUNT
    ∧ ((run m es initialWorld).gameRunning = true →
        spawned h (hoverUpdate m h (run m es initialWorld))
          = [createParticle h (hoverUpdate m h (run m es initialWorld)).player])
    ∧ (∃ L : Nat, 15 ≤ L ∧ L ≤ 29
        ∧ (createParticle h (hoverUpdate m h (run m es initialWorld)).player).lifetime = L
        ∧ (createParticle h (hoverUpdate m h (run m es initialWorld)).player).maxLifetime = L) := by
  have h0 : agedParticles (initialWorld : World α).particles :=
    ⟨List.Pairwise.nil, fun p hp => absurd hp (List.not_mem_nil _)⟩
  have hinv := run_agedParticles m es initialWorld hes h0
  have hlen := agedParticles_length _ hinv
  have hcap : (run m es initialWorld).particles.length < PARTICLE_COUNT := by
    unfold PARTICLE_COUNT; omega
  refine ⟨hlen, ?_, ?_, ?_, hcap, ?_, createParticle_lifetime h _ hdraw⟩
  · rw [List.length_append]
    have := spawned_length_le h (hoverUpdate m h (run m es initialWorld))
    omega
  · exact agedParticles_length _ (update_agedParticles m h _ hdraw hinv)
  · apply agedParticles_length
    have hf : (fun q : Particle α => decide (0 < q.lifetime))
        = (fun q : Particle α => !decide (q.lifetime ≤ 0)) := by
      funext q
      by_cases hq : q.lifetime ≤ 0
      · simp [hq, not_lt.mpr hq]
      · simp [hq, not_le.mp hq]
    have he : (updateParticles m h (run m es initialWorld)).particles
        = simpleParticleUpdate ((run m es initialWorld).particles
            ++ spawned h (run m es initialWorld)) := by
      rw [updateParticles_particles, particleLoop_eq_filter_map, hf]
      rfl
    rw [he]
    exact agedParticles_update _ _ hinv (spawned_cases h _ hdraw)
  · intro hrun
    unfold spawned
    rw [if_pos]
    exact ⟨hcap, hrun⟩

theorem C28_at_most_28_particles_witness :
    (run ⟨Real.sqrt, fun y x => Complex.arg ⟨x, y⟩, Real.cos, Real.sin⟩
        [Event.selectCharacter true, Event.startGame zeroHost, Event.update zeroHost,
          Event.update zeroHost] (initialWorld : World ℝ)).particles.length ≤ 28
    ∧ (update ⟨Real.sqrt, fun y x => Complex.arg ⟨x, y⟩, Real.cos, Real.sin⟩ zeroHost
        (run ⟨Real.sqrt, fun y x => Complex.arg ⟨x, y⟩, Real.cos, Real.sin⟩
          [Event.selectCharacter true, Event.startGame zeroHost, Event.update zeroHost,
            Event.update zeroHost] (initialWorld : World ℝ))).particles.length ≤ 28 :=
  have hw := C28_at_most_28_particles
    ⟨Real.sqrt, fun y x => Complex.arg ⟨x, y⟩, Real.cos, Real.sin⟩
    [Event.selectCharacter true, Event.startGame zeroHost, Event.update zeroHost,
      Event.update zeroHost] (zeroHost : Host ℝ)
    (by
      intro e he
      simp only [List.mem_cons, List.mem_singleton, List.not_mem_nil, or_false] at he
      rcases he with rfl | rfl | rfl | rfl <;> simp [Event.drawsInRange, zeroHost])
    (by simp [zeroHost])
  ⟨hw.1, hw.2.2.1⟩

/-- C29: the supernova effect ends by itself, and by fading. For an effect as a trigger
leaves it (active, radius 10) with `0 < alpha ≤ 1` and maximal radius at least 300, and
with `N` the least whole number with `N ≥ 100 * alpha`: the effect is active after each
of the first `N - 1` steps and inactive after step `N` and ever after; at step `N` alpha
is at most 0 and the radius is `10 + 2 * N ≤ 210`, below the maximal radius, so the
radius condition holds at no step up to `N`. Every trigger with such arguments, and the
default trigger, gives an effect of this kind. -/
theorem C29_supernova_fades (e : Supernova α)
    (hact : e.active = true) (hrad : e.radius = 10)
    (ha0 : 0 < e.alpha) (ha1 : e.alpha ≤ 1) (hmax : 300 ≤ e.maxRadius) :
    (1 ≤ ⌈100 * e.alpha⌉₊ ∧ ⌈100 * e.alpha⌉₊ ≤ 100)
    ∧ (∀ n : Nat, n < ⌈100 * e.alpha⌉₊ →
        (drawSupernova^[n] e).active = true ∧ 0 < (drawSupernova^[n] e).alpha)
    ∧ (∀ n : Nat, ⌈100 * e.alpha⌉₊ ≤ n → (drawSupernova^[n] e).active = false)
    ∧ (drawSupernova^[⌈100 * e.alpha⌉₊] e).alpha ≤ 0
    ∧ (drawSupernova^[⌈100 * e.alpha⌉₊] e).radius = 10 + 2 * (⌈100 * e.alpha⌉₊ : α)
    ∧ (drawSupernova^[⌈100 * e.alpha⌉₊] e).radius ≤ 210
    ∧ (∀ n : Nat, n ≤ ⌈100 * e.alpha⌉₊ →
        (drawSupernova^[n] e).radius < (drawSupernova^[n] e).maxRadius)
    ∧ (∀ rNova x y maxRadius alpha : α, 0 < alpha → alpha ≤ 1 → 300 ≤ maxRadius →
        (triggerSupernova rNova x y (some maxRadius) (some alpha)).active = true
        ∧ (triggerSupernova rNova x y (some maxRadius) (some alpha)).radius = 10
        ∧ (triggerSupernova rNova x y (some maxRadius) (some alpha)).alpha = alpha
        ∧ (triggerSupernova rNova x y (some maxRadius) (some alpha)).maxRadius = maxRadius)
    ∧ (∀ rNova x y : α, 0 ≤ rNova →
        (triggerSupernova rNova x y none none).active = true
        ∧ (triggerSupernova rNova x y none none).radius = 10
        ∧ (triggerSupernova rNova x y none none).alpha = 0.8
        ∧ 300 ≤ (triggerSupernova rNova x y none none).maxRadius) := by
  have hN1 : 1 ≤ ⌈100 * e.alpha⌉₊ := by
    rw [Nat.one_le_iff_ne_zero, Ne, Nat.ceil_eq_zero, not_le]
    linarith
  have hN100 : ⌈100 * e.alpha⌉₊ ≤ 100 := by
    apply Nat.ceil_le.mpr
    push_cast
    linarith
  have hNge : 100 * e.alpha ≤ (⌈100 * e.alpha⌉₊ : α) := Nat.le_ceil _
  have hNcast : (⌈100 * e.alpha⌉₊ : α) ≤ 100 := by exact_mod_cast hN100
  have hlt : ∀ k : Nat, k < ⌈100 * e.alpha⌉₊ → (k : α) < 100 * e.alpha :=
    fun k hk => Nat.lt_ceil.mp hk
  have hsteps : ∀ n : Nat, n < ⌈100 * e.alpha⌉₊ → (drawSupernova^[n] e).active = true := by
    intro n hn
    apply iterate_drawSupernova_active e n hact
    intro k _ hkn
    have h1 := hlt k (lt_of_le_of_lt hkn hn)
    have h2 : (k : α) ≤ 100 := by
      have : k ≤ 100 := by omega
      exact_mod_cast this
    rw [hrad]
    constructor <;> linarith
  have halphaN : (drawSupernova^[⌈100 * e.alpha⌉₊] e).alpha ≤ 0 := by
    rw [(iterate_drawSupernova e _).2.1]
    linarith
  have hoffN : (drawSupernova^[⌈100 * e.alpha⌉₊] e).active = false := by
    obtain ⟨j, hj⟩ : ∃ j, ⌈100 * e.alpha⌉₊ = j + 1 := ⟨⌈100 * e.alpha⌉₊ - 1, by omega⟩
    have ha := halphaN
    rw [hj] at ha ⊢
    rw [Function.iterate_succ_apply'] at ha ⊢
    cases hc : (drawSupernova (drawSupernova^[j] e)).active with
    | false => rfl
    | true =>
      have := ((drawSupernova_active_iff _).mp hc).2
      exact absurd (Or.inl ha) this
  refine ⟨⟨hN1, hN100⟩, ?_, ?_, halphaN, ?_, ?_, ?_, ?_, ?_⟩
  · intro n hn
    refine ⟨hsteps n hn, ?_⟩
    rw [(iterate_drawSupernova e n).2.1]
    have := hlt n hn
    linarith
  · intro n hn
    exact iterate_drawSupernova_inactive e _ n hn hoffN
  · rw [(iterate_drawSupernova e _).1, hrad]
  · rw [(iterate_drawSupernova e _).1, hrad]
    linarith
  · intro n hn
    rw [(iterate_drawSupernova e n).1, (iterate_drawSupernova e n).2.2, hrad]
    have : (n : α) ≤ 100 := by
      have : n ≤ 100 := by omega
      exact_mod_cast this
    linarith
  · intro rNova x y maxRadius alpha h0 _ h3
    refine ⟨rfl, rfl, ?_, ?_⟩
    · exact jsOr_some_of_ne_zero _ _ (ne_of_gt h0)
    · exact jsOr_some_of_ne_zero _ _ (ne_of_gt (lt_of_lt_of_le (by norm_num) h3))
  · intro rNova x y h0
    refine ⟨rfl, rfl, rfl, ?_⟩
    show 300 ≤ 300 + rNova * 200
    linarith

theorem C29_supernova_fades_witness :
    (drawSupernova^[⌈100 * (roundStart : World ℚ).supernovaEffect.alpha⌉₊]
        (roundStart : World ℚ).supernovaEffect).alpha ≤ 0
    ∧ (drawSupernova^[⌈100 * (roundStart : World ℚ).supernovaEffect.alpha⌉₊]
        (roundStart : World ℚ).supernovaEffect).radius ≤ 210
    ∧ (drawSupernova^[⌈100 * (roundStart : World ℚ).supernovaEffect.alpha⌉₊]
        (roundStart : World ℚ).supernovaEffect).active = false :=
  have h1 : (roundStart : World ℚ).supernovaEffect
      = { active := true, x := 320, y := 240, radius := 10, maxRadius := 500, alpha := 0.3
          color := "#ffaa00" } := by
    simp [roundStart, startGame, selectCharacter, initialWorld, stopRecording, zeroHost,
      triggerSupernova, jsOr, CANVAS_WIDTH, CANVAS_HEIGHT]
    norm_num
  have hw := C29_supernova_fades (roundStart : World ℚ).supernovaEffect
    (by rw [h1]) (by rw [h1]) (by rw [h1]; norm_num) (by rw [h1]; norm_num)
    (by rw [h1]; norm_num)
  ⟨hw.2.2.2.1, hw.2.2.2.2.2.1, hw.2.2.1 _ (le_refl _)⟩

/-- C30: a wall hit sends the ball back into the field. If the ball's `x` at the start of
a running tick lies in `[radius, CANVAS_WIDTH - radius]`, a left-wall hit needs a negative
horizontal velocity and leaves it strictly positive right after wall resolution, a
right-wall hit needs a positive one and leaves it strictly negative, and the two wall
conditions never hold together. The position set by wall resolution is the one at the
end of the tick, and so is the velocity unless the player is hit in the same tick. -/
theorem C30_wall_hit_turns_back (m : JSMath α) (h : Host α) (w : World α)
    (hrun : w.gameRunning = true)
    (hx0 : w.ball.radius ≤ w.ball.x) (hx1 : w.ball.x ≤ CANVAS_WIDTH - w.ball.radius) :
    (w.ball.x + w.ball.velocity.x - w.ball.radius < 0 →
      w.ball.velocity.x < 0 ∧ 0 < (wallCollision (integrateBall w.ball)).velocity.x
      ∧ (update m h w).ball.x = w.ball.radius)
    ∧ (w.ball.x + w.ball.velocity.x + w.ball.radius > CANVAS_WIDTH →
      0 < w.ball.velocity.x ∧ (wallCollision (integrateBall w.ball)).velocity.x < 0
      ∧ (update m h w).ball.x = CANVAS_WIDTH - w.ball.radius)
    ∧ ¬ (w.ball.x + w.ball.velocity.x - w.ball.radius < 0
        ∧ w.ball.x + w.ball.velocity.x + w.ball.radius > CANVAS_WIDTH)
    ∧ (playerHit m (movePlayer w.player) (wallCollision (integrateBall w.ball)) = false →
        (update m h w).ball.velocity.x = (wallCollision (integrateBall w.ball)).velocity.x) := by
  have hk := wallCollision_turns_back w.ball hx0 hx1
  have hx := update_running_ball_x m h w hrun
  refine ⟨?_, ?_, ?_, ?_⟩
  · intro hl
    have := hk.1 hl
    exact ⟨this.1, this.2.1, hx.trans this.2.2⟩
  · intro hg
    have := hk.2 hg
    exact ⟨this.1, this.2.1, hx.trans this.2.2⟩
  · rintro ⟨hl, hg⟩
    linarith
  · intro hno
    rw [update_running_ball m h w hrun, hno]
    rfl

theorem C30_wall_hit_turns_back_witness :
    (withBall 19 240 (-3) (-8) : World ℝ).ball.velocity.x < 0
    ∧ 0 < (wallCollision (integrateBall (withBall 19 240 (-3) (-8) : World ℝ).ball)).velocity.x
    ∧ 0 < (withBall 620 240 3 (-8) : World ℝ).ball.velocity.x
    ∧ (wallCollision (integrateBall (withBall 620 240 3 (-8) : World ℝ).ball)).velocity.x < 0 :=
  have hl := (C30_wall_hit_turns_back
    ⟨Real.sqrt, fun y x => Complex.arg ⟨x, y⟩, Real.cos, Real.sin⟩ zeroHost
    (withBall 19 240 (-3) (-8) : World ℝ)
    (by simp [withBall, roundStart, startGame, selectCharacter, initialWorld])
    (by simp [withBall, roundStart, startGame, selectCharacter, initialWorld, stopRecording,
          BALL_RADIUS]; norm_num)
    (by simp [withBall, roundStart, startGame, selectCharacter, initialWorld, stopRecording,
          BALL_RADIUS, CANVAS_WIDTH]; norm_num)).1
    (by simp [withBall, roundStart, startGame, selectCharacter, initialWorld, stopRecording,
          BALL_RADIUS]; norm_num)
  have hg := (C30_wall_hit_turns_back
    ⟨Real.sqrt, fun y x => Complex.arg ⟨x, y⟩, Real.cos, Real.sin⟩ zeroHost
    (withBall 620 240 3 (-8) : World ℝ)
    (by simp [withBall, roundStart, startGame, selectCharacter, initialWorld])
    (by simp [withBall, roundStart, startGame, selectCharacter, initialWorld, stopRecording,
          BALL_RADIUS]; norm_num)
    (by simp [withBall, roundStart, startGame, selectCharacter, initialWorld, stopRecording,
          BALL_RADIUS, CANVAS_WIDTH]; norm_num)).2.1
    (by simp [withBall, roundStart, startGame, selectCharacter, initialWorld, stopRecording,
          BALL_RADIUS, CANVAS_WIDTH]; norm_num)
  ⟨hl.1, hl.2.1, hg.1, hg.2.1⟩

end Model

end Game
